import Mathlib

/-! The Linkbot daemon: control plane of `DaemonServerImpl`.

A shallow embedding of `daemon/src/daemonserver.hpp` (the daemon's control
interface and dongle lifecycle) and of the client operation of
`common/include/baromesh/daemon.hpp`.

Conventions of the embedding.

* A `boost::system::error_code` is a pair of an integer value and a category.
  Its conversion to `bool` is `value != 0`; equality compares both parts.
* Member variables of `DaemonServerImpl` are fields of one record that is
  passed through every operation.  Calls made on collaborating objects (the
  dongle, the timer, the proxies, the broadcast channel) are appended to the
  field `effects`, oldest first.
* A C++ exception of type `boost::system::system_error` is the `error` case of
  `Except error_code _`; whatever an operation changed before it threw stays
  changed.
* Results of calls into the operating system (resolver, listener sockets) are
  supplied by an environment record, one field per call.
* Enumerator values that are declared in headers outside the sources
  (`daemon.pb.h`, the `sfp` and `rpc` libraries, the platform's `errno` table)
  are fields of `Constants`.
-/

namespace baromesh

/-! ## Error codes -/

/-- The error categories an `error_code` seen by the daemon can belong to:
the daemon's own `errorCategory()`, the categories of the framing (`sfp`) and
RPC (`rpc`) libraries, the system category of Boost.Asio, and any other. -/
inductive Category
  | baromesh
  | sfp
  | rpc
  | system
  | other (n : Nat)
  deriving DecidableEq, Repr

/-- The `boost::system::error_code`: a value and its category. -/
structure error_code where
  value : Int
  category : Category
  deriving DecidableEq, Repr

/-- The conversion `error_code::operator bool`: true for a non-zero value. -/
def error_code.toBool (ec : error_code) : Bool := decide (ec.value ≠ 0)

/-- The default-constructed `boost::system::error_code()`: value 0 in the
system category. -/
def error_code.success : error_code := ⟨0, .system⟩

/-- The enumeration `baromesh::Status` of `status.hpp`. -/
inductive Status
  | OK
  | CANNOT_OPEN_DONGLE
  | DONGLE_NOT_FOUND
  | PORT_OUT_OF_RANGE
  | NO_ROBOT_ENDPOINT
  | UNREGISTERED_SERIALID
  | INVALID_SERIALID
  | DAEMON_UNAVAILABLE
  | STRANGE_DONGLE
  | RPC_VERSION_MISMATCH
  | BUFFER_OVERFLOW
  | OTHER_ERROR
  deriving DecidableEq, Repr

/-- Enumerator values the daemon refers to whose declarations are not part of
the sources.  `status` gives `barobo_Status_*` (from `daemon.pb.h`) for the
enumerators of `status.hpp`; `DONGLE_VERSION_MISMATCH` is the value of
`Status::DONGLE_VERSION_MISMATCH`, which `daemonserver.hpp` names;
`HANDSHAKE_FAILED` is `sfp::Status::HANDSHAKE_FAILED`; the next three are
enumerators of `rpc::Status`; `operation_aborted` is
`boost::asio::error::operation_aborted`. -/
structure Constants where
  status : Status → Int
  DONGLE_VERSION_MISMATCH : Int
  HANDSHAKE_FAILED : Int
  MESSAGE_SANITY_FAILURE : Int
  TIMED_OUT : Int
  VERSION_MISMATCH : Int
  operation_aborted : Int

/-- The `make_error_code (Status)`: the status value in the daemon's category. -/
def make_error_code (K : Constants) (s : Status) : error_code :=
  ⟨K.status s, .baromesh⟩

/-- The code `boost::asio::error::operation_aborted` (system category). -/
def operation_aborted (K : Constants) : error_code :=
  ⟨K.operation_aborted, .system⟩

/-- The normalisation at the head of `dongleEvent` (the `if`/`else if` chain
that rewrites `ec` before it is broadcast). -/
def normalise (K : Constants) (ec : error_code) : error_code :=
  if (⟨K.HANDSHAKE_FAILED, .sfp⟩ : error_code) = ec
      ∨ (⟨K.MESSAGE_SANITY_FAILURE, .rpc⟩ : error_code) = ec
      ∨ (⟨K.TIMED_OUT, .rpc⟩ : error_code) = ec then
    make_error_code K .STRANGE_DONGLE
  else if (⟨K.VERSION_MISMATCH, .rpc⟩ : error_code) = ec then
    ⟨K.DONGLE_VERSION_MISMATCH, .baromesh⟩
  else if ec.toBool ∧ Category.baromesh ≠ ec.category then
    make_error_code K .CANNOT_OPEN_DONGLE
  else
    ec

/-! ## C strings and fixed-size character fields -/

/-- The terminating character of a C string. -/
def NUL : Char := Char.ofNat 0

/-- The C string held in a character array: the characters before the first
NUL (what `std::string (const char*)` reads). -/
def cstr (field : List Char) : List Char := field.takeWhile (fun c => c != NUL)

/-- The `strncpy (dest, src, n)`, as the `n` characters it writes: the
characters of the C string `src`, at most `n` of them, padded with NULs. -/
def strncpy (src : List Char) (n : Nat) : List Char :=
  (cstr src).take n ++ List.replicate (n - ((cstr src).take n).length) NUL

/-! ## Endpoints -/

/-- The `boost::asio::ip::address`: an IPv4 address of four octets, or an IPv6
address, which is represented by the text `to_string` yields for it. -/
inductive Address
  | v4 (a b c d : Fin 256)
  | v6 (text : String)
  deriving DecidableEq, Repr

/-- The `address::to_string`: dotted decimal for IPv4. -/
def Address.to_string : Address → String
  | .v4 a b c d =>
      toString a.val ++ "." ++ toString b.val ++ "." ++ toString c.val ++ "."
        ++ toString d.val
  | .v6 text => text

/-- The `Tcp::endpoint`: an address and a 16-bit port. -/
structure Endpoint where
  address : Address
  port : Fin 65536
  deriving DecidableEq, Repr

/-- Modelled from the spec: `sizeof (result.endpoint.address)`, the capacity of
the reply's address field, whose declaration (`daemon.pb.h`) is not part of
the sources; the spec gives a capacity of 16 bytes. -/
def addressCapacity : Nat := 16

/-- The reply field `endpoint` of `resolveSerialId`: a character array of
`addressCapacity` bytes and an unsigned 32-bit port. -/
structure TcpEndpoint where
  address : List Char
  port : Nat
  deriving DecidableEq, Repr

/-- The `MethodResult::resolveSerialId`. -/
structure ResolveSerialIdResult where
  status : Int
  has_endpoint : Bool
  endpoint : TcpEndpoint
  deriving DecidableEq, Repr

/-- The value-initialised reply `decltype (result) ()`: every field zero. -/
def ResolveSerialIdResult.zero : ResolveSerialIdResult :=
  { status := 0, has_endpoint := false,
    endpoint := { address := List.replicate addressCapacity NUL, port := 0 } }

/-- The `MethodResult::sendRobotPing`. -/
structure SendRobotPingResult where
  status : Int
  deriving DecidableEq, Repr

/-- The `MethodResult::cycleDongle`, returned as `{}`: it carries nothing. -/
structure CycleDongleResult where
  deriving DecidableEq, Repr

/-- A version triplet of a robot event. -/
structure Version where
  major : Nat
  minor : Nat
  patch : Nat
  deriving DecidableEq, Repr

/-- The `barobo_RobotEvent`: firmware, RPC and interface versions. -/
structure RobotEvent where
  firmwareVersion : Version
  rpc : Version
  interface : Version
  deriving DecidableEq, Repr

/-! ## The daemon's state -/

/-- The completion handlers the daemon binds to asynchronous operations, with
the arguments bound into them (objects are named by their identity). -/
inductive Handler
  | handleCycleDongleStepOne
  | handleCycleDongleStepTwo (dongle : Nat)
  | handleCycleDongleStepThree (dongle sigSet : Nat)
  | handleCycleDongleStepFour (dongle sigSet : Nat)
  | handleRobotEvent
  | resetDongle
  | sendRobotPingHandler
  | handleProxyFinished (serialId : String) (proxy : Nat)
  deriving DecidableEq, Repr

/-- Calls the daemon makes on its collaborators. -/
inductive Effect
  | dongleClose (dongle : Nat)
  | broadcastDongleEvent (status : Int)
  | broadcastRobotEvent (serialId : List Char) (event : RobotEvent)
  | timerCancel
  | timerExpiresFromNow (ms : Nat)
  | timerAsyncWait (h : Handler)
  | proxyServerClose (proxy : Nat)
  | proxyClientClose (proxy : Nat)
  | setRoute (proxy dongle : Nat) (serialId : String)
  | asyncRunProxy (proxy : Nat) (h : Handler)
  | asyncSendRobotPing (dongle : Nat) (serialIds : List String) (h : Handler)
  | asyncReceiveRobotEvent (dongle : Nat) (h : Handler)
  | asyncKeepalive (dongle : Nat) (h : Handler)
  | streamOpen (dongle : Nat) (devicePath : String)
  | streamSetOptions (dongle : Nat)
  | asyncHandshake (dongle : Nat) (h : Handler)
  | asyncConnect (dongle ms : Nat) (h : Handler)
  | sigSetCancel (sigSet : Nat)
  | resolverCancel
  | serverClose
  deriving DecidableEq, Repr

/-- The `ProxyData` object: its identity and what `server.endpoint ()` yields
when asked now (the local endpoint of its listener, or the error thrown). -/
structure ProxyData where
  id : Nat
  listener : Except error_code Endpoint

/-- The `boost::asio::steady_timer`: the expiry set last (milliseconds from
the moment it was set) and the handlers of the waits outstanding on it. -/
structure steady_timer where
  expiry : Option Nat
  waits : List Handler
  deriving DecidableEq, Repr

/-- The installed `Dongle`, named by its identity. -/
structure Dongle where
  id : Nat
  deriving DecidableEq, Repr

/-- The member variables of `DaemonServerImpl`, with the log of calls made on
collaborators (`effects`), the completions of cancelled waits that the
executor is still to deliver (`posted`), and the number of objects created so
far, which is the identity of the next one (`allocated`). -/
structure DaemonServerImpl where
  mDongle : Option Dongle
  mDongleTimer : steady_timer
  mRobotProxies : List (String × ProxyData)
  effects : List Effect
  posted : List (Handler × error_code)
  allocated : Nat

/-! ### The map `mRobotProxies`

A `std::map` is kept as an association list with at most one pair per key;
the order of the pairs is the order of insertion. -/

/-- The `mRobotProxies.find (serialId)`; `none` is `end ()`. -/
def find (m : List (String × ProxyData)) (serialId : String) : Option ProxyData :=
  (m.find? (fun kv => kv.1 == serialId)).map (fun kv => kv.2)

/-- The `mRobotProxies.erase`, by key. -/
def erase (m : List (String × ProxyData)) (serialId : String) :
    List (String × ProxyData) :=
  m.filter (fun kv => kv.1 != serialId)

/-- The `mRobotProxies.insert (std::make_pair (serialId, proxy))`: nothing is
inserted when the key is present; the flag is `success`. -/
def insert (m : List (String × ProxyData)) (serialId : String) (proxy : ProxyData) :
    List (String × ProxyData) × Bool :=
  match find m serialId with
  | some _ => (m, false)
  | none => (m ++ [(serialId, proxy)], true)

/-! ### The acquisition timer -/

/-- The `mDongleTimer.cancel ()`: every outstanding wait completes with
`operation_aborted`. -/
def timerCancel (K : Constants) (st : DaemonServerImpl) : DaemonServerImpl :=
  { st with
    posted := st.posted ++ st.mDongleTimer.waits.map (fun h => (h, operation_aborted K))
    mDongleTimer := { st.mDongleTimer with waits := [] }
    effects := st.effects ++ [.timerCancel] }

/-- The `mDongleTimer.expires_from_now (timeout)`: sets the expiry; waits that
are still outstanding are cancelled. -/
def expires_from_now (K : Constants) (st : DaemonServerImpl) (ms : Nat) :
    DaemonServerImpl :=
  { st with
    posted := st.posted ++ st.mDongleTimer.waits.map (fun h => (h, operation_aborted K))
    mDongleTimer := { expiry := some ms, waits := [] }
    effects := st.effects ++ [.timerExpiresFromNow ms] }

/-- The `mDongleTimer.async_wait (handler)`. -/
def async_wait (st : DaemonServerImpl) (h : Handler) : DaemonServerImpl :=
  { st with
    mDongleTimer := { st.mDongleTimer with waits := st.mDongleTimer.waits ++ [h] }
    effects := st.effects ++ [.timerAsyncWait h] }

/-! ## Timing constants (milliseconds) -/

/-- Wait between unsuccessful attempts to acquire the dongle. -/
def kDongleDevicePathPollTimeout : Nat := 500

/-- Time the dongle is given to answer the RPC connect request. -/
def kDongleConnectTimeout : Nat := 1000

/-- Wait after an I/O error on the dongle before it is reacquired. -/
def kDongleDowntimeAfterError : Nat := 500

/-- Pause after opening the device path. -/
def kDongleSettleTimeAfterOpen : Nat := 500

/-! ## Operations -/

/-- The `dongleEvent (ec)`: normalise the code and broadcast its value. -/
def dongleEvent (K : Constants) (st : DaemonServerImpl) (ec : error_code) :
    DaemonServerImpl :=
  { st with effects := st.effects ++ [.broadcastDongleEvent (normalise K ec).value] }

/-- The `cycleDongleImpl (timeout)`, the timeout in milliseconds. -/
def cycleDongleImpl (K : Constants) (st : DaemonServerImpl) (timeout : Nat) :
    DaemonServerImpl :=
  let st1 :=
    match st.mDongle with
    | some dongle =>
        dongleEvent K
          { st with effects := st.effects ++ [.dongleClose dongle.id], mDongle := none }
          (make_error_code K .DONGLE_NOT_FOUND)
    | none => st
  async_wait (expires_from_now K (timerCancel K st1) timeout) .handleCycleDongleStepOne

/-- The `onFire (MethodIn::cycleDongle)`: `args.seconds` is an unsigned 32-bit
number of seconds. -/
def cycleDongle (K : Constants) (st : DaemonServerImpl) (seconds : Nat) :
    CycleDongleResult × DaemonServerImpl :=
  ({}, cycleDongleImpl K st (seconds * 1000))

/-- What the operating system answers during one `resolveSerialId`: the result
of `mResolver.resolve (query ("127.0.0.1", ""))` with its first endpoint, and
the result of constructing a `ProxyData` on an endpoint: the constructor
throws, or it yields a proxy whose `server.endpoint ()` answers as given. -/
structure ResolveEnv where
  resolve : Except error_code Endpoint
  construct : Endpoint → Except error_code (Except error_code Endpoint)

/-- The status written by the `catch` blocks of the control operations: the
value of an error of the daemon's category, `OTHER_ERROR` for any other. -/
def catchStatus (K : Constants) (e : error_code) : Int :=
  if e.category = Category.baromesh then e.value else K.status .OTHER_ERROR

/-- The lookup of `resolveSerialId` with its inner `try`: the endpoint of the
proxy found, or `none` with `iter == end ()` when there is no entry or when
the entry was undead (`server.endpoint ()` threw) and has been closed and
erased.  With one pair per key, erasing at the iterator is erasing the key.
The two `close ()` calls on the undead proxy are taken not to throw. -/
def findProxy (st : DaemonServerImpl) (serialId : String) :
    DaemonServerImpl × Option Endpoint :=
  match find st.mRobotProxies serialId with
  | none => (st, none)
  | some proxy =>
      match proxy.listener with
      | .ok endpoint => (st, some endpoint)
      | .error _ =>
          ({ st with
              effects := st.effects ++
                [.proxyServerClose proxy.id, .proxyClientClose proxy.id]
              mRobotProxies := erase st.mRobotProxies serialId }, none)

/-- The branch `mRobotProxies.end () == iter` of `resolveSerialId`: resolve a
local endpoint, create the proxy, insert it, ask its server for the endpoint,
route its client through the dongle and start forwarding.  The branch is
entered with no pair for the key in the map (`assert (success)`), so `iter`
is the pair inserted and `proxyServer` is the server of the new proxy. -/
def startProxy (env : ResolveEnv) (st : DaemonServerImpl) (dongle : Dongle)
    (serialId : String) : DaemonServerImpl × Except error_code Endpoint :=
  match env.resolve with
  | .error e => (st, .error e)
  | .ok endpoint =>
      match env.construct endpoint with
      | .error e => (st, .error e)
      | .ok listener =>
          let proxy : ProxyData := { id := st.allocated, listener := listener }
          let st1 : DaemonServerImpl :=
            { st with
              allocated := st.allocated + 1
              mRobotProxies := (insert st.mRobotProxies serialId proxy).1 }
          match listener with
          | .error e => (st1, .error e)
          | .ok endpoint =>
              ({ st1 with
                  effects := st1.effects ++
                    [.setRoute proxy.id dongle.id serialId,
                     .asyncRunProxy proxy.id (.handleProxyFinished serialId proxy.id)] },
               .ok endpoint)

/-- The part of `resolveSerialId` that obtains the proxy endpoint, after the
check of `mDongle`: the lookup, and the creation when nothing was found. -/
def proxyEndpoint (env : ResolveEnv) (st : DaemonServerImpl) (dongle : Dongle)
    (serialId : String) : DaemonServerImpl × Except error_code Endpoint :=
  match (findProxy st serialId).2 with
  | some endpoint => ((findProxy st serialId).1, .ok endpoint)
  | none => startProxy env (findProxy st serialId).1 dongle serialId

/-- The end of the `try` block of `resolveSerialId`: the reply filled from the
endpoint, or `BUFFER_OVERFLOW` thrown. -/
def fillResult (K : Constants) (endpoint : Endpoint) :
    Except error_code ResolveSerialIdResult :=
  if endpoint.address.to_string.length < addressCapacity then
    .ok { status := K.status .OK
          has_endpoint := true
          endpoint :=
            { address :=
                strncpy endpoint.address.to_string.toList (addressCapacity - 1) ++ [NUL]
              port := endpoint.port.val } }
  else
    .error (make_error_code K .BUFFER_OVERFLOW)

/-- The `try` block of `resolveSerialId`. -/
def resolveSerialIdTry (K : Constants) (env : ResolveEnv) (st : DaemonServerImpl)
    (serialId : String) : DaemonServerImpl × Except error_code ResolveSerialIdResult :=
  match st.mDongle with
  | none => (st, .error (make_error_code K .DONGLE_NOT_FOUND))
  | some dongle =>
      match (proxyEndpoint env st dongle serialId).2 with
      | .error e => ((proxyEndpoint env st dongle serialId).1, .error e)
      | .ok endpoint => ((proxyEndpoint env st dongle serialId).1, fillResult K endpoint)

/-- The `onFire (MethodIn::resolveSerialId)`: the `try` block, and the `catch`
that turns a thrown error into a reply without endpoint. -/
def resolveSerialId (K : Constants) (env : ResolveEnv) (st : DaemonServerImpl)
    (serialId : String) : ResolveSerialIdResult × DaemonServerImpl :=
  match (resolveSerialIdTry K env st serialId).2 with
  | .ok result => (result, (resolveSerialIdTry K env st serialId).1)
  | .error e =>
      ({ ResolveSerialIdResult.zero with has_endpoint := false, status := catchStatus K e },
       (resolveSerialIdTry K env st serialId).1)

/-- The `onFire (MethodIn::sendRobotPing)`; `destinations` are the
`destinations_count` serial IDs of the request, in order.  The asynchronous
`asyncSendRobotPing` reports its errors to the handler and throws nothing, so
the `catch` block is reached from the check of `mDongle` only. -/
def sendRobotPing (K : Constants) (st : DaemonServerImpl) (destinations : List String) :
    SendRobotPingResult × DaemonServerImpl :=
  match st.mDongle with
  | none => ({ status := catchStatus K (make_error_code K .DONGLE_NOT_FOUND) }, st)
  | some dongle =>
      ({ status := 0 },
       { st with
          effects := st.effects ++
            [.asyncSendRobotPing dongle.id destinations .sendRobotPingHandler] })

/-- The completion handler given to `asyncSendRobotPing`. -/
def sendRobotPingHandler (K : Constants) (st : DaemonServerImpl) (ec : error_code) :
    DaemonServerImpl :=
  if ec.toBool then cycleDongleImpl K st kDongleDowntimeAfterError else st

/-- The `handleProxyFinished (serialId, proxy, ec)`. -/
def handleProxyFinished (st : DaemonServerImpl) (serialId : String) (_proxy : Nat)
    (_ec : error_code) : DaemonServerImpl :=
  { st with mRobotProxies := erase st.mRobotProxies serialId }

/-- The `receiveRobotEvents ()`; `none` when `mDongle` is null, which the
code dereferences. -/
def receiveRobotEvents (st : DaemonServerImpl) : Option DaemonServerImpl :=
  match st.mDongle with
  | none => none
  | some dongle =>
      some { st with
              effects := st.effects ++ [.asyncReceiveRobotEvent dongle.id .handleRobotEvent] }

/-- The lambda `resetDongle` of `setDongleIoTraps`, the completion handler of
the keepalive. -/
def resetDongle (K : Constants) (st : DaemonServerImpl) (ec : error_code) :
    DaemonServerImpl :=
  if operation_aborted K ≠ ec then cycleDongleImpl K st kDongleDowntimeAfterError else st

/-- The `setDongleIoTraps ()`: the read trap, then the keepalive; `none` when
`mDongle` is null (`assert (mDongle)`). -/
def setDongleIoTraps (st : DaemonServerImpl) : Option DaemonServerImpl :=
  match receiveRobotEvents st with
  | none => none
  | some st1 =>
      match st1.mDongle with
      | none => none
      | some dongle =>
          some { st1 with effects := st1.effects ++ [.asyncKeepalive dongle.id .resetDongle] }

/-- The `handleRobotEvent (ec, serialId, event)`. -/
def handleRobotEvent (K : Constants) (st : DaemonServerImpl) (ec : error_code)
    (serialId : String) (event : RobotEvent) : Option DaemonServerImpl :=
  if !ec.toBool then
    receiveRobotEvents
      { st with
        effects := st.effects ++
          [.broadcastRobotEvent (strncpy serialId.toList 4 ++ [NUL]) event] }
  else if operation_aborted K ≠ ec then
    some (cycleDongleImpl K st kDongleDowntimeAfterError)
  else
    some st

/-- What the operating system answers during acquisition: the device path
lookup, opening the device, and setting the serial line options. -/
structure AcquireEnv where
  dongleDevicePath : Except error_code String
  streamOpen : String → Except error_code Unit
  streamSetOption : Except error_code Unit

/-- The `handleCycleDongleStepOne (ec)`. -/
def handleCycleDongleStepOne (K : Constants) (env : AcquireEnv) (st : DaemonServerImpl)
    (ec : error_code) : DaemonServerImpl :=
  if !ec.toBool then
    match env.dongleDevicePath with
    | .error e => cycleDongleImpl K (dongleEvent K st e) kDongleDevicePathPollTimeout
    | .ok devicePath =>
        let dongle := st.allocated
        let st1 : DaemonServerImpl := { st with allocated := st.allocated + 1 }
        match env.streamOpen devicePath with
        | .error e => cycleDongleImpl K (dongleEvent K st1 e) kDongleDevicePathPollTimeout
        | .ok _ =>
            async_wait
              (expires_from_now K
                { st1 with effects := st1.effects ++ [.streamOpen dongle devicePath] }
                kDongleSettleTimeAfterOpen)
              (.handleCycleDongleStepTwo dongle)
  else
    st

/-- The `handleCycleDongleStepTwo (dongle, ec)`. -/
def handleCycleDongleStepTwo (K : Constants) (env : AcquireEnv) (st : DaemonServerImpl)
    (dongle : Nat) (ec : error_code) : DaemonServerImpl :=
  if !ec.toBool then
    match env.streamSetOption with
    | .error e => cycleDongleImpl K (dongleEvent K st e) kDongleDevicePathPollTimeout
    | .ok _ =>
        let sigSet := st.allocated
        { st with
          allocated := st.allocated + 1
          effects := st.effects ++
            [.streamSetOptions dongle,
             .asyncHandshake dongle (.handleCycleDongleStepThree dongle sigSet)] }
  else
    st

/-- The `handleCycleDongleStepThree (dongle, sigSet, ec)`, the completion
handler of the framing handshake. -/
def handleCycleDongleStepThree (K : Constants) (st : DaemonServerImpl)
    (dongle sigSet : Nat) (ec : error_code) : DaemonServerImpl :=
  if !ec.toBool then
    { st with
      effects := st.effects ++
        [.asyncConnect dongle kDongleConnectTimeout
          (.handleCycleDongleStepFour dongle sigSet)] }
  else if operation_aborted K ≠ ec then
    cycleDongleImpl K (dongleEvent K st ec) kDongleDevicePathPollTimeout
  else
    st

/-- The `handleCycleDongleStepFour (dongle, sigSet, ec)`, the completion
handler of the RPC connect. -/
def handleCycleDongleStepFour (K : Constants) (st : DaemonServerImpl)
    (dongle sigSet : Nat) (ec : error_code) : Option DaemonServerImpl :=
  if !ec.toBool then
    (setDongleIoTraps
      { st with
        effects := st.effects ++ [.sigSetCancel sigSet]
        mDongle := some { id := dongle } }).map
      (fun st1 => dongleEvent K st1 (make_error_code K .OK))
  else if operation_aborted K ≠ ec then
    some (cycleDongleImpl K (dongleEvent K st ec) kDongleDevicePathPollTimeout)
  else
    some st

/-! ## The client operation `asyncResolveSerialId` -/

/-- The request built by `asyncResolveSerialId`: the five bytes of
`args.serialId.value`; `none` when `assert (4 == serialId.size ())` fails. -/
def resolveSerialIdArgs (serialId : String) : Option (List Char) :=
  if 4 = serialId.length then some (strncpy serialId.toList 4 ++ [NUL]) else none

/-- The completion lambda of `asyncResolveSerialId`: from the transport's
error code and the reply to what the caller's handler is invoked with, an
error code and the pair (address, service). -/
def asyncResolveSerialId (K : Constants) (ec : error_code)
    (result : ResolveSerialIdResult) : error_code × (String × String) :=
  if ec.toBool then
    (ec, ("", ""))
  else if !result.has_endpoint then
    (make_error_code K .NO_ROBOT_ENDPOINT, ("", ""))
  else if result.endpoint.port % 65536 ≠ result.endpoint.port then
    (make_error_code K .PORT_OUT_OF_RANGE, ("", ""))
  else
    (error_code.success,
     (String.mk (cstr result.endpoint.address), toString (result.endpoint.port % 65536)))

/-- Whether a completion handler that took the daemon from `before` to
`after` has called `cycleDongleImpl`, the one place where a wait with
`handleCycleDongleStepOne` is started on the timer; `none` is a handler that
did not run to its end. -/
def recycled (before : DaemonServerImpl) (after : Option DaemonServerImpl) : Bool :=
  match after with
  | none => false
  | some st =>
      decide (Effect.timerAsyncWait .handleCycleDongleStepOne
        ∈ st.effects.drop before.effects.length)

/-! ## Shutdown -/

/-- What the objects closed by `close` report: the error code each call
assigns to `lEc`, per proxy for the two sides of a proxy. -/
structure CloseEnv where
  dongleClose : error_code
  serverClose : error_code
  timerCancel : error_code
  proxyClientClose : Nat → error_code
  proxyServerClose : Nat → error_code

/-- The `operator<` of `std::string`, which orders the keys of the map:
lexicographic in the bytes of the two strings, which for UTF-8 text is
lexicographic in their code points. -/
def keyLess : List Char → List Char → Bool
  | _, [] => false
  | [], _ :: _ => true
  | a :: as, b :: bs => a.toNat < b.toNat || (a.toNat == b.toNat && keyLess as bs)

/-- The pairs of the map in the order in which `for (auto& kv : mRobotProxies)`
visits them: ascending in the key, whatever the order of insertion. -/
def iteration (m : List (String × ProxyData)) : List (String × ProxyData) :=
  m.insertionSort (fun a b => keyLess b.1.toList a.1.toList = false)

/-- The pattern `if (lEc) { ec = lEc; }` of `close`. -/
def lastError (ec lEc : error_code) : error_code := if lEc.toBool then lEc else ec

/-- The `close (ec)`: the resolver is cancelled, the dongle is closed when one
is installed (it stays installed), the control server `mServer` is closed, the
timer is cancelled, and each proxy of the map, in the order of the keys, has
its client closed and then its server.  The result is the final value of
`ec`. -/
def close (K : Constants) (env : CloseEnv) (st : DaemonServerImpl) (ec : error_code) :
    error_code × DaemonServerImpl :=
  let st1 : DaemonServerImpl := { st with effects := st.effects ++ [.resolverCancel] }
  let r2 : error_code × DaemonServerImpl :=
    match st1.mDongle with
    | some dongle =>
        (lastError ec env.dongleClose,
         { st1 with effects := st1.effects ++ [.dongleClose dongle.id] })
    | none => (ec, st1)
  let r3 : error_code × DaemonServerImpl :=
    (lastError r2.1 env.serverClose,
     { r2.2 with effects := r2.2.effects ++ [.serverClose] })
  let r4 : error_code × DaemonServerImpl :=
    (lastError r3.1 env.timerCancel, timerCancel K r3.2)
  (iteration st.mRobotProxies).foldl
    (fun r kv =>
      (lastError (lastError r.1 (env.proxyClientClose kv.2.id))
          (env.proxyServerClose kv.2.id),
       { r.2 with
          effects := r.2.effects ++
            [.proxyClientClose kv.2.id, .proxyServerClose kv.2.id] }))
    r4

/-- The handler that `run` gives to the signal set (SIGINT, SIGTERM): the
daemon is closed when the wait completed without error. -/
def runSignalHandler (K : Constants) (env : CloseEnv) (st : DaemonServerImpl)
    (ec : error_code) : DaemonServerImpl :=
  if !ec.toBool then (close K env st ec).2 else st

/-! ## Start and the executor -/

/-- The daemon as its constructor leaves it: no dongle, an idle timer, no
proxies. -/
def DaemonServerImpl.initial : DaemonServerImpl :=
  { mDongle := none
    mDongleTimer := { expiry := none, waits := [] }
    mRobotProxies := []
    effects := []
    posted := []
    allocated := 0 }

/-- The function posted by `init ()`. -/
def init (K : Constants) (st : DaemonServerImpl) : DaemonServerImpl :=
  cycleDongleImpl K st 0

/-- What the executor can run on the daemon: a request of the control
interface, or a completion handler with the bound arguments and the error
code (and values) the completed operation delivers. -/
inductive Event
  | init
  | cycleDongle (seconds : Nat)
  | resolveSerialId (env : ResolveEnv) (serialId : String)
  | sendRobotPing (destinations : List String)
  | sendRobotPingHandler (ec : error_code)
  | handleProxyFinished (serialId : String) (proxy : Nat) (ec : error_code)
  | handleCycleDongleStepOne (env : AcquireEnv) (ec : error_code)
  | handleCycleDongleStepTwo (env : AcquireEnv) (dongle : Nat) (ec : error_code)
  | handleCycleDongleStepThree (dongle sigSet : Nat) (ec : error_code)
  | handleCycleDongleStepFour (dongle sigSet : Nat) (ec : error_code)
  | handleRobotEvent (ec : error_code) (serialId : String) (event : RobotEvent)
  | resetDongle (ec : error_code)
  | close (env : CloseEnv) (ec : error_code)

/-- The wait on the timer whose handler `h` is now invoked with `ec` is no
longer outstanding: it expired (no error) and leaves the timer's waits, or it
had been cancelled and leaves the posted completions. -/
def completeWait (st : DaemonServerImpl) (h : Handler) (ec : error_code) :
    DaemonServerImpl :=
  if ec.toBool then
    { st with posted := st.posted.erase (h, ec) }
  else
    { st with mDongleTimer := { st.mDongleTimer with waits := st.mDongleTimer.waits.erase h } }

/-- One run of the executor: the state after the request or handler; `none`
when the handler dereferences a null `mDongle`.  For the two handlers of timer
waits the completed wait is taken off the timer first. -/
def run (K : Constants) (st : DaemonServerImpl) : Event → Option DaemonServerImpl
  | .init => some (init K st)
  | .cycleDongle seconds => some (cycleDongle K st seconds).2
  | .resolveSerialId env serialId => some (resolveSerialId K env st serialId).2
  | .sendRobotPing destinations => some (sendRobotPing K st destinations).2
  | .sendRobotPingHandler ec => some (sendRobotPingHandler K st ec)
  | .handleProxyFinished serialId proxy ec => some (handleProxyFinished st serialId proxy ec)
  | .handleCycleDongleStepOne env ec =>
      some (handleCycleDongleStepOne K env
        (completeWait st .handleCycleDongleStepOne ec) ec)
  | .handleCycleDongleStepTwo env dongle ec =>
      some (handleCycleDongleStepTwo K env
        (completeWait st (.handleCycleDongleStepTwo dongle) ec) dongle ec)
  | .handleCycleDongleStepThree dongle sigSet ec =>
      some (handleCycleDongleStepThree K st dongle sigSet ec)
  | .handleCycleDongleStepFour dongle sigSet ec =>
      handleCycleDongleStepFour K st dongle sigSet ec
  | .handleRobotEvent ec serialId event => handleRobotEvent K st ec serialId event
  | .resetDongle ec => some (resetDongle K st ec)
  | .close env ec => some (close K env st ec).2

/-- A sequence of runs, one after the other (the handlers are serialised). -/
def runAll (K : Constants) (st : DaemonServerImpl) : List Event → Option DaemonServerImpl
  | [] => some st
  | event :: events =>
      match run K st event with
      | none => none
      | some st1 => runAll K st1 events

/-- The serial IDs that have a proxy in the map. -/
def serialIds (st : DaemonServerImpl) : List String := st.mRobotProxies.map (fun kv => kv.1)

/-- The calls made between two states. -/
def newEffects (before after : DaemonServerImpl) : List Effect :=
  after.effects.drop before.effects.length

/-- The error codes an acquisition environment throws are errors: their value
is not zero. -/
def AcquireEnv.throwsErrors (env : AcquireEnv) : Prop :=
  (∀ e, env.dongleDevicePath = .error e → e.value ≠ 0)
  ∧ (∀ devicePath e, env.streamOpen devicePath = .error e → e.value ≠ 0)
  ∧ (∀ e, env.streamSetOption = .error e → e.value ≠ 0)

/-- The events whose acquisition environment throws errors only. -/
def Event.throwsErrors : Event → Prop
  | .handleCycleDongleStepOne env _ => env.throwsErrors
  | .handleCycleDongleStepTwo env _ _ => env.throwsErrors
  | _ => True

/-- The names of the enumerators of `baromesh::Status` in `status.hpp`. -/
def Status.name : Status → String
  | .OK => "OK"
  | .CANNOT_OPEN_DONGLE => "CANNOT_OPEN_DONGLE"
  | .DONGLE_NOT_FOUND => "DONGLE_NOT_FOUND"
  | .PORT_OUT_OF_RANGE => "PORT_OUT_OF_RANGE"
  | .NO_ROBOT_ENDPOINT => "NO_ROBOT_ENDPOINT"
  | .UNREGISTERED_SERIALID => "UNREGISTERED_SERIALID"
  | .INVALID_SERIALID => "INVALID_SERIALID"
  | .DAEMON_UNAVAILABLE => "DAEMON_UNAVAILABLE"
  | .STRANGE_DONGLE => "STRANGE_DONGLE"
  | .RPC_VERSION_MISMATCH => "RPC_VERSION_MISMATCH"
  | .BUFFER_OVERFLOW => "BUFFER_OVERFLOW"
  | .OTHER_ERROR => "OTHER_ERROR"

/-- The `catch` block of `sendRobotPing`, for a caught error `e`: the status
is written and the reply is returned; nothing else is touched. -/
def sendRobotPingCatch (K : Constants) (st : DaemonServerImpl) (e : error_code) :
    SendRobotPingResult × DaemonServerImpl :=
  ({ status := catchStatus K e }, st)

/-! ## The dongle proxy of the library (`dongleproxy.hpp`)

Console output (`printf`, `std::cout`) is not part of the embedding. -/

namespace dongle

/-- The argument of the broadcast `receiveUnicast`: the source (a character
array with the serial ID, and a port) and the payload (a byte array and the
number of bytes used). -/
structure ReceiveUnicast where
  serialId : List Char
  port : Nat
  bytes : List Nat
  size : Nat
  deriving DecidableEq, Repr

/-- One emission of the signal `robotMessageReceived (std::string, const
uint8_t*, size_t)`. -/
structure RobotMessage where
  serialId : String
  bytes : List Nat
  size : Nat
  deriving DecidableEq, Repr

/-- The members of `dongle::Proxy` that its handlers touch, and the emissions
of its signal `robotMessageReceived`, oldest first. -/
structure Proxy where
  mLinked : Bool
  robotMessageReceived : List RobotMessage
  deriving DecidableEq, Repr

/-- The `onBroadcast (Broadcast::receiveUnicast arg)`. -/
def Proxy.onBroadcast (proxy : Proxy) (arg : ReceiveUnicast) : Proxy :=
  if arg.port = 0 then
    { proxy with
      robotMessageReceived := proxy.robotMessageReceived ++
        [{ serialId := String.mk (cstr arg.serialId), bytes := arg.bytes, size := arg.size }] }
  else
    proxy

end dongle

/-! ## The WebSocket message queue (`websocketmessagequeue.hpp`)

Of the log statements, the embedding keeps what they dereference.  The value
of `boost::asio::error::message_size` is a parameter. -/

namespace websocket

/-- The consumers given to `mReceiveQueue.consume`: the lambda `consume` of
`asyncReceive` with the caller's buffer and handler bound into it, and the
lambda of `close`, which logs what it discards. -/
inductive Consumer
  | receive (buffer : List Nat) (handler : Nat)
  | discard
  deriving DecidableEq, Repr

/-- The `util::ProducerConsumerQueue <error_code, MessagePtr>` of the utility
library, by its contract: it holds produced items that wait for a consumer, or
consumers that wait for an item, never both.  An item is an error code and a
message pointer (`none` is `nullptr`, a message is its payload). -/
inductive ProducerConsumerQueue
  | data (items : List (error_code × Option (List Nat)))
  | consumers (waiting : List Consumer)
  deriving DecidableEq, Repr

/-- The items that wait in the queue. -/
def ProducerConsumerQueue.items :
    ProducerConsumerQueue → List (error_code × Option (List Nat))
  | .data items => items
  | .consumers _ => []

/-- The `depth ()`: the number of waiting items, negative for waiting
consumers. -/
def ProducerConsumerQueue.depth : ProducerConsumerQueue → Int
  | .data items => items.length
  | .consumers waiting => - (waiting.length : Int)

/-- A handler posted to the executor by the message queue: the handler, the
error code and byte count it is invoked with, and the contents of its buffer
at that moment. -/
structure Completion where
  handler : Nat
  ec : error_code
  nCopied : Nat
  buffer : List Nat
  deriving DecidableEq, Repr

/-- The members of `MessageQueueImpl`: `mPtr` (`none` is null, otherwise the
connection, given by what its `get_transport_ec ()` answers), the receive
queue, the handlers posted so far, and the number of `mPtr->close` calls
made. -/
structure MessageQueueImpl where
  mPtr : Option error_code
  mReceiveQueue : ProducerConsumerQueue
  posted : List Completion
  closeCalls : Nat
  deriving DecidableEq, Repr

/-- The message queue as its constructor leaves it: no connection, nothing
queued. -/
def MessageQueueImpl.initial : MessageQueueImpl :=
  { mPtr := none, mReceiveQueue := .data [], posted := [], closeCalls := 0 }

/-- The code `boost::asio::error::message_size` (system category). -/
def message_size (messageSize : Int) : error_code := ⟨messageSize, .system⟩

/-- The exceptions that the member functions of the message queue throw. -/
inductive Exception
  | bad_weak_ptr
  deriving DecidableEq, Repr

/-- The `this->shared_from_this ()`.  The class names its base
`std::enable_shared_from_this` without `public`, so the base is private: no
`shared_ptr` that comes to own the object can see it, the weak pointer inside
the base is never set, and the call throws `std::bad_weak_ptr`. -/
def shared_from_this (_q : MessageQueueImpl) : Except Exception Unit :=
  .error .bad_weak_ptr

/-- A consumer invoked with an item `(ec2, msg)`: the completions it posts,
or `none` when it dereferences a null `msg`.  The consumer of `asyncReceive`
copies as many bytes of the payload as the buffer takes and posts the handler
with `MessageSize` when that is not the whole payload.  The lambda of `close`
posts nothing; for an item without error it logs `msg->get_payload ().size ()`
and so dereferences `msg`. -/
def invoke (messageSize : Int) (consumer : Consumer) (ec2 : error_code)
    (msg : Option (List Nat)) : Option (List Completion) :=
  match consumer with
  | .discard =>
      if !ec2.toBool then
        match msg with
        | none => none
        | some _ => some []
      else
        some []
  | .receive buffer handler =>
      if !ec2.toBool then
        match msg with
        | none => none
        | some payload =>
            let nCopied := min buffer.length payload.length
            some [{ handler := handler
                    ec := if nCopied = payload.length then error_code.success
                          else message_size messageSize
                    nCopied := nCopied
                    buffer := payload.take nCopied ++ buffer.drop nCopied }]
      else
        some [{ handler := handler, ec := ec2, nCopied := 0, buffer := buffer }]

/-- The `mReceiveQueue.produce (ec, msg)`: the first waiting consumer is
invoked with the item, or the item waits. -/
def produce (messageSize : Int) (q : MessageQueueImpl) (ec : error_code)
    (msg : Option (List Nat)) : Option MessageQueueImpl :=
  match q.mReceiveQueue with
  | .consumers (consumer :: waiting) =>
      (invoke messageSize consumer ec msg).map fun completions =>
        { q with mReceiveQueue := .consumers waiting, posted := q.posted ++ completions }
  | .consumers [] => some { q with mReceiveQueue := .data [(ec, msg)] }
  | .data items => some { q with mReceiveQueue := .data (items ++ [(ec, msg)]) }

/-- The `mReceiveQueue.consume (consumer)`: the consumer is invoked with the
first waiting item, or it waits. -/
def consume (messageSize : Int) (q : MessageQueueImpl) (consumer : Consumer) :
    Option MessageQueueImpl :=
  match q.mReceiveQueue with
  | .data (item :: items) =>
      (invoke messageSize consumer item.1 item.2).map fun completions =>
        { q with mReceiveQueue := .data items, posted := q.posted ++ completions }
  | .data [] => some { q with mReceiveQueue := .consumers [consumer] }
  | .consumers waiting => some { q with mReceiveQueue := .consumers (waiting ++ [consumer]) }

/-- The function that `asyncReceive (buffer, token)` hands to
`mContext.post`, as it runs on the executor; `none` when `mPtr` is null, which
it dereferences. -/
def asyncReceivePosted (messageSize : Int) (q : MessageQueueImpl) (buffer : List Nat)
    (handler : Nat) : Option MessageQueueImpl :=
  match q.mPtr with
  | none => none
  | some ec =>
      if !ec.toBool then
        consume messageSize q (.receive buffer handler)
      else
        some { q with
                posted := q.posted ++
                  [{ handler := handler, ec := ec, nCopied := 0, buffer := buffer }] }

/-- The `asyncReceive (buffer, token)`: it takes `shared_from_this ()` and
then posts its function to the executor.  The result is the exception thrown,
or the buffer and handler bound into the function posted (which runs as
`asyncReceivePosted`), and the state, which the call itself leaves alone. -/
def asyncReceive (q : MessageQueueImpl) (buffer : List Nat) (handler : Nat) :
    Except Exception (List Nat × Nat) × MessageQueueImpl :=
  match shared_from_this q with
  | .error e => (.error e, q)
  | .ok _ => (.ok (buffer, handler), q)

/-- The `setConnectionPtr (ptr)`: `mPtr` is assigned, then
`shared_from_this ()` is taken, then `handleMessage` and `handleClose` are set
as the handlers of the connection.  The result is the exception thrown, or
whether the handlers were set, and the state. -/
def setConnectionPtr (q : MessageQueueImpl) (ptr : error_code) :
    Except Exception Bool × MessageQueueImpl :=
  let q1 : MessageQueueImpl := { q with mPtr := some ptr }
  match shared_from_this q1 with
  | .error e => (.error e, q1)
  | .ok _ => (.ok true, q1)

/-- The `handleMessage (hdl, msg)`. -/
def handleMessage (messageSize : Int) (q : MessageQueueImpl) (payload : List Nat) :
    Option MessageQueueImpl :=
  produce messageSize q error_code.success (some payload)

/-- The first loop of `close`: while the depth is negative, produce
`operation_aborted` with a null message.  The loop is run with a bound on its
rounds; `none` when the bound does not suffice or a consumer fails. -/
def closeConsumers (K : Constants) (messageSize : Int) :
    Nat → MessageQueueImpl → Option MessageQueueImpl
  | 0, q => if q.mReceiveQueue.depth < 0 then none else some q
  | rounds + 1, q =>
      if q.mReceiveQueue.depth < 0 then
        match produce messageSize q (operation_aborted K) none with
        | none => none
        | some q1 => closeConsumers K messageSize rounds q1
      else
        some q

/-- The second loop of `close`: while the depth is positive, consume with the
logging lambda; `none` when the bound does not suffice or the lambda
dereferences a null message. -/
def closeItems (messageSize : Int) : Nat → MessageQueueImpl → Option MessageQueueImpl
  | 0, q => if q.mReceiveQueue.depth > 0 then none else some q
  | rounds + 1, q =>
      if q.mReceiveQueue.depth > 0 then
        match consume messageSize q .discard with
        | none => none
        | some q1 => closeItems messageSize rounds q1
      else
        some q

/-- The `close (ec)`: the two loops, each bounded by the depth it starts
from, then `ec = {}` and, when `mPtr` is set, `mPtr->close`, which assigns
`closeResult` to `ec`.  The result is the final `ec` and the state. -/
def close (K : Constants) (messageSize : Int) (closeResult : error_code)
    (q : MessageQueueImpl) : Option (error_code × MessageQueueImpl) :=
  match closeConsumers K messageSize q.mReceiveQueue.depth.natAbs q with
  | none => none
  | some q1 =>
      match closeItems messageSize q1.mReceiveQueue.depth.natAbs q1 with
      | none => none
      | some q2 =>
          match q2.mPtr with
          | some _ => some (closeResult, { q2 with closeCalls := q2.closeCalls + 1 })
          | none => some (error_code.success, q2)

end websocket

/-- Whether a call recorded in the trace is made on the dongle object or on
the acquisition timer `mDongleTimer`. -/
def Effect.onDongleOrTimer : Effect → Bool
  | .dongleClose _ => true
  | .timerCancel => true
  | .timerExpiresFromNow _ => true
  | .timerAsyncWait _ => true
  | .asyncSendRobotPing _ _ _ => true
  | .asyncReceiveRobotEvent _ _ => true
  | .asyncKeepalive _ _ => true
  | .streamOpen _ _ => true
  | .streamSetOptions _ => true
  | .asyncHandshake _ _ => true
  | .asyncConnect _ _ _ => true
  | _ => false

/-! ## The Linkbot class of the library (`linkbot.cpp`)

Floating-point values are kept symbolic; log statements and console output
are not part of the embedding. -/

namespace barobo

/-- A `double` or `float` value, kept symbolic: a value named by a number (an
argument or a literal, in thousandths), or the result of `radToDeg` or
`degToRad` of such a value. -/
inductive Floating
  | value (thousandths : Int)
  | radToDeg (x : Floating)
  | degToRad (x : Floating)
  deriving DecidableEq, Repr

/-- A `std::function` member of `Impl`: empty, or `std::bind (cb, ...,
userData)` of a callback pointer and the user data. -/
abbrev Callback := Option (Nat × Nat)

/-- A call of a user callback: the pointer called, the arguments of the event
and, last, the user data. -/
inductive Invocation
  | button (cb : Nat) (button : Int) (state : Int) (timestamp : Int) (userData : Nat)
  | encoder (cb : Nat) (jointNo : Int) (angle : Floating) (timestamp : Int) (userData : Nat)
  | joint (cb : Nat) (jointNo : Int) (state : Int) (timestamp : Int) (userData : Nat)
  | accelerometer (cb : Nat) (x y z : Floating) (timestamp : Int) (userData : Nat)
  deriving DecidableEq, Repr

/-- The requests fired at the robot by the callback setters.  The encoder
request carries, for each of the three encoders, a presence flag and the pair
(enable, granularity). -/
inductive Request
  | enableButtonEvent (enable : Bool)
  | enableEncoderEvent (encoders : List (Bool × Bool × Floating))
  | enableJointEvent (enable : Bool)
  | enableAccelerometerEvent (enable : Bool) (granularity : Floating)
  deriving DecidableEq, Repr

/-- The members of `Linkbot::Impl`, with the requests fired through the proxy
and the calls of user callbacks made, oldest first. -/
structure Impl where
  serialId : String
  buttonEventCallback : Callback
  encoderEventCallback : Callback
  jointEventCallback : Callback
  accelerometerEventCallback : Callback
  fired : List Request
  invoked : List Invocation
  deriving DecidableEq, Repr

/-- The `Impl::newButtonValues`, connected to the proxy's `buttonEvent`. -/
def Impl.newButtonValues (m : Impl) (button event timestamp : Int) : Impl :=
  match m.buttonEventCallback with
  | some (cb, userData) =>
      { m with invoked := m.invoked ++ [.button cb button event timestamp userData] }
  | none => m

/-- The `Impl::newEncoderValues`, connected to the proxy's `encoderEvent`. -/
def Impl.newEncoderValues (m : Impl) (jointNo : Int) (anglePosition : Floating)
    (timestamp : Int) : Impl :=
  match m.encoderEventCallback with
  | some (cb, userData) =>
      { m with
        invoked := m.invoked ++
          [.encoder cb jointNo (.radToDeg anglePosition) timestamp userData] }
  | none => m

/-- The `Impl::newJointState`, connected to the proxy's `jointEvent`. -/
def Impl.newJointState (m : Impl) (jointNo state timestamp : Int) : Impl :=
  match m.jointEventCallback with
  | some (cb, userData) =>
      { m with invoked := m.invoked ++ [.joint cb jointNo state timestamp userData] }
  | none => m

/-- The `Impl::newAccelerometerValues`, connected to the proxy's
`accelerometerEvent`. -/
def Impl.newAccelerometerValues (m : Impl) (x y z : Floating) (timestamp : Int) : Impl :=
  match m.accelerometerEventCallback with
  | some (cb, userData) =>
      { m with invoked := m.invoked ++ [.accelerometer cb x y z timestamp userData] }
  | none => m

/-- The `Linkbot::setButtonEventCallback (cb, userData)`; `cb` is `none` for a
null pointer, `reply` is what `proxy.fire (...).get ()` does: it returns, or
throws an exception with the given `what ()`.  The result is the message of
the `Error` thrown, if any, and the state after the call. -/
def setButtonEventCallback (reply : Except String Unit) (m : Impl) (cb : Option Nat)
    (userData : Nat) : Except String Unit × Impl :=
  let enable := cb.isSome
  let m1 : Impl := { m with fired := m.fired ++ [.enableButtonEvent enable] }
  match reply with
  | .error what => (.error (m.serialId ++ ": " ++ what), m1)
  | .ok _ =>
      match cb with
      | some f => (.ok (), { m1 with buttonEventCallback := some (f, userData) })
      | none => (.ok (), { m1 with buttonEventCallback := none })

/-- The `Linkbot::setEncoderEventCallback (cb, userData)`. -/
def setEncoderEventCallback (reply : Except String Unit) (m : Impl) (cb : Option Nat)
    (userData : Nat) : Except String Unit × Impl :=
  let enable := cb.isSome
  let granularity := Floating.degToRad (.value (if enable then 20000 else 0))
  let m1 : Impl :=
    { m with
      fired := m.fired ++
        [.enableEncoderEvent
          [(true, enable, granularity), (true, enable, granularity),
           (true, enable, granularity)]] }
  match reply with
  | .error what => (.error (m.serialId ++ ": " ++ what), m1)
  | .ok _ =>
      match cb with
      | some f => (.ok (), { m1 with encoderEventCallback := some (f, userData) })
      | none => (.ok (), { m1 with encoderEventCallback := none })

/-- The `Linkbot::setJointEventCallback (cb, userData)`. -/
def setJointEventCallback (reply : Except String Unit) (m : Impl) (cb : Option Nat)
    (userData : Nat) : Except String Unit × Impl :=
  let enable := cb.isSome
  let m1 : Impl := { m with fired := m.fired ++ [.enableJointEvent enable] }
  match reply with
  | .error what => (.error (m.serialId ++ ": " ++ what), m1)
  | .ok _ =>
      match cb with
      | some f => (.ok (), { m1 with jointEventCallback := some (f, userData) })
      | none => (.ok (), { m1 with jointEventCallback := none })

/-- The `Linkbot::setAccelerometerEventCallback (cb, userData)`. -/
def setAccelerometerEventCallback (reply : Except String Unit) (m : Impl)
    (cb : Option Nat) (userData : Nat) : Except String Unit × Impl :=
  let enable := cb.isSome
  let granularity := Floating.value (if enable then 50 else 0)
  let m1 : Impl := { m with fired := m.fired ++ [.enableAccelerometerEvent enable granularity] }
  match reply with
  | .error what => (.error (m.serialId ++ ": " ++ what), m1)
  | .ok _ =>
      match cb with
      | some f => (.ok (), { m1 with accelerometerEventCallback := some (f, userData) })
      | none => (.ok (), { m1 with accelerometerEventCallback := none })

/-- The service info that `proxy.connect ().get ()` returns. -/
structure ServiceInfo where
  rpcVersion : Version
  interfaceVersion : Version
  connected : Bool
  deriving DecidableEq, Repr

/-- What `Linkbot::connect` takes from headers outside the sources: the
triplet `rpc::Version<>::triplet ()`, the function `to_string` on version
triplets, and whether the class `Error` derives from `std::exception`. -/
structure Library where
  rpcVersion : Version
  to_string : Version → String
  errorIsStdException : Bool

/-- The `rpc::Version<barobo::Robot>::triplet ()`, from the interface
definition `RPCDEF_HPP ((barobo, Robot), (0, 2, 1), ...)`. -/
def robotInterfaceVersion : Version := { major := 0, minor := 2, patch := 1 }

/-- An exception in flight inside `Linkbot::connect`: an `Error` thrown by the
function itself, or an exception derived from `std::exception` thrown by the
proxy; each with its `what ()`. -/
inductive Thrown
  | error (what : String)
  | stdException (what : String)
  deriving DecidableEq, Repr

/-- The `try` block of `Linkbot::connect`; `reply` is what
`proxy.connect ().get ()` does: it returns a service info, or throws an
exception with the given `what ()`. -/
def connectTry (L : Library) (reply : Except String ServiceInfo) : Except Thrown Unit :=
  match reply with
  | .error what => .error (.stdException what)
  | .ok serviceInfo =>
      if serviceInfo.rpcVersion ≠ L.rpcVersion then
        .error (.error ("RPC version " ++ L.to_string serviceInfo.rpcVersion
          ++ " != local RPC version " ++ L.to_string L.rpcVersion))
      else if serviceInfo.interfaceVersion ≠ robotInterfaceVersion then
        .error (.error ("Robot interface version "
          ++ L.to_string serviceInfo.interfaceVersion
          ++ " != local Robot interface version " ++ L.to_string robotInterfaceVersion))
      else if serviceInfo.connected then
        .ok ()
      else
        .error (.error "connection refused")

/-- The `Linkbot::connect ()`: the `try` block and the handler
`catch (std::exception& e)`, which throws `Error (serialId + ": " +
e.what ())`; an `Error` that is no `std::exception` passes the handler.  The
result is the message of the `Error` thrown, or success. -/
def connect (L : Library) (m : Impl) (reply : Except String ServiceInfo) :
    Except String Unit :=
  match connectTry L reply with
  | .ok _ => .ok ()
  | .error (.stdException what) => .error (m.serialId ++ ": " ++ what)
  | .error (.error what) =>
      if L.errorIsStdException then .error (m.serialId ++ ": " ++ what) else .error what

end barobo

/-! ## Sample values

Concrete constants, environments and states at which the theorems below are
instantiated. -/

/-- Sample enumerator values: `OK` is zero and the codes are pairwise
distinct. -/
def sampleConstants : Constants :=
  { status := fun s =>
      match s with
      | .OK => 0
      | .CANNOT_OPEN_DONGLE => 1
      | .DONGLE_NOT_FOUND => 2
      | .PORT_OUT_OF_RANGE => 3
      | .NO_ROBOT_ENDPOINT => 4
      | .UNREGISTERED_SERIALID => 5
      | .INVALID_SERIALID => 6
      | .DAEMON_UNAVAILABLE => 7
      | .STRANGE_DONGLE => 8
      | .RPC_VERSION_MISMATCH => 9
      | .BUFFER_OVERFLOW => 10
      | .OTHER_ERROR => 11
    DONGLE_VERSION_MISMATCH := 12
    HANDSHAKE_FAILED := 1
    MESSAGE_SANITY_FAILURE := 5
    TIMED_OUT := 9
    VERSION_MISMATCH := 10
    operation_aborted := 125 }

/-- The endpoint `127.0.0.1:40001`. -/
def sampleEndpoint : Endpoint := { address := .v4 127 0 0 1, port := 40001 }

/-- An environment in which the resolver answers `127.0.0.1:0` and a new
listener is bound to `sampleEndpoint`. -/
def sampleEnv : ResolveEnv :=
  { resolve := .ok { address := .v4 127 0 0 1, port := 0 }
    construct := fun _ => .ok (.ok sampleEndpoint) }

/-- An environment in which no listener can be created (the constructor of
`ProxyData` throws the system error 24, too many open files). -/
def sampleFailingEnv : ResolveEnv :=
  { resolve := .ok { address := .v4 127 0 0 1, port := 0 }
    construct := fun _ => .error ⟨24, .system⟩ }

/-- A link-local IPv6 endpoint, whose text has 25 characters. -/
def sampleEndpoint6 : Endpoint :=
  { address := .v6 "fe80::1234:5678:9abc:def0", port := 40002 }

/-- An environment in which a new listener is bound to `sampleEndpoint6`. -/
def sampleEnv6 : ResolveEnv :=
  { resolve := .ok { address := .v6 "::1", port := 0 }
    construct := fun _ => .ok (.ok sampleEndpoint6) }

/-- A daemon with dongle 0 installed, no proxies and an idle timer. -/
def sampleLive : DaemonServerImpl :=
  { mDongle := some { id := 0 }
    mDongleTimer := { expiry := none, waits := [] }
    mRobotProxies := []
    effects := []
    posted := []
    allocated := 1 }

/-- A daemon without dongle, waiting on the acquisition timer. -/
def sampleCooldown : DaemonServerImpl :=
  { mDongle := none
    mDongleTimer := { expiry := some 500, waits := [.handleCycleDongleStepOne] }
    mRobotProxies := []
    effects := []
    posted := []
    allocated := 1 }

/-- A proxy whose listener has died: `server.endpoint ()` throws the system
error 9 (bad file descriptor). -/
def sampleUndeadProxy : ProxyData := { id := 1, listener := .error ⟨9, .system⟩ }

/-- A daemon with dongle 0 installed and an undead proxy for `ABCD`. -/
def sampleUndead : DaemonServerImpl :=
  { sampleLive with mRobotProxies := [("ABCD", sampleUndeadProxy)], allocated := 2 }

/-- The same undead proxy for `ABCD` in a daemon whose dongle is gone. -/
def sampleUndeadCooldown : DaemonServerImpl :=
  { sampleCooldown with mRobotProxies := [("ABCD", sampleUndeadProxy)], allocated := 2 }

/-- An acquisition environment in which the dongle is found at
`/dev/ttyACM0` and every call succeeds. -/
def sampleAcquireEnv : AcquireEnv :=
  { dongleDevicePath := .ok "/dev/ttyACM0"
    streamOpen := fun _ => .ok ()
    streamSetOption := .ok () }

/-- An acquisition environment in which no dongle is found: the lookup
throws `DONGLE_NOT_FOUND`. -/
def sampleNoDongleEnv : AcquireEnv :=
  { dongleDevicePath := .error (make_error_code sampleConstants .DONGLE_NOT_FOUND)
    streamOpen := fun _ => .ok ()
    streamSetOption := .ok () }

/-- A shutdown in which every close succeeds. -/
def sampleCloseEnv : CloseEnv :=
  { dongleClose := error_code.success
    serverClose := error_code.success
    timerCancel := error_code.success
    proxyClientClose := fun _ => error_code.success
    proxyServerClose := fun _ => error_code.success }

/-- A robot event with all versions 1.0.0. -/
def sampleRobotEvent : RobotEvent :=
  { firmwareVersion := ⟨1, 0, 0⟩, rpc := ⟨1, 0, 0⟩, interface := ⟨1, 0, 0⟩ }

/-- A start of the daemon up to the outstanding RPC connect: `init`, the timer
fires, the device (dongle 0) is opened, the settle timer fires, the options
are set and the handshake of dongle 0 (signal set 1) succeeds. -/
def sampleConnecting : List Event :=
  [.init,
   .handleCycleDongleStepOne sampleAcquireEnv error_code.success,
   .handleCycleDongleStepTwo sampleAcquireEnv 0 error_code.success,
   .handleCycleDongleStepThree 0 1 error_code.success]

/-- A start of the daemon up to the live dongle 0, followed by the resolution
of `ABCD`, which creates proxy 2. -/
def sampleResolved : List Event :=
  sampleConnecting ++
    [.handleCycleDongleStepFour 0 1 error_code.success,
     .resolveSerialId sampleEnv "ABCD"]

/-- After `sampleResolved`: the dongle is cycled with zero seconds, the timer
fires, and a second acquisition (dongle 3, signal set 4) runs to its end. -/
def sampleReacquired : List Event :=
  sampleResolved ++
    [.cycleDongle 0,
     .handleCycleDongleStepOne sampleAcquireEnv error_code.success,
     .handleCycleDongleStepTwo sampleAcquireEnv 3 error_code.success,
     .handleCycleDongleStepThree 3 4 error_code.success,
     .handleCycleDongleStepFour 3 4 error_code.success]

/-- After `sampleConnecting`, with the RPC connect of dongle 0 outstanding:
`cycleDongle (10)` is requested, and then the connect completes without
error. -/
def sampleSuperseded : List Event :=
  sampleConnecting ++
    [.cycleDongle 10,
     .handleCycleDongleStepFour 0 1 error_code.success]

/-- After `sampleConnecting`, with the RPC connect of dongle 0 outstanding:
`cycleDongle (0)` is requested, the timer fires and a second acquisition
(dongle 2, signal set 3) reaches its RPC connect; then the connect of the
first acquisition completes without error, and then that of the second. -/
def sampleTwoAttempts : List Event :=
  sampleConnecting ++
    [.cycleDongle 0,
     .handleCycleDongleStepOne sampleAcquireEnv error_code.success,
     .handleCycleDongleStepTwo sampleAcquireEnv 2 error_code.success,
     .handleCycleDongleStepThree 2 3 error_code.success,
     .handleCycleDongleStepFour 0 1 error_code.success,
     .handleCycleDongleStepFour 2 3 error_code.success]

/-- A unicast packet from robot `ABCD`, port 0, with three payload bytes in a
five-byte array. -/
def sampleUnicast : dongle.ReceiveUnicast :=
  { serialId := ['A', 'B', 'C', 'D', NUL], port := 0, bytes := [7, 8, 9, 0, 0], size := 3 }

/-- A dongle proxy that has emitted nothing yet. -/
def sampleDongleProxy : dongle.Proxy := { mLinked := true, robotMessageReceived := [] }

/-- A message queue on a healthy connection, with the messages `[1, 2, 3]` and
`[4]` queued. -/
def sampleQueue : websocket.MessageQueueImpl :=
  { mPtr := some error_code.success
    mReceiveQueue :=
      .data [(error_code.success, some [1, 2, 3]), (error_code.success, some [4])]
    posted := []
    closeCalls := 0 }

/-- The same queue on a connection whose transport reports the system error
104 (connection reset). -/
def sampleBrokenQueue : websocket.MessageQueueImpl :=
  { sampleQueue with mPtr := some ⟨104, .system⟩ }

/-- A Linkbot `ABCD` with the button callback 5 stored with user data 50. -/
def sampleImpl : barobo.Impl :=
  { serialId := "ABCD"
    buttonEventCallback := some (5, 50)
    encoderEventCallback := none
    jointEventCallback := none
    accelerometerEventCallback := none
    fired := []
    invoked := [] }

/-- A library with RPC version 0.3.0, versions printed as `major.minor.patch`,
and `Error` derived from `std::exception`. -/
def sampleLibrary : barobo.Library :=
  { rpcVersion := { major := 0, minor := 3, patch := 0 }
    to_string := fun v => toString v.major ++ "." ++ toString v.minor ++ "." ++ toString v.patch
    errorIsStdException := true }

/-- A live daemon in which `ZZZZ` was resolved before `ABCD`: proxy 1 serves
`ZZZZ` and proxy 2 serves `ABCD`. -/
def sampleTwoProxies : DaemonServerImpl :=
  (resolveSerialId sampleConstants sampleEnv
    (resolveSerialId sampleConstants sampleEnv sampleLive "ZZZZ").2 "ABCD").2

/-! ## Theorems -/

/-- C1: the status broadcast by `dongleEvent` is `STRANGE_DONGLE` for the
framing `HANDSHAKE_FAILED` code and the RPC codes `MESSAGE_SANITY_FAILURE` and
`TIMED_OUT`, `DONGLE_VERSION_MISMATCH` for the RPC code `VERSION_MISMATCH`,
and `CANNOT_OPEN_DONGLE` for every other non-zero code outside the daemon's
category; in each case exactly one broadcast is made.  The enumerators of
`rpc::Status` are taken to be distinct. -/
theorem dongleEvent_broadcast_status (K : Constants) (st : DaemonServerImpl)
    (ec : error_code)
    (hSanity : K.VERSION_MISMATCH ≠ K.MESSAGE_SANITY_FAILURE)
    (hTimedOut : K.VERSION_MISMATCH ≠ K.TIMED_OUT) :
    ((ec = ⟨K.HANDSHAKE_FAILED, .sfp⟩ ∨ ec = ⟨K.MESSAGE_SANITY_FAILURE, .rpc⟩
        ∨ ec = ⟨K.TIMED_OUT, .rpc⟩) →
      (dongleEvent K st ec).effects
        = st.effects ++ [.broadcastDongleEvent (K.status .STRANGE_DONGLE)])
    ∧ (ec = ⟨K.VERSION_MISMATCH, .rpc⟩ →
      (dongleEvent K st ec).effects
        = st.effects ++ [.broadcastDongleEvent K.DONGLE_VERSION_MISMATCH])
    ∧ ((ec ≠ ⟨K.HANDSHAKE_FAILED, .sfp⟩ ∧ ec ≠ ⟨K.MESSAGE_SANITY_FAILURE, .rpc⟩
        ∧ ec ≠ ⟨K.TIMED_OUT, .rpc⟩ ∧ ec ≠ ⟨K.VERSION_MISMATCH, .rpc⟩
        ∧ ec.value ≠ 0 ∧ ec.category ≠ .baromesh) →
      (dongleEvent K st ec).effects
        = st.effects ++ [.broadcastDongleEvent (K.status .CANNOT_OPEN_DONGLE)]) := by
  refine ⟨?_, ?_, ?_⟩
  · intro h
    have h' : (⟨K.HANDSHAKE_FAILED, .sfp⟩ : error_code) = ec
        ∨ (⟨K.MESSAGE_SANITY_FAILURE, .rpc⟩ : error_code) = ec
        ∨ (⟨K.TIMED_OUT, .rpc⟩ : error_code) = ec := by
      rcases h with h | h | h
      · exact Or.inl h.symm
      · exact Or.inr (Or.inl h.symm)
      · exact Or.inr (Or.inr h.symm)
    simp [dongleEvent, normalise, h', make_error_code]
  · intro h
    subst h
    simp [dongleEvent, normalise, hSanity.symm, hTimedOut.symm]
  · rintro ⟨h1, h2, h3, h4, h5, h6⟩
    have hb : ec.toBool = true := by simp [error_code.toBool, h5]
    simp [dongleEvent, normalise, Ne.symm h1, Ne.symm h2, Ne.symm h3, Ne.symm h4, hb,
      Ne.symm h6, make_error_code]

/-- Instance of C1 at the RPC version-mismatch code and at the system code 2
(no such file or directory). -/
theorem dongleEvent_broadcast_status_witness :
    sampleConstants.VERSION_MISMATCH ≠ sampleConstants.MESSAGE_SANITY_FAILURE
    ∧ sampleConstants.VERSION_MISMATCH ≠ sampleConstants.TIMED_OUT
    ∧ (dongleEvent sampleConstants sampleLive ⟨10, .rpc⟩).effects
        = [.broadcastDongleEvent 12]
    ∧ (dongleEvent sampleConstants sampleLive ⟨2, .system⟩).effects
        = [.broadcastDongleEvent 1] :=
  ⟨by decide, by decide,
   (dongleEvent_broadcast_status sampleConstants sampleLive ⟨10, .rpc⟩
      (by decide) (by decide)).2.1 rfl,
   (dongleEvent_broadcast_status sampleConstants sampleLive ⟨2, .system⟩
      (by decide) (by decide)).2.2 (by decide)⟩

/-- C2: in every state without an installed dongle, `resolveSerialId` replies
`DONGLE_NOT_FOUND` without endpoint, whatever the serial ID and whatever the
environment would answer, and the whole state (proxy map, effects, timer) is
left as it was. -/
theorem resolveSerialId_without_dongle (K : Constants) (env : ResolveEnv)
    (st : DaemonServerImpl) (serialId : String) (h : st.mDongle = none) :
    resolveSerialId K env st serialId
      = ({ status := K.status .DONGLE_NOT_FOUND
           has_endpoint := false
           endpoint := ResolveSerialIdResult.zero.endpoint }, st) := by
  simp [resolveSerialId, resolveSerialIdTry, h, catchStatus, make_error_code,
    ResolveSerialIdResult.zero]

/-- Instance of C2 in the cooldown state. -/
theorem resolveSerialId_without_dongle_witness :
    sampleCooldown.mDongle = none
    ∧ resolveSerialId sampleConstants sampleEnv sampleCooldown "ABCD"
      = ({ status := 2, has_endpoint := false
           endpoint := ResolveSerialIdResult.zero.endpoint }, sampleCooldown) :=
  ⟨rfl, resolveSerialId_without_dongle sampleConstants sampleEnv sampleCooldown "ABCD" rfl⟩

/-! ### Facts about the proxy map and the lookup -/

theorem find_erase_self (m : List (String × ProxyData)) (serialId : String) :
    find (erase m serialId) serialId = none := by
  induction m with
  | nil => rfl
  | cons kv m ih =>
    by_cases hk : kv.1 = serialId
    · simp only [erase, List.filter_cons, hk, bne_self_eq_false, Bool.false_eq_true,
        if_false]
      exact ih
    · simp [erase, find, List.filter_cons, List.find?_cons, hk]

theorem find_append_absent (m : List (String × ProxyData)) (serialId : String)
    (proxy : ProxyData) (h : find m serialId = none) :
    find (m ++ [(serialId, proxy)]) serialId = some proxy := by
  induction m with
  | nil => simp [find]
  | cons kv m ih =>
    by_cases hk : kv.1 = serialId
    · simp [find, List.find?_cons, hk] at h
    · have h' : find m serialId = none := by
        simpa [find, List.find?_cons, hk] using h
      simpa [find, List.find?_cons, hk] using ih h'

theorem insert_absent (m : List (String × ProxyData)) (serialId : String)
    (proxy : ProxyData) (h : find m serialId = none) :
    insert m serialId proxy = (m ++ [(serialId, proxy)], true) := by
  simp [insert, h]

theorem findProxy_found (st : DaemonServerImpl) (serialId : String) (proxy : ProxyData)
    (endpoint : Endpoint) (hfind : find st.mRobotProxies serialId = some proxy)
    (hlive : proxy.listener = .ok endpoint) :
    findProxy st serialId = (st, some endpoint) := by
  simp [findProxy, hfind, hlive]

theorem findProxy_some (st : DaemonServerImpl) (serialId : String) (endpoint : Endpoint)
    (h : (findProxy st serialId).2 = some endpoint) :
    (findProxy st serialId).1 = st
      ∧ ∃ proxy, find st.mRobotProxies serialId = some proxy
          ∧ proxy.listener = .ok endpoint := by
  cases hfind : find st.mRobotProxies serialId with
  | none => simp [findProxy, hfind] at h
  | some proxy =>
    cases hl : proxy.listener with
    | error e => simp [findProxy, hfind, hl] at h
    | ok ep =>
      have heq : findProxy st serialId = (st, some ep) :=
        findProxy_found st serialId proxy ep hfind hl
      rw [heq] at h
      simp only [Option.some.injEq] at h
      exact ⟨by rw [heq], proxy, rfl, by rw [hl, h]⟩

theorem findProxy_none (st : DaemonServerImpl) (serialId : String)
    (h : (findProxy st serialId).2 = none) :
    find (findProxy st serialId).1.mRobotProxies serialId = none := by
  unfold findProxy at h ⊢
  cases hfind : find st.mRobotProxies serialId with
  | none => simp [hfind]
  | some proxy =>
    cases hl : proxy.listener with
    | ok ep => simp [hfind, hl] at h
    | error e => simp [hfind, hl, find_erase_self]

theorem startProxy_ok (env : ResolveEnv) (st : DaemonServerImpl) (dongle : Dongle)
    (serialId : String) (endpoint : Endpoint)
    (habsent : find st.mRobotProxies serialId = none)
    (h : (startProxy env st dongle serialId).2 = .ok endpoint) :
    ∃ proxy, find (startProxy env st dongle serialId).1.mRobotProxies serialId = some proxy
      ∧ proxy.listener = .ok endpoint := by
  unfold startProxy at h ⊢
  cases hr : env.resolve with
  | error e => simp [hr] at h
  | ok ep0 =>
    cases hc : env.construct ep0 with
    | error e => simp [hr, hc] at h
    | ok listener =>
      cases listener with
      | error e => simp [hr, hc] at h
      | ok ep =>
        simp only [hr, hc] at h ⊢
        simp only [Except.ok.injEq] at h
        refine ⟨{ id := st.allocated, listener := .ok ep }, ?_, by rw [h]⟩
        simp [insert_absent _ _ _ habsent, find_append_absent _ _ _ habsent]

theorem proxyEndpoint_ok (env : ResolveEnv) (st : DaemonServerImpl) (dongle : Dongle)
    (serialId : String) (endpoint : Endpoint)
    (h : (proxyEndpoint env st dongle serialId).2 = .ok endpoint) :
    ∃ proxy, find (proxyEndpoint env st dongle serialId).1.mRobotProxies serialId
        = some proxy ∧ proxy.listener = .ok endpoint := by
  unfold proxyEndpoint at h ⊢
  cases hf : (findProxy st serialId).2 with
  | some ep =>
    simp only [hf] at h ⊢
    simp only [Except.ok.injEq] at h
    obtain ⟨hst, proxy, hfind, hlive⟩ := findProxy_some st serialId ep hf
    exact ⟨proxy, by rw [hst]; exact hfind, by rw [hlive, h]⟩
  | none =>
    simp only [hf] at h ⊢
    exact startProxy_ok env _ dongle serialId endpoint (findProxy_none st serialId hf) h

theorem proxyEndpoint_found (env : ResolveEnv) (st : DaemonServerImpl) (dongle : Dongle)
    (serialId : String) (proxy : ProxyData) (endpoint : Endpoint)
    (hfind : find st.mRobotProxies serialId = some proxy)
    (hlive : proxy.listener = .ok endpoint) :
    proxyEndpoint env st dongle serialId = (st, .ok endpoint) := by
  simp [proxyEndpoint, findProxy_found st serialId proxy endpoint hfind hlive]

theorem resolveSerialId_of_endpoint (K : Constants) (env : ResolveEnv)
    (st : DaemonServerImpl) (dongle : Dongle) (serialId : String) (endpoint : Endpoint)
    (hd : st.mDongle = some dongle)
    (h : (proxyEndpoint env st dongle serialId).2 = .ok endpoint) :
    resolveSerialId K env st serialId
      = (match fillResult K endpoint with
          | .ok result => result
          | .error e =>
              { ResolveSerialIdResult.zero with
                has_endpoint := false, status := catchStatus K e },
         (proxyEndpoint env st dongle serialId).1) := by
  unfold resolveSerialId resolveSerialIdTry
  simp only [hd, h]
  cases fillResult K endpoint <;> rfl

theorem resolveSerialId_of_error (K : Constants) (env : ResolveEnv)
    (st : DaemonServerImpl) (dongle : Dongle) (serialId : String) (e : error_code)
    (hd : st.mDongle = some dongle)
    (h : (proxyEndpoint env st dongle serialId).2 = .error e) :
    resolveSerialId K env st serialId
      = ({ ResolveSerialIdResult.zero with
            has_endpoint := false, status := catchStatus K e },
         (proxyEndpoint env st dongle serialId).1) := by
  unfold resolveSerialId resolveSerialIdTry
  simp only [hd, h]

/-- C3: with a dongle installed, when `resolveSerialId` for a serial ID has
succeeded (its reply has an endpoint) and is called again while a dongle is
still installed (no `cycleDongle` in between) and the map entry of that serial
is as the first call left it (the proxy's listener still alive), the second
call returns the very same reply, so the same address and port, and changes
nothing: no proxy is created and the proxy map is as before, whatever the
environment would answer the second time. -/
theorem resolveSerialId_twice (K : Constants) (env env2 : ResolveEnv)
    (st st2 : DaemonServerImpl) (serialId : String)
    (hd : st.mDongle.isSome = true)
    (hok : (resolveSerialId K env st serialId).1.has_endpoint = true)
    (hd2 : st2.mDongle.isSome = true)
    (hmap : find st2.mRobotProxies serialId
      = find (resolveSerialId K env st serialId).2.mRobotProxies serialId) :
    resolveSerialId K env2 st2 serialId = ((resolveSerialId K env st serialId).1, st2) := by
  obtain ⟨dongle, hdongle⟩ := Option.isSome_iff_exists.mp hd
  obtain ⟨dongle2, hdongle2⟩ := Option.isSome_iff_exists.mp hd2
  cases hpe : (proxyEndpoint env st dongle serialId).2 with
  | error e =>
    rw [resolveSerialId_of_error K env st dongle serialId e hdongle hpe] at hok
    simp at hok
  | ok endpoint =>
    have h1 := resolveSerialId_of_endpoint K env st dongle serialId endpoint hdongle hpe
    obtain ⟨proxy, hfind, hlive⟩ := proxyEndpoint_ok env st dongle serialId endpoint hpe
    have hfind2 : find st2.mRobotProxies serialId = some proxy := by
      rw [hmap, h1]
      exact hfind
    have hpe2 := proxyEndpoint_found env2 st2 dongle2 serialId proxy endpoint hfind2 hlive
    have h2 := resolveSerialId_of_endpoint K env2 st2 dongle2 serialId endpoint hdongle2
      (by rw [hpe2])
    rw [h2, h1, hpe2]

/-- Instance of C3: `ABCD` is resolved twice in a row on a live daemon; the
second time the environment could not even create a listener. -/
theorem resolveSerialId_twice_witness :
    sampleLive.mDongle.isSome = true
    ∧ (resolveSerialId sampleConstants sampleEnv sampleLive "ABCD").1.has_endpoint = true
    ∧ resolveSerialId sampleConstants sampleFailingEnv
        (resolveSerialId sampleConstants sampleEnv sampleLive "ABCD").2 "ABCD"
      = ((resolveSerialId sampleConstants sampleEnv sampleLive "ABCD").1,
         (resolveSerialId sampleConstants sampleEnv sampleLive "ABCD").2) :=
  ⟨rfl, by decide,
   resolveSerialId_twice sampleConstants sampleEnv sampleFailingEnv sampleLive
     (resolveSerialId sampleConstants sampleEnv sampleLive "ABCD").2 "ABCD"
     rfl (by decide) (by decide) rfl⟩

theorem filter_erase_self (m : List (String × ProxyData)) (serialId : String) :
    (erase m serialId).filter (fun kv => kv.1 == serialId) = [] := by
  induction m with
  | nil => rfl
  | cons kv m ih =>
    by_cases hk : kv.1 = serialId
    · simp only [erase, List.filter_cons, hk, bne_self_eq_false, Bool.false_eq_true,
        if_false]
      exact ih
    · simp [erase, List.filter_cons, hk]

/-- C4 as stated fails in two ways.  In a daemon without dongle that holds an
undead proxy for `ABCD` (its `endpoint ()` query throws), `resolveSerialId`
replies `DONGLE_NOT_FOUND`, closes nothing and leaves the entry in the map.
In a daemon with a dongle and the same undead proxy, when no new listener can
be created, the undead proxy is closed and erased, but the reply is
`OTHER_ERROR` without endpoint and the map holds no entry for `ABCD`. -/
theorem undead_proxy_counterexample :
    ((find sampleUndeadCooldown.mRobotProxies "ABCD").map (fun p => p.listener.toBool)
        = some false
      ∧ (resolveSerialId sampleConstants sampleEnv sampleUndeadCooldown "ABCD").1.status
        = sampleConstants.status .DONGLE_NOT_FOUND
      ∧ (resolveSerialId sampleConstants sampleEnv sampleUndeadCooldown "ABCD").1.status
        ≠ sampleConstants.status .OK
      ∧ (resolveSerialId sampleConstants sampleEnv sampleUndeadCooldown "ABCD").2.effects = []
      ∧ ((resolveSerialId sampleConstants sampleEnv sampleUndeadCooldown
          "ABCD").2.mRobotProxies.map (fun kv => (kv.1, kv.2.id))) = [("ABCD", 1)])
    ∧ ((find sampleUndead.mRobotProxies "ABCD").map (fun p => p.listener.toBool)
        = some false
      ∧ sampleUndead.mDongle.isSome = true
      ∧ (resolveSerialId sampleConstants sampleFailingEnv sampleUndead "ABCD").1.status
        = sampleConstants.status .OTHER_ERROR
      ∧ (resolveSerialId sampleConstants sampleFailingEnv sampleUndead "ABCD").1.status
        ≠ sampleConstants.status .OK
      ∧ (resolveSerialId sampleConstants sampleFailingEnv sampleUndead
          "ABCD").1.has_endpoint = false
      ∧ (resolveSerialId sampleConstants sampleFailingEnv sampleUndead "ABCD").2.effects
        = [.proxyServerClose 1, .proxyClientClose 1]
      ∧ (resolveSerialId sampleConstants sampleFailingEnv sampleUndead
          "ABCD").2.mRobotProxies.length = 0) := by
  refine ⟨⟨?_, ?_, ?_, ?_, ?_⟩, ?_, ?_, ?_, ?_, ?_, ?_, ?_⟩ <;> decide

/-- C4, amended: with a dongle installed, for a serial ID whose map entry
exists but whose listener's `endpoint ()` query fails, and when the creation
of the fresh proxy succeeds (the resolver answers, the constructor of
`ProxyData` does not throw, the new server's `endpoint ()` answers and the
address text is shorter than the address field), one `resolveSerialId` call
closes the old proxy, server first and client second, erases its entry,
creates a proxy with a new identity, inserts it under the serial, routes it
and starts it, and replies `OK` with the endpoint of the fresh proxy; after
the call the map holds exactly one entry for the serial: the fresh proxy. -/
theorem resolveSerialId_undead (K : Constants) (env : ResolveEnv) (st : DaemonServerImpl)
    (dongle : Dongle) (serialId : String) (proxy : ProxyData) (e : error_code)
    (endpoint0 endpoint : Endpoint)
    (hd : st.mDongle = some dongle)
    (hfind : find st.mRobotProxies serialId = some proxy)
    (hdead : proxy.listener = .error e)
    (hresolve : env.resolve = .ok endpoint0)
    (hconstruct : env.construct endpoint0 = .ok (.ok endpoint))
    (hfits : endpoint.address.to_string.length < addressCapacity) :
    (resolveSerialId K env st serialId).1
        = { status := K.status .OK
            has_endpoint := true
            endpoint :=
              { address :=
                  strncpy endpoint.address.to_string.toList (addressCapacity - 1) ++ [NUL]
                port := endpoint.port.val } }
    ∧ (resolveSerialId K env st serialId).2.effects
        = st.effects ++
          [.proxyServerClose proxy.id, .proxyClientClose proxy.id,
           .setRoute st.allocated dongle.id serialId,
           .asyncRunProxy st.allocated (.handleProxyFinished serialId st.allocated)]
    ∧ (resolveSerialId K env st serialId).2.mRobotProxies
        = erase st.mRobotProxies serialId
          ++ [(serialId, { id := st.allocated, listener := .ok endpoint })]
    ∧ (resolveSerialId K env st serialId).2.allocated = st.allocated + 1
    ∧ ((resolveSerialId K env st serialId).2.mRobotProxies.filter
        (fun kv => kv.1 == serialId)).map (fun kv => kv.2.id) = [st.allocated] := by
  have hfp : findProxy st serialId
      = ({ st with
            effects := st.effects ++
              [.proxyServerClose proxy.id, .proxyClientClose proxy.id]
            mRobotProxies := erase st.mRobotProxies serialId }, none) := by
    simp [findProxy, hfind, hdead]
  have hpe : proxyEndpoint env st dongle serialId
      = ({ st with
            effects := st.effects ++
              [.proxyServerClose proxy.id, .proxyClientClose proxy.id,
               .setRoute st.allocated dongle.id serialId,
               .asyncRunProxy st.allocated (.handleProxyFinished serialId st.allocated)]
            mRobotProxies := erase st.mRobotProxies serialId
              ++ [(serialId, { id := st.allocated, listener := .ok endpoint })]
            allocated := st.allocated + 1 }, .ok endpoint) := by
    simp [proxyEndpoint, hfp, startProxy, hresolve, hconstruct,
      insert_absent _ _ _ (find_erase_self st.mRobotProxies serialId)]
  have h := resolveSerialId_of_endpoint K env st dongle serialId endpoint hd (by rw [hpe])
  rw [h, hpe]
  refine ⟨by simp [fillResult, hfits], rfl, rfl, rfl, ?_⟩
  simp [List.filter_append, filter_erase_self]

/-- Instance of the amended C4: the undead proxy 1 for `ABCD` is replaced by
the fresh proxy 2 on `127.0.0.1:40001`. -/
theorem resolveSerialId_undead_witness :
    sampleUndead.mDongle = some { id := 0 }
    ∧ (find sampleUndead.mRobotProxies "ABCD").map (fun p => p.id) = some 1
    ∧ sampleUndeadProxy.listener.toBool = false
    ∧ sampleEndpoint.address.to_string.length < addressCapacity
    ∧ (resolveSerialId sampleConstants sampleEnv sampleUndead "ABCD").2.effects
        = [.proxyServerClose 1, .proxyClientClose 1, .setRoute 2 0 "ABCD",
           .asyncRunProxy 2 (.handleProxyFinished "ABCD" 2)]
    ∧ ((resolveSerialId sampleConstants sampleEnv sampleUndead "ABCD").2.mRobotProxies.filter
        (fun kv => kv.1 == "ABCD")).map (fun kv => kv.2.id) = [2] :=
  ⟨rfl, by decide, rfl, by decide,
   (resolveSerialId_undead sampleConstants sampleEnv sampleUndead { id := 0 } "ABCD"
      sampleUndeadProxy ⟨9, .system⟩ { address := .v4 127 0 0 1, port := 0 } sampleEndpoint
      rfl rfl rfl rfl rfl (by decide)).2.1,
   (resolveSerialId_undead sampleConstants sampleEnv sampleUndead { id := 0 } "ABCD"
      sampleUndeadProxy ⟨9, .system⟩ { address := .v4 127 0 0 1, port := 0 } sampleEndpoint
      rfl rfl rfl rfl rfl (by decide)).2.2.2.2⟩

/-- C5 as stated fails: for the serial `AB`, of length 2, a live daemon creates
a proxy under `AB` and replies `OK` with an endpoint, not `INVALID_SERIALID`;
on the client side the assertion on the length fails and no request is
built. -/
theorem invalid_serial_counterexample :
    ("AB" : String).length ≠ 4
    ∧ (resolveSerialId sampleConstants sampleEnv sampleLive "AB").1.status
      = sampleConstants.status .OK
    ∧ (resolveSerialId sampleConstants sampleEnv sampleLive "AB").1.status
      ≠ sampleConstants.status .INVALID_SERIALID
    ∧ (resolveSerialId sampleConstants sampleEnv sampleLive "AB").1.has_endpoint = true
    ∧ (resolveSerialId sampleConstants sampleEnv sampleLive "AB").2.mRobotProxies.map
        (fun kv => (kv.1, kv.2.id)) = [("AB", 1)]
    ∧ resolveSerialIdArgs "AB" = none := by
  refine ⟨?_, ?_, ?_, ?_, ?_, ?_⟩ <;> decide

/-- C5, amended: the daemon's `resolveSerialId` makes no check of the length
of the serial.  For a serial whose length is not 4, with a dongle installed,
no entry for that serial and the creation of the proxy succeeding, it creates
a proxy, inserts it under that serial and replies `OK` with the proxy's
endpoint.  The length is only asserted by the client's `asyncResolveSerialId`,
which builds no request for such a serial. -/
theorem resolveSerialId_any_length (K : Constants) (env : ResolveEnv)
    (st : DaemonServerImpl) (dongle : Dongle) (serialId : String)
    (endpoint0 endpoint : Endpoint)
    (hlen : serialId.length ≠ 4)
    (hd : st.mDongle = some dongle)
    (habsent : find st.mRobotProxies serialId = none)
    (hresolve : env.resolve = .ok endpoint0)
    (hconstruct : env.construct endpoint0 = .ok (.ok endpoint))
    (hfits : endpoint.address.to_string.length < addressCapacity) :
    (resolveSerialId K env st serialId).1
        = { status := K.status .OK
            has_endpoint := true
            endpoint :=
              { address :=
                  strncpy endpoint.address.to_string.toList (addressCapacity - 1) ++ [NUL]
                port := endpoint.port.val } }
    ∧ (resolveSerialId K env st serialId).2.mRobotProxies
        = st.mRobotProxies ++ [(serialId, { id := st.allocated, listener := .ok endpoint })]
    ∧ (resolveSerialId K env st serialId).2.allocated = st.allocated + 1
    ∧ resolveSerialIdArgs serialId = none := by
  have hfp : findProxy st serialId = (st, none) := by
    simp [findProxy, habsent]
  have hpe : proxyEndpoint env st dongle serialId
      = ({ st with
            effects := st.effects ++
              [.setRoute st.allocated dongle.id serialId,
               .asyncRunProxy st.allocated (.handleProxyFinished serialId st.allocated)]
            mRobotProxies := st.mRobotProxies
              ++ [(serialId, { id := st.allocated, listener := .ok endpoint })]
            allocated := st.allocated + 1 }, .ok endpoint) := by
    simp [proxyEndpoint, hfp, startProxy, hresolve, hconstruct,
      insert_absent _ _ _ habsent]
  have h := resolveSerialId_of_endpoint K env st dongle serialId endpoint hd (by rw [hpe])
  rw [h, hpe]
  refine ⟨by simp [fillResult, hfits], rfl, rfl, ?_⟩
  simp [resolveSerialIdArgs, Ne.symm hlen]

/-- Instance of the amended C5 at the serial `AB`. -/
theorem resolveSerialId_any_length_witness :
    ("AB" : String).length ≠ 4
    ∧ sampleLive.mDongle = some { id := 0 }
    ∧ sampleEndpoint.address.to_string.length < addressCapacity
    ∧ (resolveSerialId sampleConstants sampleEnv sampleLive "AB").1.status = 0
    ∧ (resolveSerialId sampleConstants sampleEnv sampleLive "AB").2.allocated = 2 :=
  ⟨by decide, rfl, by decide,
   congrArg ResolveSerialIdResult.status
     (resolveSerialId_any_length sampleConstants sampleEnv sampleLive { id := 0 } "AB"
       { address := .v4 127 0 0 1, port := 0 } sampleEndpoint
       (by decide) rfl rfl rfl rfl (by decide)).1,
   (resolveSerialId_any_length sampleConstants sampleEnv sampleLive { id := 0 } "AB"
       { address := .v4 127 0 0 1, port := 0 } sampleEndpoint
       (by decide) rfl rfl rfl rfl (by decide)).2.2.1⟩

theorem strncpy_fits (text : List Char) (n : Nat) (hnul : NUL ∉ text)
    (hlen : text.length ≤ n) :
    strncpy text n ++ [NUL] = text ++ List.replicate (n + 1 - text.length) NUL := by
  have hc : cstr text = text := by
    unfold cstr
    rw [List.takeWhile_eq_self_iff]
    intro c hc
    have : c ≠ NUL := fun h => hnul (h ▸ hc)
    simpa using this
  have ht : text.take n = text := List.take_of_length_le hlen
  have hn : n + 1 - text.length = (n - text.length) + 1 := by omega
  simp only [strncpy, hc, ht, hn, List.replicate_succ', List.append_assoc]

/-- C6: with a dongle installed and an endpoint of the proxy at hand (found or
freshly created), `resolveSerialId` replies `BUFFER_OVERFLOW` without endpoint
exactly when the text of the endpoint's address is at least as long as the
16-byte address field; when it is shorter the reply has status `OK`, has an
endpoint, its address field holds exactly the text followed by NULs up to the
16 bytes (at least one), and its port is the endpoint's port.  The address
text is taken to contain no NUL character. -/
theorem resolveSerialId_address_field (K : Constants) (env : ResolveEnv)
    (st : DaemonServerImpl) (dongle : Dongle) (serialId : String) (endpoint : Endpoint)
    (hd : st.mDongle = some dongle)
    (hpe : (proxyEndpoint env st dongle serialId).2 = .ok endpoint)
    (hnul : NUL ∉ endpoint.address.to_string.toList) :
    (((resolveSerialId K env st serialId).1.status = K.status .BUFFER_OVERFLOW
        ∧ (resolveSerialId K env st serialId).1.has_endpoint = false)
      ↔ addressCapacity ≤ endpoint.address.to_string.length)
    ∧ (endpoint.address.to_string.length < addressCapacity →
        (resolveSerialId K env st serialId).1.status = K.status .OK
        ∧ (resolveSerialId K env st serialId).1.has_endpoint = true
        ∧ (resolveSerialId K env st serialId).1.endpoint.address
          = endpoint.address.to_string.toList
            ++ List.replicate (addressCapacity - endpoint.address.to_string.length) NUL
        ∧ 0 < addressCapacity - endpoint.address.to_string.length
        ∧ (resolveSerialId K env st serialId).1.endpoint.address.length = addressCapacity
        ∧ (resolveSerialId K env st serialId).1.endpoint.port = endpoint.port.val) := by
  rw [resolveSerialId_of_endpoint K env st dongle serialId endpoint hd hpe]
  by_cases hfits : endpoint.address.to_string.length < addressCapacity
  · have hle : endpoint.address.to_string.toList.length ≤ addressCapacity - 1 := by
      have : endpoint.address.to_string.toList.length
          = endpoint.address.to_string.length := rfl
      omega
    have hfield := strncpy_fits endpoint.address.to_string.toList (addressCapacity - 1)
      hnul hle
    have hcap : addressCapacity - 1 + 1 = addressCapacity := rfl
    rw [hcap] at hfield
    have hlen' : endpoint.address.to_string.toList.length
        = endpoint.address.to_string.length := rfl
    rw [hlen'] at hfield
    have hfill : fillResult K endpoint
        = .ok { status := K.status .OK
                has_endpoint := true
                endpoint :=
                  { address :=
                      strncpy endpoint.address.to_string.toList (addressCapacity - 1)
                        ++ [NUL]
                    port := endpoint.port.val } } := by
      simp [fillResult, hfits]
    rw [hfill]
    refine ⟨?_, ?_⟩
    · constructor
      · rintro ⟨_, h⟩
        exact absurd h Bool.noConfusion
      · intro h
        omega
    · intro _
      refine ⟨rfl, rfl, hfield, by omega, ?_, rfl⟩
      show (strncpy endpoint.address.to_string.toList (addressCapacity - 1)
        ++ [NUL]).length = addressCapacity
      rw [hfield]
      simp only [List.length_append, List.length_replicate, hlen']
      omega
  · have hfill : fillResult K endpoint = .error (make_error_code K .BUFFER_OVERFLOW) := by
      simp [fillResult, hfits]
    rw [hfill]
    refine ⟨?_, fun h => absurd h hfits⟩
    constructor
    · intro _
      omega
    · intro _
      exact ⟨by simp [catchStatus, make_error_code], rfl⟩

/-- Instance of C6: on `127.0.0.1:40001` the reply is `OK` and its address
field is the nine characters of the text and seven NULs; on an IPv6 endpoint
whose text has 25 characters the reply is `BUFFER_OVERFLOW`. -/
theorem resolveSerialId_address_field_witness :
    sampleLive.mDongle = some { id := 0 }
    ∧ (proxyEndpoint sampleEnv sampleLive { id := 0 } "ABCD").2 = .ok sampleEndpoint
    ∧ NUL ∉ sampleEndpoint.address.to_string.toList
    ∧ (proxyEndpoint sampleEnv6 sampleLive { id := 0 } "ABCD").2 = .ok sampleEndpoint6
    ∧ NUL ∉ sampleEndpoint6.address.to_string.toList
    ∧ (resolveSerialId sampleConstants sampleEnv sampleLive "ABCD").1.endpoint.address
        = "127.0.0.1".toList ++ List.replicate 7 NUL
    ∧ (resolveSerialId sampleConstants sampleEnv sampleLive "ABCD").1.endpoint.port = 40001
    ∧ (resolveSerialId sampleConstants sampleEnv6 sampleLive "ABCD").1.status = 10
    ∧ (resolveSerialId sampleConstants sampleEnv6 sampleLive "ABCD").1.has_endpoint = false :=
  ⟨rfl, rfl, by decide, rfl, by decide,
   ((resolveSerialId_address_field sampleConstants sampleEnv sampleLive { id := 0 } "ABCD"
      sampleEndpoint rfl rfl (by decide)).2 (by decide)).2.2.1,
   ((resolveSerialId_address_field sampleConstants sampleEnv sampleLive { id := 0 } "ABCD"
      sampleEndpoint rfl rfl (by decide)).2 (by decide)).2.2.2.2.2,
   ((resolveSerialId_address_field sampleConstants sampleEnv6 sampleLive { id := 0 } "ABCD"
      sampleEndpoint6 rfl rfl (by decide)).1.mpr (by decide)).1,
   ((resolveSerialId_address_field sampleConstants sampleEnv6 sampleLive { id := 0 } "ABCD"
      sampleEndpoint6 rfl rfl (by decide)).1.mpr (by decide)).2⟩

/-- C7: for a reply received without transport error that has an endpoint
with port field `p`, `asyncResolveSerialId` completes with `PORT_OUT_OF_RANGE`
and an empty pair exactly when `p > 65535`, and otherwise completes without
error with the pair of the reply's address string and the decimal text of
`p`. -/
theorem asyncResolveSerialId_port (K : Constants) (ec : error_code)
    (result : ResolveSerialIdResult)
    (hec : ec.value = 0) (hep : result.has_endpoint = true) :
    (asyncResolveSerialId K ec result = (make_error_code K .PORT_OUT_OF_RANGE, ("", ""))
      ↔ 65535 < result.endpoint.port)
    ∧ (result.endpoint.port ≤ 65535 →
        asyncResolveSerialId K ec result
          = (error_code.success,
             (String.mk (cstr result.endpoint.address), toString result.endpoint.port))) := by
  have hb : ec.toBool = false := by simp [error_code.toBool, hec]
  by_cases hp : 65535 < result.endpoint.port
  · have hmod : result.endpoint.port % 65536 ≠ result.endpoint.port := by omega
    refine ⟨⟨fun _ => hp, fun _ => ?_⟩, fun h => absurd hp (by omega)⟩
    simp [asyncResolveSerialId, hb, hep, hmod]
  · have hmod : result.endpoint.port % 65536 = result.endpoint.port := by omega
    have hrun : asyncResolveSerialId K ec result
        = (error_code.success,
           (String.mk (cstr result.endpoint.address), toString result.endpoint.port)) := by
      simp [asyncResolveSerialId, hb, hep, hmod]
    refine ⟨⟨fun h => ?_, fun h => absurd h hp⟩, fun _ => hrun⟩
    rw [hrun] at h
    have hcat := congrArg (fun x => x.1.category) h
    simp [error_code.success, make_error_code] at hcat

/-- Instance of C7 at the ports 40001 and 65536. -/
theorem asyncResolveSerialId_port_witness :
    error_code.success.value = 0
    ∧ asyncResolveSerialId sampleConstants error_code.success
        { status := 0, has_endpoint := true
          endpoint := { address := "127.0.0.1".toList ++ List.replicate 7 NUL, port := 40001 } }
      = (error_code.success, ("127.0.0.1", "40001"))
    ∧ asyncResolveSerialId sampleConstants error_code.success
        { status := 0, has_endpoint := true
          endpoint := { address := "127.0.0.1".toList ++ List.replicate 7 NUL, port := 65536 } }
      = (make_error_code sampleConstants .PORT_OUT_OF_RANGE, ("", "")) :=
  ⟨rfl,
   (asyncResolveSerialId_port sampleConstants error_code.success
      { status := 0, has_endpoint := true
        endpoint := { address := "127.0.0.1".toList ++ List.replicate 7 NUL, port := 40001 } }
      rfl rfl).2 (by decide),
   (asyncResolveSerialId_port sampleConstants error_code.success
      { status := 0, has_endpoint := true
        endpoint := { address := "127.0.0.1".toList ++ List.replicate 7 NUL, port := 65536 } }
      rfl rfl).1.mpr (by decide)⟩

/-- C8: `sendRobotPing` replies `DONGLE_NOT_FOUND` exactly when no dongle is
installed, and then it leaves the state as it was, handing nothing to the
dongle; with a dongle installed it replies `OK` and hands that dongle exactly
one ping request, which carries the destinations in their order.  The reply's
status is left value-initialised in that case, so `OK` is taken to be the
zero status, and `DONGLE_NOT_FOUND` to differ from it. -/
theorem sendRobotPing_reply (K : Constants) (st : DaemonServerImpl)
    (destinations : List String)
    (hOK : K.status .OK = 0) (hDNF : K.status .DONGLE_NOT_FOUND ≠ K.status .OK) :
    ((sendRobotPing K st destinations).1.status = K.status .DONGLE_NOT_FOUND
      ↔ st.mDongle = none)
    ∧ (st.mDongle = none → (sendRobotPing K st destinations).2 = st)
    ∧ (∀ dongle, st.mDongle = some dongle →
        (sendRobotPing K st destinations).1.status = K.status .OK
        ∧ (sendRobotPing K st destinations).2
          = { st with
              effects := st.effects ++
                [.asyncSendRobotPing dongle.id destinations .sendRobotPingHandler] }) := by
  cases hd : st.mDongle with
  | none =>
    refine ⟨?_, ?_, ?_⟩
    · simp [sendRobotPing, hd, catchStatus, make_error_code]
    · intro _
      simp [sendRobotPing, hd]
    · intro dongle h
      exact absurd h (by simp)
  | some dongle =>
    refine ⟨?_, ?_, ?_⟩
    · simp only [sendRobotPing, hd]
      constructor
      · intro h
        exact absurd (h.symm.trans hOK.symm) hDNF
      · intro h
        exact absurd h (by simp)
    · intro h
      exact absurd h (by simp)
    · intro dongle2 h
      cases h
      simp [sendRobotPing, hd, hOK]

/-- Instance of C8: a ping for `ABCD` and `WXYZ` on a live daemon and in
cooldown. -/
theorem sendRobotPing_reply_witness :
    sampleConstants.status .OK = 0
    ∧ sampleConstants.status .DONGLE_NOT_FOUND ≠ sampleConstants.status .OK
    ∧ (sendRobotPing sampleConstants sampleLive ["ABCD", "WXYZ"]).1.status = 0
    ∧ (sendRobotPing sampleConstants sampleLive ["ABCD", "WXYZ"]).2.effects
        = [.asyncSendRobotPing 0 ["ABCD", "WXYZ"] .sendRobotPingHandler]
    ∧ (sendRobotPing sampleConstants sampleCooldown ["ABCD", "WXYZ"]).1.status = 2 :=
  ⟨rfl, by decide,
   ((sendRobotPing_reply sampleConstants sampleLive ["ABCD", "WXYZ"] rfl (by decide)).2.2
      { id := 0 } rfl).1,
   congrArg DaemonServerImpl.effects
     ((sendRobotPing_reply sampleConstants sampleLive ["ABCD", "WXYZ"] rfl (by decide)).2.2
        { id := 0 } rfl).2,
   (sendRobotPing_reply sampleConstants sampleCooldown ["ABCD", "WXYZ"] rfl
      (by decide)).1.mpr rfl⟩

theorem normalise_daemon_code (K : Constants) (s : Status) :
    normalise K (make_error_code K s) = make_error_code K s := by
  simp [normalise, make_error_code]

theorem cycleDongleImpl_effects (K : Constants) (st : DaemonServerImpl) (timeout : Nat) :
    (cycleDongleImpl K st timeout).effects
      = st.effects
        ++ ((match st.mDongle with
            | some dongle =>
                [Effect.dongleClose dongle.id,
                 Effect.broadcastDongleEvent (K.status .DONGLE_NOT_FOUND)]
            | none => [])
          ++ [Effect.timerCancel, Effect.timerExpiresFromNow timeout,
              Effect.timerAsyncWait .handleCycleDongleStepOne]) := by
  cases hd : st.mDongle with
  | none => simp [cycleDongleImpl, hd, async_wait, expires_from_now, timerCancel]
  | some dongle =>
    have hn := normalise_daemon_code K .DONGLE_NOT_FOUND
    simp [cycleDongleImpl, hd, async_wait, expires_from_now, timerCancel, dongleEvent, hn]
    simp [make_error_code]

/-- C9: for every number of seconds `d` and every state, `cycleDongle (d)`
returns its reply and leaves the daemon in cooldown: no dongle is installed,
the waits that were outstanding on the timer are cancelled (their handlers are
posted with `operation_aborted`), the timer expires `d` seconds later with
`handleCycleDongleStepOne` as its only wait, the proxy map is untouched, and
the calls made are: close of the dongle and one `dongleEvent` broadcast of
`DONGLE_NOT_FOUND` when a dongle was installed, none of the two otherwise,
then the timer calls.  So the broadcast is made exactly when a dongle was
installed. -/
theorem cycleDongle_cooldown (K : Constants) (st : DaemonServerImpl) (seconds : Nat) :
    (cycleDongle K st seconds).1 = {}
    ∧ (cycleDongle K st seconds).2.mDongle = none
    ∧ (cycleDongle K st seconds).2.mDongleTimer
        = { expiry := some (seconds * 1000), waits := [.handleCycleDongleStepOne] }
    ∧ (cycleDongle K st seconds).2.posted
        = st.posted ++ st.mDongleTimer.waits.map (fun h => (h, operation_aborted K))
    ∧ (cycleDongle K st seconds).2.mRobotProxies = st.mRobotProxies
    ∧ (cycleDongle K st seconds).2.effects
        = st.effects
          ++ ((match st.mDongle with
              | some dongle =>
                  [Effect.dongleClose dongle.id,
                   Effect.broadcastDongleEvent (K.status .DONGLE_NOT_FOUND)]
              | none => [])
            ++ [Effect.timerCancel, Effect.timerExpiresFromNow (seconds * 1000),
                Effect.timerAsyncWait .handleCycleDongleStepOne])
    ∧ ((∃ status, Effect.broadcastDongleEvent status
          ∈ (cycleDongle K st seconds).2.effects.drop st.effects.length)
        ↔ st.mDongle.isSome = true)
    ∧ (∀ status, Effect.broadcastDongleEvent status
          ∈ (cycleDongle K st seconds).2.effects.drop st.effects.length →
        status = K.status .DONGLE_NOT_FOUND) := by
  have heff := cycleDongleImpl_effects K st (seconds * 1000)
  refine ⟨rfl, ?_, ?_, ?_, ?_, heff, ?_, ?_⟩
  · cases hd : st.mDongle <;>
      simp [cycleDongle, cycleDongleImpl, hd, async_wait, expires_from_now, timerCancel,
        dongleEvent]
  · cases hd : st.mDongle <;>
      simp [cycleDongle, cycleDongleImpl, hd, async_wait, expires_from_now, timerCancel,
        dongleEvent]
  · cases hd : st.mDongle <;>
      simp [cycleDongle, cycleDongleImpl, hd, async_wait, expires_from_now, timerCancel,
        dongleEvent]
  · cases hd : st.mDongle <;>
      simp [cycleDongle, cycleDongleImpl, hd, async_wait, expires_from_now, timerCancel,
        dongleEvent]
  · show (∃ status, Effect.broadcastDongleEvent status
      ∈ (cycleDongleImpl K st (seconds * 1000)).effects.drop st.effects.length) ↔ _
    rw [heff, List.drop_left]
    cases hd : st.mDongle <;> simp
  · intro status
    show Effect.broadcastDongleEvent status
      ∈ (cycleDongleImpl K st (seconds * 1000)).effects.drop st.effects.length → _
    rw [heff, List.drop_left]
    cases hd : st.mDongle <;> simp

theorem recycled_cycleDongleImpl (K : Constants) (st st1 : DaemonServerImpl)
    (extra : List Effect) (timeout : Nat) (h : st1.effects = st.effects ++ extra) :
    recycled st (some (cycleDongleImpl K st1 timeout)) = true := by
  simp only [recycled, cycleDongleImpl_effects, h, List.append_assoc, List.drop_left]
  simp

theorem recycled_unchanged (st : DaemonServerImpl) : recycled st (some st) = false := by
  simp [recycled]

theorem recycled_of_effects (st st1 : DaemonServerImpl) (extra : List Effect)
    (h : st1.effects = st.effects ++ extra)
    (hextra : Effect.timerAsyncWait .handleCycleDongleStepOne ∉ extra) :
    recycled st (some st1) = false := by
  simp only [recycled, h, List.drop_left]
  simpa using hextra

theorem toBool_eq_false_iff (ec : error_code) : ec.toBool = false ↔ ec.value = 0 := by
  simp [error_code.toBool]

/-- C10 as stated fails for two of the five handlers.  The keepalive handler
`resetDongle` recycles the dongle when it is invoked with the success code,
which is zero; the handler of the robot-ping send recycles the dongle when it
is invoked with `operation_aborted`. -/
theorem completion_recycling_counterexample :
    (recycled sampleLive (some (resetDongle sampleConstants sampleLive error_code.success))
        = true
      ∧ ¬ (error_code.success.value ≠ 0
            ∧ error_code.success ≠ operation_aborted sampleConstants))
    ∧ (recycled sampleLive
          (some (sendRobotPingHandler sampleConstants sampleLive
            (operation_aborted sampleConstants))) = true
      ∧ ¬ ((operation_aborted sampleConstants).value ≠ 0
            ∧ operation_aborted sampleConstants ≠ operation_aborted sampleConstants)) := by
  refine ⟨⟨?_, ?_⟩, ?_, ?_⟩ <;> decide

/-- C10, amended: the completion handlers of the handshake, of the RPC connect
and of the robot-event receive call `cycleDongleImpl` if and only if the code
is non-zero and is not `operation_aborted`; the keepalive handler calls it if
and only if the code is not `operation_aborted`, a zero code included; the
handler of the robot-ping send calls it for every non-zero code other than
`operation_aborted` and does not call it for a zero code. -/
theorem completion_recycling (K : Constants) (st : DaemonServerImpl) (ec : error_code)
    (dongle sigSet : Nat) (serialId : String) (event : RobotEvent) :
    (recycled st (some (handleCycleDongleStepThree K st dongle sigSet ec)) = true
      ↔ ec.value ≠ 0 ∧ ec ≠ operation_aborted K)
    ∧ (recycled st (handleCycleDongleStepFour K st dongle sigSet ec) = true
      ↔ ec.value ≠ 0 ∧ ec ≠ operation_aborted K)
    ∧ (recycled st (handleRobotEvent K st ec serialId event) = true
      ↔ ec.value ≠ 0 ∧ ec ≠ operation_aborted K)
    ∧ (recycled st (some (resetDongle K st ec)) = true ↔ ec ≠ operation_aborted K)
    ∧ (ec.value ≠ 0 → ec ≠ operation_aborted K →
        recycled st (some (sendRobotPingHandler K st ec)) = true)
    ∧ (ec.value = 0 → recycled st (some (sendRobotPingHandler K st ec)) = false) := by
  have hcyc : recycled st (some (cycleDongleImpl K st kDongleDowntimeAfterError)) = true :=
    recycled_cycleDongleImpl K st st [] _ (by simp)
  have hcycEvent : recycled st
      (some (cycleDongleImpl K (dongleEvent K st ec) kDongleDevicePathPollTimeout)) = true :=
    recycled_cycleDongleImpl K st _ [.broadcastDongleEvent (normalise K ec).value] _ rfl
  by_cases hz : ec.value = 0
  · have hb : ec.toBool = false := (toBool_eq_false_iff ec).mpr hz
    refine ⟨?_, ?_, ?_, ?_, fun h => absurd hz h, fun _ => ?_⟩
    · have : recycled st (some (handleCycleDongleStepThree K st dongle sigSet ec)) = false := by
        simp only [handleCycleDongleStepThree, hb]
        exact recycled_of_effects st _ _ rfl (by simp)
      simp [this, hz]
    · have : recycled st (handleCycleDongleStepFour K st dongle sigSet ec) = false := by
        simp only [handleCycleDongleStepFour, hb, setDongleIoTraps, receiveRobotEvents]
        exact recycled_of_effects st _
          [.sigSetCancel sigSet, .asyncReceiveRobotEvent dongle .handleRobotEvent,
           .asyncKeepalive dongle .resetDongle,
           .broadcastDongleEvent (normalise K (make_error_code K .OK)).value]
          (by simp [dongleEvent]) (by simp)
      simp [this, hz]
    · have : recycled st (handleRobotEvent K st ec serialId event) = false := by
        simp only [handleRobotEvent, hb, receiveRobotEvents]
        cases hd : st.mDongle with
        | none => simp [recycled]
        | some d =>
          exact recycled_of_effects st _
            [.broadcastRobotEvent (strncpy serialId.toList 4 ++ [NUL]) event,
             .asyncReceiveRobotEvent d.id .handleRobotEvent]
            (by simp) (by simp)
      simp [this, hz]
    · by_cases ha : operation_aborted K = ec
      · simp [resetDongle, ha, recycled_unchanged]
      · simp [resetDongle, ha, hcyc, Ne.symm ha]
    · simp [sendRobotPingHandler, hb, recycled_unchanged]
  · have hb : ec.toBool = true := by simp [error_code.toBool, hz]
    by_cases ha : operation_aborted K = ec
    · refine ⟨?_, ?_, ?_, ?_, fun _ h => absurd ha.symm h, fun h => absurd h hz⟩
      · simp [handleCycleDongleStepThree, hb, ha, recycled_unchanged]
      · simp [handleCycleDongleStepFour, hb, ha, recycled_unchanged]
      · simp [handleRobotEvent, hb, ha, recycled_unchanged]
      · simp [resetDongle, ha, recycled_unchanged]
    · have ha' : ec ≠ operation_aborted K := Ne.symm ha
      refine ⟨?_, ?_, ?_, ?_, fun _ _ => ?_, fun h => absurd h hz⟩
      · simp [handleCycleDongleStepThree, hb, ha, hcycEvent, hz, ha']
      · simp [handleCycleDongleStepFour, hb, ha, hcycEvent, hz, ha']
      · simp [handleRobotEvent, hb, ha, hcyc, hz, ha']
      · simp [resetDongle, ha, hcyc, ha']
      · simp [sendRobotPingHandler, hb, hcyc]

/-- Instance of the amended C10: the robot-ping handler on a live daemon with
the system error 5 (input/output error) and with the success code. -/
theorem completion_recycling_witness :
    (⟨5, .system⟩ : error_code).value ≠ 0
    ∧ (⟨5, .system⟩ : error_code) ≠ operation_aborted sampleConstants
    ∧ recycled sampleLive (some (sendRobotPingHandler sampleConstants sampleLive ⟨5, .system⟩))
      = true
    ∧ error_code.success.value = 0
    ∧ recycled sampleLive
        (some (sendRobotPingHandler sampleConstants sampleLive error_code.success)) = false :=
  ⟨by decide, by decide,
   (completion_recycling sampleConstants sampleLive ⟨5, .system⟩ 1 2 "ABCD"
      ⟨⟨1, 0, 0⟩, ⟨1, 0, 0⟩, ⟨1, 0, 0⟩⟩).2.2.2.2.1 (by decide) (by decide),
   rfl,
   (completion_recycling sampleConstants sampleLive error_code.success 1 2 "ABCD"
      ⟨⟨1, 0, 0⟩, ⟨1, 0, 0⟩, ⟨1, 0, 0⟩⟩).2.2.2.2.2 rfl⟩

/-! ### Facts about `cycleDongleImpl` and the calls between two states -/

theorem cycleDongleImpl_fields (K : Constants) (st : DaemonServerImpl) (timeout : Nat) :
    (cycleDongleImpl K st timeout).mDongle = none
    ∧ (cycleDongleImpl K st timeout).mDongleTimer
        = { expiry := some timeout, waits := [.handleCycleDongleStepOne] }
    ∧ (cycleDongleImpl K st timeout).mRobotProxies = st.mRobotProxies
    ∧ (cycleDongleImpl K st timeout).allocated = st.allocated
    ∧ (cycleDongleImpl K st timeout).posted
        = st.posted ++ st.mDongleTimer.waits.map (fun h => (h, operation_aborted K)) := by
  cases hd : st.mDongle <;>
    simp [cycleDongleImpl, hd, async_wait, expires_from_now, timerCancel, dongleEvent]

theorem newEffects_of_append (st st1 : DaemonServerImpl) (extra : List Effect)
    (h : st1.effects = st.effects ++ extra) : newEffects st st1 = extra := by
  simp [newEffects, h]

theorem toBool_eq_true_iff (ec : error_code) : ec.toBool = true ↔ ec.value ≠ 0 := by
  simp [error_code.toBool]

/-- C11: with a dongle installed, when the keepalive trap (`resetDongle`) or
the robot-event receive trap (`handleRobotEvent`) completes with a non-zero
code other than `operation_aborted`, the handler runs to its end (the receive
trap returns, in the state the keepalive trap gives) and the daemon closes
the dongle, uninstalls it, broadcasts exactly one `dongleEvent`, of
`DONGLE_NOT_FOUND`, cancels the timer and arms it with
`kDongleDowntimeAfterError`, 500 ms, waiting with `handleCycleDongleStepOne`;
these are all the calls it makes. -/
theorem trap_error_teardown (K : Constants) (st : DaemonServerImpl) (dongle : Dongle)
    (ec : error_code) (serialId : String) (event : RobotEvent)
    (hd : st.mDongle = some dongle) (hz : ec.value ≠ 0) (ha : ec ≠ operation_aborted K) :
    handleRobotEvent K st ec serialId event = some (resetDongle K st ec)
    ∧ (resetDongle K st ec).mDongle = none
    ∧ (resetDongle K st ec).effects
        = st.effects ++
          [.dongleClose dongle.id, .broadcastDongleEvent (K.status .DONGLE_NOT_FOUND),
           .timerCancel, .timerExpiresFromNow 500,
           .timerAsyncWait .handleCycleDongleStepOne]
    ∧ (resetDongle K st ec).mDongleTimer
        = { expiry := some 500, waits := [.handleCycleDongleStepOne] }
    ∧ kDongleDowntimeAfterError = 500 := by
  have hb : ec.toBool = true := (toBool_eq_true_iff ec).mpr hz
  have hreset : resetDongle K st ec = cycleDongleImpl K st kDongleDowntimeAfterError := by
    simp [resetDongle, Ne.symm ha]
  have hevent : handleRobotEvent K st ec serialId event
      = some (cycleDongleImpl K st kDongleDowntimeAfterError) := by
    simp [handleRobotEvent, hb, Ne.symm ha]
  have hf := cycleDongleImpl_fields K st kDongleDowntimeAfterError
  have he := cycleDongleImpl_effects K st kDongleDowntimeAfterError
  rw [hd] at he
  rw [hevent, hreset]
  exact ⟨rfl, hf.1, by simpa [kDongleDowntimeAfterError] using he,
    by simpa [kDongleDowntimeAfterError] using hf.2.1, rfl⟩

/-- Instance of C11: on a live daemon the receive of robot events fails with
the system error 5 (input/output error); the handler returns, and the calls
made are those the keepalive trap makes on the same error. -/
theorem trap_error_teardown_witness :
    sampleLive.mDongle = some { id := 0 }
    ∧ (⟨5, .system⟩ : error_code).value ≠ 0
    ∧ (⟨5, .system⟩ : error_code) ≠ operation_aborted sampleConstants
    ∧ handleRobotEvent sampleConstants sampleLive ⟨5, .system⟩ "ABCD" sampleRobotEvent
        = some (resetDongle sampleConstants sampleLive ⟨5, .system⟩)
    ∧ (resetDongle sampleConstants sampleLive ⟨5, .system⟩).effects
        = [.dongleClose 0, .broadcastDongleEvent 2, .timerCancel, .timerExpiresFromNow 500,
           .timerAsyncWait .handleCycleDongleStepOne] :=
  ⟨rfl, by decide, by decide,
   (trap_error_teardown sampleConstants sampleLive { id := 0 } ⟨5, .system⟩
      "ABCD" sampleRobotEvent rfl (by decide) (by decide)).1,
   (trap_error_teardown sampleConstants sampleLive { id := 0 } ⟨5, .system⟩
      "ABCD" sampleRobotEvent rfl (by decide) (by decide)).2.2.1⟩

theorem restart_effects (K : Constants) (st : DaemonServerImpl) (e : error_code)
    (timeout : Nat) :
    (cycleDongleImpl K (dongleEvent K st e) timeout).effects
      = st.effects
        ++ ([Effect.broadcastDongleEvent (normalise K e).value]
          ++ ((match st.mDongle with
              | some dongle =>
                  [Effect.dongleClose dongle.id,
                   Effect.broadcastDongleEvent (K.status .DONGLE_NOT_FOUND)]
              | none => [])
            ++ [Effect.timerCancel, Effect.timerExpiresFromNow timeout,
                Effect.timerAsyncWait .handleCycleDongleStepOne])) := by
  rw [cycleDongleImpl_effects]
  simp [dongleEvent]

theorem resolveSerialId_state (K : Constants) (env : ResolveEnv) (st : DaemonServerImpl)
    (serialId : String) :
    (resolveSerialId K env st serialId).2
      = match st.mDongle with
        | none => st
        | some dongle => (proxyEndpoint env st dongle serialId).1 := by
  cases hd : st.mDongle with
  | none => simp [resolveSerialId, resolveSerialIdTry, hd]
  | some dongle =>
    cases hpe : (proxyEndpoint env st dongle serialId).2 with
    | error e => rw [resolveSerialId_of_error K env st dongle serialId e hd hpe]
    | ok endpoint => rw [resolveSerialId_of_endpoint K env st dongle serialId endpoint hd hpe]

theorem findProxy_effects (st : DaemonServerImpl) (serialId : String) :
    ∃ extra, (findProxy st serialId).1.effects = st.effects ++ extra
      ∧ ∀ status, Effect.broadcastDongleEvent status ∉ extra := by
  cases hf : find st.mRobotProxies serialId with
  | none => exact ⟨[], by simp [findProxy, hf], by simp⟩
  | some proxy =>
    cases hl : proxy.listener with
    | ok endpoint => exact ⟨[], by simp [findProxy, hf, hl], by simp⟩
    | error e =>
      exact ⟨[.proxyServerClose proxy.id, .proxyClientClose proxy.id],
        by simp [findProxy, hf, hl], by simp⟩

theorem startProxy_effects (env : ResolveEnv) (st : DaemonServerImpl) (dongle : Dongle)
    (serialId : String) :
    ∃ extra, (startProxy env st dongle serialId).1.effects = st.effects ++ extra
      ∧ ∀ status, Effect.broadcastDongleEvent status ∉ extra := by
  cases hr : env.resolve with
  | error e => exact ⟨[], by simp [startProxy, hr], by simp⟩
  | ok endpoint0 =>
    cases hc : env.construct endpoint0 with
    | error e => exact ⟨[], by simp [startProxy, hr, hc], by simp⟩
    | ok listener =>
      cases listener with
      | error e => exact ⟨[], by simp [startProxy, hr, hc], by simp⟩
      | ok endpoint =>
        exact ⟨[.setRoute st.allocated dongle.id serialId,
            .asyncRunProxy st.allocated (.handleProxyFinished serialId st.allocated)],
          by simp [startProxy, hr, hc], by simp⟩

theorem resolveSerialId_effects (K : Constants) (env : ResolveEnv) (st : DaemonServerImpl)
    (serialId : String) :
    ∃ extra, (resolveSerialId K env st serialId).2.effects = st.effects ++ extra
      ∧ ∀ status, Effect.broadcastDongleEvent status ∉ extra := by
  rw [resolveSerialId_state]
  cases hd : st.mDongle with
  | none => exact ⟨[], by simp, by simp⟩
  | some dongle =>
    obtain ⟨x1, h1, q1⟩ := findProxy_effects st serialId
    cases hf : (findProxy st serialId).2 with
    | some endpoint => exact ⟨x1, by simp [proxyEndpoint, hf, h1], q1⟩
    | none =>
      obtain ⟨x2, h2, q2⟩ := startProxy_effects env (findProxy st serialId).1 dongle serialId
      refine ⟨x1 ++ x2, by simp [proxyEndpoint, hf, h2, h1], ?_⟩
      intro status hmem
      rcases List.mem_append.mp hmem with h | h
      · exact q1 status h
      · exact q2 status h

theorem close_fold (env : CloseEnv) (m : List (String × ProxyData))
    (r : error_code × DaemonServerImpl) :
    (m.foldl
      (fun r kv =>
        (lastError (lastError r.1 (env.proxyClientClose kv.2.id))
            (env.proxyServerClose kv.2.id),
         { r.2 with
            effects := r.2.effects ++
              [.proxyClientClose kv.2.id, .proxyServerClose kv.2.id] }))
      r).2
      = { r.2 with
          effects := r.2.effects ++
            (m.map (fun kv =>
              [Effect.proxyClientClose kv.2.id, Effect.proxyServerClose kv.2.id])).flatten } := by
  induction m generalizing r with
  | nil => simp
  | cons kv m ih =>
    rw [List.foldl_cons, ih]
    simp

theorem close_state (K : Constants) (env : CloseEnv) (st : DaemonServerImpl)
    (ec : error_code) :
    (close K env st ec).2
      = { st with
          effects := st.effects ++
            ([Effect.resolverCancel]
              ++ (match st.mDongle with
                  | some dongle => [Effect.dongleClose dongle.id]
                  | none => [])
              ++ [Effect.serverClose, Effect.timerCancel]
              ++ ((iteration st.mRobotProxies).map (fun kv =>
                    [Effect.proxyClientClose kv.2.id,
                     Effect.proxyServerClose kv.2.id])).flatten)
          posted := st.posted
            ++ st.mDongleTimer.waits.map (fun h => (h, operation_aborted K))
          mDongleTimer := { st.mDongleTimer with waits := [] } } := by
  unfold close
  rw [close_fold]
  cases hd : st.mDongle <;> simp [timerCancel, hd]

theorem completeWait_effects (st : DaemonServerImpl) (h : Handler) (ec : error_code) :
    (completeWait st h ec).effects = st.effects := by
  unfold completeWait
  split <;> rfl

theorem normalise_value_ne_zero (K : Constants) (ec : error_code)
    (hS : K.status .STRANGE_DONGLE ≠ 0) (hV : K.DONGLE_VERSION_MISMATCH ≠ 0)
    (hC : K.status .CANNOT_OPEN_DONGLE ≠ 0) (hz : ec.value ≠ 0) :
    (normalise K ec).value ≠ 0 := by
  unfold normalise
  split
  · simpa [make_error_code] using hS
  · split
    · simpa using hV
    · split
      · simpa [make_error_code] using hC
      · exact hz

theorem mem_newEffects_cycleDongleImpl (K : Constants) (st st0 : DaemonServerImpl)
    (timeout : Nat) (extra : List Effect) (status : Int)
    (h0 : st0.effects = st.effects ++ extra)
    (hD : K.status .DONGLE_NOT_FOUND ≠ status)
    (hmem : Effect.broadcastDongleEvent status
      ∈ newEffects st (cycleDongleImpl K st0 timeout)) :
    Effect.broadcastDongleEvent status ∈ extra := by
  have he := cycleDongleImpl_effects K st0 timeout
  rw [h0, List.append_assoc] at he
  rw [newEffects_of_append st _ _ he] at hmem
  cases hd : st0.mDongle with
  | none => simpa [hd] using hmem
  | some dongle =>
    simp only [hd, List.mem_append, List.mem_cons, Effect.broadcastDongleEvent.injEq,
      List.mem_singleton, reduceCtorEq, false_or, or_false, List.not_mem_nil] at hmem
    rcases hmem with h | h
    · exact h
    · exact absurd h.symm hD

theorem mem_newEffects_restart (K : Constants) (st st0 : DaemonServerImpl)
    (timeout : Nat) (e : error_code) (status : Int)
    (h0 : st0.effects = st.effects)
    (hD : K.status .DONGLE_NOT_FOUND ≠ status)
    (hmem : Effect.broadcastDongleEvent status
      ∈ newEffects st (cycleDongleImpl K (dongleEvent K st0 e) timeout)) :
    (normalise K e).value = status := by
  have h := mem_newEffects_cycleDongleImpl K st (dongleEvent K st0 e) timeout
    [.broadcastDongleEvent (normalise K e).value] status (by simp [dongleEvent, h0]) hD hmem
  have h' : status = (normalise K e).value := by simpa using h
  exact h'.symm

/-- C12: when the RPC connect completes without error, `handleCycleDongleStepFour`
installs that dongle in `mDongle`, starts one robot-event receive and one
keepalive on it and broadcasts exactly one `dongleEvent`, of `OK`.  And no run
of the executor broadcasts `dongleEvent (OK)` and ends without a dongle
installed: the only broadcast of `OK` is that of step four, made after the
dongle was installed (the other broadcasts carry `DONGLE_NOT_FOUND` or the
normalised code of an error).  `OK` is taken to be the zero status and the
four statuses that errors are mapped to not to be zero. -/
theorem rpc_connect_success (K : Constants)
    (hOK : K.status .OK = 0) (hS : K.status .STRANGE_DONGLE ≠ 0)
    (hV : K.DONGLE_VERSION_MISMATCH ≠ 0) (hC : K.status .CANNOT_OPEN_DONGLE ≠ 0)
    (hD : K.status .DONGLE_NOT_FOUND ≠ 0) :
    (∀ (st : DaemonServerImpl) (dongle sigSet : Nat) (ec : error_code), ec.value = 0 →
      ∃ st1, handleCycleDongleStepFour K st dongle sigSet ec = some st1
        ∧ st1.mDongle = some { id := dongle }
        ∧ st1.effects
          = st.effects ++
            [.sigSetCancel sigSet, .asyncReceiveRobotEvent dongle .handleRobotEvent,
             .asyncKeepalive dongle .resetDongle, .broadcastDongleEvent (K.status .OK)])
    ∧ (∀ (st st1 : DaemonServerImpl) (event : Event), event.throwsErrors →
        run K st event = some st1 →
        Effect.broadcastDongleEvent (K.status .OK) ∈ newEffects st st1 →
        st1.mDongle.isSome = true) := by
  have hD' : K.status .DONGLE_NOT_FOUND ≠ K.status .OK := by rw [hOK]; exact hD
  have hfour : ∀ (st : DaemonServerImpl) (dongle sigSet : Nat) (ec : error_code),
      ec.value = 0 →
      ∃ st1, handleCycleDongleStepFour K st dongle sigSet ec = some st1
        ∧ st1.mDongle = some { id := dongle }
        ∧ st1.effects
          = st.effects ++
            [.sigSetCancel sigSet, .asyncReceiveRobotEvent dongle .handleRobotEvent,
             .asyncKeepalive dongle .resetDongle, .broadcastDongleEvent (K.status .OK)] := by
    intro st dongle sigSet ec hz
    have hb : ec.toBool = false := (toBool_eq_false_iff ec).mpr hz
    have hn : (normalise K ⟨K.status .OK, .baromesh⟩).value = K.status .OK :=
      congrArg error_code.value (normalise_daemon_code K .OK)
    refine ⟨_, by simp only [handleCycleDongleStepFour, hb, setDongleIoTraps,
      receiveRobotEvents]; rfl, rfl, ?_⟩
    simp [dongleEvent, make_error_code, hn]
  have hrestart : ∀ (st st0 : DaemonServerImpl) (timeout : Nat) (e : error_code),
      st0.effects = st.effects → e.value ≠ 0 →
      Effect.broadcastDongleEvent (K.status .OK)
        ∈ newEffects st (cycleDongleImpl K (dongleEvent K st0 e) timeout) → False := by
    intro st st0 timeout e h0 hz hmem
    have h := mem_newEffects_restart K st st0 timeout e _ h0 hD' hmem
    exact normalise_value_ne_zero K e hS hV hC hz (h.trans hOK)
  have hcycle : ∀ (st : DaemonServerImpl) (timeout : Nat),
      Effect.broadcastDongleEvent (K.status .OK)
        ∈ newEffects st (cycleDongleImpl K st timeout) → False := by
    intro st timeout hmem
    have h := mem_newEffects_cycleDongleImpl K st st timeout [] _ (by simp) hD' hmem
    simp at h
  have hsame : ∀ (st : DaemonServerImpl),
      Effect.broadcastDongleEvent (K.status .OK) ∈ newEffects st st → False := by
    intro st hmem
    simp [newEffects] at hmem
  refine ⟨hfour, ?_⟩
  intro st st1 event hthrows hrun hmem
  cases event with
  | init =>
    simp only [run, init, Option.some.injEq] at hrun
    subst hrun
    exact (hcycle st 0 hmem).elim
  | cycleDongle seconds =>
    simp only [run, cycleDongle, Option.some.injEq] at hrun
    subst hrun
    exact (hcycle st _ hmem).elim
  | resolveSerialId env serialId =>
    simp only [run, Option.some.injEq] at hrun
    subst hrun
    obtain ⟨extra, he, hq⟩ := resolveSerialId_effects K env st serialId
    rw [newEffects_of_append st _ _ he] at hmem
    exact (hq _ hmem).elim
  | sendRobotPing destinations =>
    simp only [run, Option.some.injEq] at hrun
    subst hrun
    cases hd : st.mDongle with
    | none =>
      simp [sendRobotPing, hd, newEffects] at hmem
    | some dongle =>
      simp [sendRobotPing, hd, newEffects] at hmem
  | sendRobotPingHandler ec =>
    simp only [run, sendRobotPingHandler, Option.some.injEq] at hrun
    subst hrun
    split at hmem
    · exact (hcycle st _ hmem).elim
    · exact (hsame st hmem).elim
  | handleProxyFinished serialId proxy ec =>
    simp only [run, handleProxyFinished, Option.some.injEq] at hrun
    subst hrun
    simp [newEffects] at hmem
  | handleCycleDongleStepOne env ec =>
    simp only [run, Option.some.injEq] at hrun
    subst hrun
    have h0 := completeWait_effects st .handleCycleDongleStepOne ec
    unfold handleCycleDongleStepOne at hmem
    split at hmem
    · cases hp : env.dongleDevicePath with
      | error e =>
        simp only [hp] at hmem
        exact (hrestart st _ _ e h0 (hthrows.1 e hp) hmem).elim
      | ok devicePath =>
        simp only [hp] at hmem
        cases ho : env.streamOpen devicePath with
        | error e =>
          simp only [ho] at hmem
          exact (hrestart st _ _ e (by simp [h0]) (hthrows.2.1 devicePath e ho) hmem).elim
        | ok u =>
          simp [ho, newEffects, async_wait, expires_from_now, h0] at hmem
    · simp [newEffects, h0] at hmem
  | handleCycleDongleStepTwo env dongle ec =>
    simp only [run, Option.some.injEq] at hrun
    subst hrun
    have h0 := completeWait_effects st (.handleCycleDongleStepTwo dongle) ec
    unfold handleCycleDongleStepTwo at hmem
    split at hmem
    · cases hp : env.streamSetOption with
      | error e =>
        simp only [hp] at hmem
        exact (hrestart st _ _ e h0 (hthrows.2.2 e hp) hmem).elim
      | ok u =>
        simp [hp, newEffects, h0] at hmem
    · simp [newEffects, h0] at hmem
  | handleCycleDongleStepThree dongle sigSet ec =>
    simp only [run, Option.some.injEq] at hrun
    subst hrun
    unfold handleCycleDongleStepThree at hmem
    split at hmem
    · simp [newEffects] at hmem
    · rename_i hb
      split at hmem
      · exact (hrestart st st _ ec rfl (by simpa [error_code.toBool] using hb) hmem).elim
      · exact (hsame st hmem).elim
  | handleCycleDongleStepFour dongle sigSet ec =>
    simp only [run] at hrun
    by_cases hz : ec.value = 0
    · obtain ⟨st2, h2, hd2, _⟩ := hfour st dongle sigSet ec hz
      rw [h2] at hrun
      simp only [Option.some.injEq] at hrun
      subst hrun
      simp [hd2]
    · have hb : ec.toBool = true := (toBool_eq_true_iff ec).mpr hz
      by_cases ha : operation_aborted K = ec
      · have hst : st = st1 := by simpa [handleCycleDongleStepFour, hb, ha] using hrun
        subst hst
        exact (hsame st hmem).elim
      · have hst : cycleDongleImpl K (dongleEvent K st ec) kDongleDevicePathPollTimeout
            = st1 := by
          simpa [handleCycleDongleStepFour, hb, ha] using hrun
        subst hst
        exact (hrestart st st _ ec rfl hz hmem).elim
  | handleRobotEvent ec serialId event =>
    simp only [run] at hrun
    by_cases hz : ec.value = 0
    · have hb : ec.toBool = false := (toBool_eq_false_iff ec).mpr hz
      simp only [handleRobotEvent, hb, receiveRobotEvents] at hrun
      cases hd : st.mDongle with
      | none => simp [hd] at hrun
      | some d =>
        simp only [hd, Bool.not_false, if_true, Option.some.injEq] at hrun
        subst hrun
        simp [hd]
    · have hb : ec.toBool = true := (toBool_eq_true_iff ec).mpr hz
      by_cases ha : operation_aborted K = ec
      · have hst : st = st1 := by simpa [handleRobotEvent, hb, ha] using hrun
        subst hst
        exact (hsame st hmem).elim
      · have hst : cycleDongleImpl K st kDongleDowntimeAfterError = st1 := by
          simpa [handleRobotEvent, hb, ha] using hrun
        subst hst
        exact (hcycle st _ hmem).elim
  | resetDongle ec =>
    simp only [run, resetDongle, Option.some.injEq] at hrun
    subst hrun
    split at hmem
    · exact (hcycle st _ hmem).elim
    · exact (hsame st hmem).elim
  | close env ec =>
    simp only [run, Option.some.injEq] at hrun
    subst hrun
    have hq : Effect.broadcastDongleEvent (K.status .OK)
        ∉ ((iteration st.mRobotProxies).map (fun kv =>
            [Effect.proxyClientClose kv.2.id, Effect.proxyServerClose kv.2.id])).flatten := by
      intro h
      obtain ⟨l, hl, hin⟩ := List.mem_flatten.mp h
      obtain ⟨kv, _, rfl⟩ := List.mem_map.mp hl
      simp at hin
    rw [close_state] at hmem
    cases hd : st.mDongle <;> simp [newEffects, hd, hq] at hmem

/-- Instance of C12: the RPC connect of dongle 0 (signal set 1) completes
without error. -/
theorem rpc_connect_success_witness :
    sampleConstants.status .OK = 0
    ∧ sampleConstants.status .STRANGE_DONGLE ≠ 0
    ∧ sampleConstants.DONGLE_VERSION_MISMATCH ≠ 0
    ∧ sampleConstants.status .CANNOT_OPEN_DONGLE ≠ 0
    ∧ sampleConstants.status .DONGLE_NOT_FOUND ≠ 0
    ∧ ∃ st1, handleCycleDongleStepFour sampleConstants sampleCooldown 0 1 error_code.success
          = some st1
        ∧ st1.mDongle = some { id := 0 }
        ∧ st1.effects
          = sampleCooldown.effects ++
            [.sigSetCancel 1, .asyncReceiveRobotEvent 0 .handleRobotEvent,
             .asyncKeepalive 0 .resetDongle,
             .broadcastDongleEvent (sampleConstants.status .OK)] :=
  ⟨rfl, by decide, by decide, by decide, by decide,
   (rpc_connect_success sampleConstants rfl (by decide) (by decide) (by decide)
      (by decide)).1 sampleCooldown 0 1 error_code.success rfl⟩

/-- C13 as stated fails: when the handshake completes with the system error 5
(input/output error), step three broadcasts `CANNOT_OPEN_DONGLE`, not
`STRANGE_DONGLE`, before it enters cooldown; and when it completes with
`operation_aborted` nothing is broadcast and the state is left as it was. -/
theorem handshake_error_counterexample :
    (handleCycleDongleStepThree sampleConstants sampleCooldown 1 2 ⟨5, .system⟩).effects
        = [.broadcastDongleEvent (sampleConstants.status .CANNOT_OPEN_DONGLE),
           .timerCancel, .timerExpiresFromNow 500,
           .timerAsyncWait .handleCycleDongleStepOne]
    ∧ sampleConstants.status .CANNOT_OPEN_DONGLE ≠ sampleConstants.status .STRANGE_DONGLE
    ∧ (handleCycleDongleStepThree sampleConstants sampleCooldown 1 2
        (operation_aborted sampleConstants)).effects = [] := by
  refine ⟨?_, ?_, ?_⟩ <;> decide

/-- C13, amended: when the framing handshake completes with the framing
layer's `HANDSHAKE_FAILED` code, step three broadcasts `dongleEvent` with
`STRANGE_DONGLE` and enters cooldown: no dongle is installed afterwards and
the timer is armed with 500 ms for `handleCycleDongleStepOne`.  For every
other non-zero code except `operation_aborted` it enters cooldown in the same
way and the status broadcast is the normalised code; for `operation_aborted`
it does nothing.  `HANDSHAKE_FAILED` and `operation_aborted` are taken to be
non-zero. -/
theorem handshake_failure (K : Constants) (st : DaemonServerImpl) (dongle sigSet : Nat)
    (hHF : K.HANDSHAKE_FAILED ≠ 0) (hab : K.operation_aborted ≠ 0) :
    ((handleCycleDongleStepThree K st dongle sigSet ⟨K.HANDSHAKE_FAILED, .sfp⟩).effects
        = st.effects
          ++ ([Effect.broadcastDongleEvent (K.status .STRANGE_DONGLE)]
            ++ ((match st.mDongle with
                | some installed =>
                    [Effect.dongleClose installed.id,
                     Effect.broadcastDongleEvent (K.status .DONGLE_NOT_FOUND)]
                | none => [])
              ++ [Effect.timerCancel, Effect.timerExpiresFromNow 500,
                  Effect.timerAsyncWait .handleCycleDongleStepOne])))
    ∧ (∀ ec : error_code, ec.value ≠ 0 → ec ≠ operation_aborted K →
        (handleCycleDongleStepThree K st dongle sigSet ec).mDongle = none
        ∧ (handleCycleDongleStepThree K st dongle sigSet ec).mDongleTimer
          = { expiry := some 500, waits := [.handleCycleDongleStepOne] }
        ∧ (handleCycleDongleStepThree K st dongle sigSet ec).effects
          = st.effects
            ++ ([Effect.broadcastDongleEvent (normalise K ec).value]
              ++ ((match st.mDongle with
                  | some installed =>
                      [Effect.dongleClose installed.id,
                       Effect.broadcastDongleEvent (K.status .DONGLE_NOT_FOUND)]
                  | none => [])
                ++ [Effect.timerCancel, Effect.timerExpiresFromNow 500,
                    Effect.timerAsyncWait .handleCycleDongleStepOne])))
    ∧ handleCycleDongleStepThree K st dongle sigSet (operation_aborted K) = st := by
  have hgen : ∀ ec : error_code, ec.value ≠ 0 → ec ≠ operation_aborted K →
      handleCycleDongleStepThree K st dongle sigSet ec
        = cycleDongleImpl K (dongleEvent K st ec) kDongleDevicePathPollTimeout := by
    intro ec hz ha
    have hb : ec.toBool = true := (toBool_eq_true_iff ec).mpr hz
    simp [handleCycleDongleStepThree, hb, Ne.symm ha]
  refine ⟨?_, ?_, ?_⟩
  · have hne : (⟨K.HANDSHAKE_FAILED, .sfp⟩ : error_code) ≠ operation_aborted K := by
      simp [operation_aborted]
    rw [hgen _ hHF hne, restart_effects]
    simp [normalise, make_error_code, kDongleDevicePathPollTimeout]
  · intro ec hz ha
    rw [hgen ec hz ha]
    have hf := cycleDongleImpl_fields K (dongleEvent K st ec) kDongleDevicePathPollTimeout
    exact ⟨hf.1, hf.2.1, restart_effects K st ec _⟩
  · have hb : (operation_aborted K).toBool = true := by
      simp [error_code.toBool, operation_aborted, hab]
    simp [handleCycleDongleStepThree, hb]

/-- Instance of the amended C13: the handshake of dongle 1 fails with
`HANDSHAKE_FAILED` while the daemon waits in cooldown. -/
theorem handshake_failure_witness :
    sampleConstants.HANDSHAKE_FAILED ≠ 0
    ∧ sampleConstants.operation_aborted ≠ 0
    ∧ (handleCycleDongleStepThree sampleConstants sampleCooldown 1 2
        ⟨sampleConstants.HANDSHAKE_FAILED, .sfp⟩).effects
      = [.broadcastDongleEvent 8, .timerCancel, .timerExpiresFromNow 500,
         .timerAsyncWait .handleCycleDongleStepOne] :=
  ⟨by decide, by decide,
   (handshake_failure sampleConstants sampleCooldown 1 2 (by decide) (by decide)).1⟩

/-- C14: when the RPC connect completes with the RPC code `VERSION_MISMATCH`,
step four broadcasts `dongleEvent` with the value of
`Status::DONGLE_VERSION_MISMATCH`, leaves no dongle installed and arms the
timer with `kDongleDevicePathPollTimeout`, 500 ms, for
`handleCycleDongleStepOne`.  But no enumerator of `baromesh::Status` in
`status.hpp` has the name `DONGLE_VERSION_MISMATCH`; the enumeration declares
`RPC_VERSION_MISMATCH`.  The enumerators of `rpc::Status` are taken to be
distinct and `VERSION_MISMATCH` not to be zero. -/
theorem version_mismatch_restart (K : Constants) (st : DaemonServerImpl)
    (dongle sigSet : Nat)
    (hVM : K.VERSION_MISMATCH ≠ 0)
    (hSanity : K.VERSION_MISMATCH ≠ K.MESSAGE_SANITY_FAILURE)
    (hTimedOut : K.VERSION_MISMATCH ≠ K.TIMED_OUT) :
    (∃ st1, handleCycleDongleStepFour K st dongle sigSet ⟨K.VERSION_MISMATCH, .rpc⟩ = some st1
      ∧ st1.mDongle = none
      ∧ st1.mDongleTimer = { expiry := some 500, waits := [.handleCycleDongleStepOne] }
      ∧ st1.effects
        = st.effects
          ++ ([Effect.broadcastDongleEvent K.DONGLE_VERSION_MISMATCH]
            ++ ((match st.mDongle with
                | some installed =>
                    [Effect.dongleClose installed.id,
                     Effect.broadcastDongleEvent (K.status .DONGLE_NOT_FOUND)]
                | none => [])
              ++ [Effect.timerCancel, Effect.timerExpiresFromNow 500,
                  Effect.timerAsyncWait .handleCycleDongleStepOne])))
    ∧ (∀ s : Status, s.name ≠ "DONGLE_VERSION_MISMATCH")
    ∧ Status.name .RPC_VERSION_MISMATCH = "RPC_VERSION_MISMATCH" := by
  refine ⟨?_, ?_, rfl⟩
  · have hb : (⟨K.VERSION_MISMATCH, .rpc⟩ : error_code).toBool = true := by
      simp [error_code.toBool, hVM]
    have hne : operation_aborted K ≠ (⟨K.VERSION_MISMATCH, .rpc⟩ : error_code) := by
      simp [operation_aborted]
    have hf := cycleDongleImpl_fields K (dongleEvent K st ⟨K.VERSION_MISMATCH, .rpc⟩)
      kDongleDevicePathPollTimeout
    refine ⟨_, by simp [handleCycleDongleStepFour, hb, hne], hf.1, hf.2.1, ?_⟩
    rw [restart_effects]
    simp [normalise, hSanity.symm, hTimedOut.symm, kDongleDevicePathPollTimeout]
  · intro s
    cases s <;> decide

/-- Instance of C14's evaluation: the RPC connect of dongle 1 reports a version
mismatch while the daemon waits in cooldown. -/
theorem version_mismatch_restart_witness :
    sampleConstants.VERSION_MISMATCH ≠ 0
    ∧ sampleConstants.VERSION_MISMATCH ≠ sampleConstants.MESSAGE_SANITY_FAILURE
    ∧ sampleConstants.VERSION_MISMATCH ≠ sampleConstants.TIMED_OUT
    ∧ ∃ st1, handleCycleDongleStepFour sampleConstants sampleCooldown 1 2
          ⟨sampleConstants.VERSION_MISMATCH, .rpc⟩ = some st1
        ∧ st1.mDongle = none
        ∧ st1.mDongleTimer = { expiry := some 500, waits := [.handleCycleDongleStepOne] }
        ∧ st1.effects
          = sampleCooldown.effects
            ++ ([Effect.broadcastDongleEvent sampleConstants.DONGLE_VERSION_MISMATCH]
              ++ ((match sampleCooldown.mDongle with
                  | some installed =>
                      [Effect.dongleClose installed.id,
                       Effect.broadcastDongleEvent
                         (sampleConstants.status .DONGLE_NOT_FOUND)]
                  | none => [])
                ++ [Effect.timerCancel, Effect.timerExpiresFromNow 500,
                    Effect.timerAsyncWait .handleCycleDongleStepOne])) :=
  ⟨by decide, by decide, by decide,
   (version_mismatch_restart sampleConstants sampleCooldown 1 2 (by decide) (by decide)
      (by decide)).1⟩

/-- C15: each of the four acquisition steps that fails with an error other
than `operation_aborted` restarts the acquisition: step one when the device
path lookup or the opening of the device throws, step two when setting an
option throws, steps three and four when the handshake or the RPC connect
completes with such a code.  The restart broadcasts one `dongleEvent` with the
normalised code of the error, leaves no dongle installed (a dongle that is
installed at that moment is closed, with its own `DONGLE_NOT_FOUND`
broadcast), cancels the timer and arms it with
`kDongleDevicePathPollTimeout`, 500 ms, for `handleCycleDongleStepOne`.  A
timer completion with an error code, such as that of a cancelled wait, leaves
the state as it was in steps one and two. -/
theorem acquisition_step_failure (K : Constants) (env : AcquireEnv)
    (st : DaemonServerImpl) (dongle sigSet : Nat) (ec e : error_code) :
    (ec.value = 0 → env.dongleDevicePath = .error e →
      handleCycleDongleStepOne K env st ec
        = cycleDongleImpl K (dongleEvent K st e) kDongleDevicePathPollTimeout)
    ∧ (ec.value = 0 → ∀ devicePath, env.dongleDevicePath = .ok devicePath →
        env.streamOpen devicePath = .error e →
        handleCycleDongleStepOne K env st ec
          = cycleDongleImpl K (dongleEvent K { st with allocated := st.allocated + 1 } e)
              kDongleDevicePathPollTimeout)
    ∧ (ec.value = 0 → env.streamSetOption = .error e →
        handleCycleDongleStepTwo K env st dongle ec
          = cycleDongleImpl K (dongleEvent K st e) kDongleDevicePathPollTimeout)
    ∧ (ec.value ≠ 0 → ec ≠ operation_aborted K →
        handleCycleDongleStepThree K st dongle sigSet ec
          = cycleDongleImpl K (dongleEvent K st ec) kDongleDevicePathPollTimeout)
    ∧ (ec.value ≠ 0 → ec ≠ operation_aborted K →
        handleCycleDongleStepFour K st dongle sigSet ec
          = some (cycleDongleImpl K (dongleEvent K st ec) kDongleDevicePathPollTimeout))
    ∧ (∀ st0 : DaemonServerImpl,
        (cycleDongleImpl K (dongleEvent K st0 e) kDongleDevicePathPollTimeout).mDongle = none
        ∧ (cycleDongleImpl K (dongleEvent K st0 e) kDongleDevicePathPollTimeout).mDongleTimer
          = { expiry := some 500, waits := [.handleCycleDongleStepOne] }
        ∧ (cycleDongleImpl K (dongleEvent K st0 e) kDongleDevicePathPollTimeout).effects
          = st0.effects
            ++ ([Effect.broadcastDongleEvent (normalise K e).value]
              ++ ((match st0.mDongle with
                  | some installed =>
                      [Effect.dongleClose installed.id,
                       Effect.broadcastDongleEvent (K.status .DONGLE_NOT_FOUND)]
                  | none => [])
                ++ [Effect.timerCancel, Effect.timerExpiresFromNow 500,
                    Effect.timerAsyncWait .handleCycleDongleStepOne])))
    ∧ (ec.value ≠ 0 →
        handleCycleDongleStepOne K env st ec = st
        ∧ handleCycleDongleStepTwo K env st dongle ec = st) := by
  refine ⟨?_, ?_, ?_, ?_, ?_, ?_, ?_⟩
  · intro hz hp
    have hb : ec.toBool = false := (toBool_eq_false_iff ec).mpr hz
    simp [handleCycleDongleStepOne, hb, hp]
  · intro hz devicePath hp ho
    have hb : ec.toBool = false := (toBool_eq_false_iff ec).mpr hz
    simp [handleCycleDongleStepOne, hb, hp, ho]
  · intro hz hp
    have hb : ec.toBool = false := (toBool_eq_false_iff ec).mpr hz
    simp [handleCycleDongleStepTwo, hb, hp]
  · intro hz ha
    have hb : ec.toBool = true := (toBool_eq_true_iff ec).mpr hz
    simp [handleCycleDongleStepThree, hb, Ne.symm ha]
  · intro hz ha
    have hb : ec.toBool = true := (toBool_eq_true_iff ec).mpr hz
    simp [handleCycleDongleStepFour, hb, Ne.symm ha]
  · intro st0
    have hf := cycleDongleImpl_fields K (dongleEvent K st0 e) kDongleDevicePathPollTimeout
    exact ⟨hf.1, hf.2.1, restart_effects K st0 e _⟩
  · intro hz
    have hb : ec.toBool = true := (toBool_eq_true_iff ec).mpr hz
    exact ⟨by simp [handleCycleDongleStepOne, hb], by simp [handleCycleDongleStepTwo, hb]⟩

/-- Instance of C15: the timer fires in cooldown and no dongle is found; the
lookup throws `DONGLE_NOT_FOUND`, which is broadcast, and the timer is armed
again with 500 ms. -/
theorem acquisition_step_failure_witness :
    error_code.success.value = 0
    ∧ sampleNoDongleEnv.dongleDevicePath
        = .error (make_error_code sampleConstants .DONGLE_NOT_FOUND)
    ∧ handleCycleDongleStepOne sampleConstants sampleNoDongleEnv sampleCooldown
        error_code.success
      = cycleDongleImpl sampleConstants
          (dongleEvent sampleConstants sampleCooldown
            (make_error_code sampleConstants .DONGLE_NOT_FOUND))
          kDongleDevicePathPollTimeout
    ∧ (handleCycleDongleStepOne sampleConstants sampleNoDongleEnv sampleCooldown
        error_code.success).effects
      = [.broadcastDongleEvent 2, .timerCancel, .timerExpiresFromNow 500,
         .timerAsyncWait .handleCycleDongleStepOne] :=
  ⟨rfl, rfl,
   (acquisition_step_failure sampleConstants sampleNoDongleEnv sampleCooldown 0 1
      error_code.success (make_error_code sampleConstants .DONGLE_NOT_FOUND)).1 rfl rfl,
   by decide⟩

/-- C16 as stated fails.  In the first run the RPC connect of dongle 0 is
outstanding when `cycleDongle (10)` is requested; when the connect then
completes without error, dongle 0 is installed and `dongleEvent (OK)` is
broadcast, although the wait that `cycleDongle` started on the timer (10000
ms) is still outstanding.  In the second run a second acquisition is started
after `cycleDongle (0)` while the connect of the first is outstanding; both
connects complete without error and both acquisitions install their dongle
and broadcast `OK`. -/
theorem stale_completion_counterexample :
    (runAll sampleConstants .initial sampleConnecting).map
        (fun st => decide (Effect.asyncConnect 0 1000 (.handleCycleDongleStepFour 0 1)
          ∈ st.effects))
      = some true
    ∧ (runAll sampleConstants .initial sampleSuperseded).map
        (fun st => (st.mDongle, st.mDongleTimer, st.effects.drop 9))
      = some (some { id := 0 },
          { expiry := some 10000, waits := [.handleCycleDongleStepOne] },
          [.timerCancel, .timerExpiresFromNow 10000,
           .timerAsyncWait .handleCycleDongleStepOne,
           .sigSetCancel 1, .asyncReceiveRobotEvent 0 .handleRobotEvent,
           .asyncKeepalive 0 .resetDongle,
           .broadcastDongleEvent (sampleConstants.status .OK)])
    ∧ (runAll sampleConstants .initial sampleTwoAttempts).map
        (fun st => (st.mDongle, st.effects.drop 18))
      = some (some { id := 2 },
          [.sigSetCancel 1, .asyncReceiveRobotEvent 0 .handleRobotEvent,
           .asyncKeepalive 0 .resetDongle,
           .broadcastDongleEvent (sampleConstants.status .OK),
           .sigSetCancel 3, .asyncReceiveRobotEvent 2 .handleRobotEvent,
           .asyncKeepalive 2 .resetDongle,
           .broadcastDongleEvent (sampleConstants.status .OK)]) := by
  refine ⟨?_, ?_, ?_⟩ <;> decide

/-- C16, amended: `cycleDongle` supersedes the waits on the acquisition timer
only.  It cancels them, and a step-one or step-two continuation that completes
with `operation_aborted` leaves the state as it was.  An RPC connect that is
outstanding when `cycleDongle` is requested is not superseded: when it
completes without error afterwards, step four installs its dongle, arms the
traps and broadcasts `dongleEvent (OK)` while the wait that `cycleDongle`
started on the timer is still outstanding; likewise step three issues the RPC
connect when an outstanding handshake completes without error.
`operation_aborted` is taken to be non-zero. -/
theorem stale_completion (K : Constants) (env : AcquireEnv) (st : DaemonServerImpl)
    (dongle sigSet seconds : Nat) (hab : K.operation_aborted ≠ 0) :
    handleCycleDongleStepOne K env st (operation_aborted K) = st
    ∧ handleCycleDongleStepTwo K env st dongle (operation_aborted K) = st
    ∧ (cycleDongle K st seconds).2.posted
        = st.posted ++ st.mDongleTimer.waits.map (fun h => (h, operation_aborted K))
    ∧ (∃ st1, handleCycleDongleStepFour K (cycleDongle K st seconds).2 dongle sigSet
          error_code.success = some st1
        ∧ st1.mDongle = some { id := dongle }
        ∧ st1.mDongleTimer
          = { expiry := some (seconds * 1000), waits := [.handleCycleDongleStepOne] }
        ∧ st1.effects
          = (cycleDongle K st seconds).2.effects ++
            [.sigSetCancel sigSet, .asyncReceiveRobotEvent dongle .handleRobotEvent,
             .asyncKeepalive dongle .resetDongle, .broadcastDongleEvent (K.status .OK)])
    ∧ (handleCycleDongleStepThree K (cycleDongle K st seconds).2 dongle sigSet
          error_code.success).effects
        = (cycleDongle K st seconds).2.effects ++
          [.asyncConnect dongle 1000 (.handleCycleDongleStepFour dongle sigSet)] := by
  have hb : (operation_aborted K).toBool = true := by
    simp [error_code.toBool, operation_aborted, hab]
  have hs : error_code.success.toBool = false := by decide
  have hf := cycleDongleImpl_fields K st (seconds * 1000)
  have hn : (normalise K ⟨K.status .OK, .baromesh⟩).value = K.status .OK :=
    congrArg error_code.value (normalise_daemon_code K .OK)
  refine ⟨by simp [handleCycleDongleStepOne, hb], by simp [handleCycleDongleStepTwo, hb],
    hf.2.2.2.2, ?_, ?_⟩
  · refine ⟨_, by simp only [handleCycleDongleStepFour, hs, setDongleIoTraps,
      receiveRobotEvents]; rfl, rfl, ?_, ?_⟩
    · exact hf.2.1
    · simp [dongleEvent, make_error_code, hn]
  · simp [handleCycleDongleStepThree, hs, kDongleConnectTimeout]

/-- Instance of the amended C16: on the daemon in cooldown, `cycleDongle (10)`
is followed by the successful completion of the RPC connect of dongle 1. -/
theorem stale_completion_witness :
    sampleConstants.operation_aborted ≠ 0
    ∧ handleCycleDongleStepOne sampleConstants sampleAcquireEnv sampleCooldown
        (operation_aborted sampleConstants) = sampleCooldown
    ∧ ∃ st1, handleCycleDongleStepFour sampleConstants
          (cycleDongle sampleConstants sampleCooldown 10).2 1 2 error_code.success = some st1
        ∧ st1.mDongle = some { id := 1 }
        ∧ st1.mDongleTimer
          = { expiry := some (10 * 1000), waits := [.handleCycleDongleStepOne] }
        ∧ st1.effects
          = (cycleDongle sampleConstants sampleCooldown 10).2.effects ++
            [.sigSetCancel 2, .asyncReceiveRobotEvent 1 .handleRobotEvent,
             .asyncKeepalive 1 .resetDongle,
             .broadcastDongleEvent (sampleConstants.status .OK)] :=
  ⟨by decide,
   (stale_completion sampleConstants sampleAcquireEnv sampleCooldown 1 2 10 (by decide)).1,
   (stale_completion sampleConstants sampleAcquireEnv sampleCooldown 1 2 10
      (by decide)).2.2.2.1⟩

theorem find_erase_ne (m : List (String × ProxyData)) (serialId other : String)
    (h : other ≠ serialId) : find (erase m serialId) other = find m other := by
  have hfun : (fun kv : String × ProxyData =>
        decide ((kv.1 != serialId) = true ∧ (kv.1 == other) = true))
      = (fun kv => kv.1 == other) := by
    funext kv
    by_cases hko : kv.1 = other
    · have hks : kv.1 ≠ serialId := fun h' => h (hko.symm.trans h')
      simp [hko, hks, h]
    · simp [hko]
  simp only [find, erase, List.find?_filter, hfun]

/-- C17: `handleProxyFinished (s, p, ec)` erases whatever entry the map holds
for the serial `s`, without looking at `p`: afterwards the map has no entry
for `s`, and the entry of every other serial is as before.  So an entry for
`s` that holds a newer proxy than `p` is erased too: after the undead proxy 1
of `ABCD` was replaced by the fresh proxy 2, the completion callback of
proxy 1 removes proxy 2 from the map. -/
theorem handleProxyFinished_erases_serial :
    (∀ (st : DaemonServerImpl) (serialId : String) (proxy : Nat) (ec : error_code),
      find (handleProxyFinished st serialId proxy ec).mRobotProxies serialId = none
      ∧ ∀ other, other ≠ serialId →
          find (handleProxyFinished st serialId proxy ec).mRobotProxies other
            = find st.mRobotProxies other)
    ∧ (resolveSerialId sampleConstants sampleEnv sampleUndead "ABCD").2.mRobotProxies.map
        (fun kv => (kv.1, kv.2.id)) = [("ABCD", 2)]
    ∧ (handleProxyFinished (resolveSerialId sampleConstants sampleEnv sampleUndead "ABCD").2
        "ABCD" 1 error_code.success).mRobotProxies.map (fun kv => (kv.1, kv.2.id)) = [] := by
  refine ⟨?_, by decide, by decide⟩
  intro st serialId proxy ec
  exact ⟨find_erase_self _ _, fun other h => find_erase_ne _ _ _ h⟩

/-! ### What a run of the executor does to the proxy map -/

theorem completeWait_map (st : DaemonServerImpl) (h : Handler) (ec : error_code) :
    (completeWait st h ec).mRobotProxies = st.mRobotProxies := by
  unfold completeWait
  split <;> rfl

theorem cycleDongleImpl_map (K : Constants) (st : DaemonServerImpl) (timeout : Nat) :
    (cycleDongleImpl K st timeout).mRobotProxies = st.mRobotProxies :=
  (cycleDongleImpl_fields K st timeout).2.2.1

theorem handleCycleDongleStepOne_map (K : Constants) (env : AcquireEnv)
    (st : DaemonServerImpl) (ec : error_code) :
    (handleCycleDongleStepOne K env st ec).mRobotProxies = st.mRobotProxies := by
  unfold handleCycleDongleStepOne
  split
  · cases hp : env.dongleDevicePath with
    | error e => simp [cycleDongleImpl_map, dongleEvent]
    | ok devicePath =>
      cases ho : env.streamOpen devicePath with
      | error e => simp [ho, cycleDongleImpl_map, dongleEvent]
      | ok u => simp [ho, async_wait, expires_from_now]
  · rfl

theorem handleCycleDongleStepTwo_map (K : Constants) (env : AcquireEnv)
    (st : DaemonServerImpl) (dongle : Nat) (ec : error_code) :
    (handleCycleDongleStepTwo K env st dongle ec).mRobotProxies = st.mRobotProxies := by
  unfold handleCycleDongleStepTwo
  split
  · cases hp : env.streamSetOption with
    | error e => simp [cycleDongleImpl_map, dongleEvent]
    | ok u => simp
  · rfl

theorem handleCycleDongleStepThree_map (K : Constants) (st : DaemonServerImpl)
    (dongle sigSet : Nat) (ec : error_code) :
    (handleCycleDongleStepThree K st dongle sigSet ec).mRobotProxies = st.mRobotProxies := by
  unfold handleCycleDongleStepThree
  split
  · rfl
  · split
    · simp [cycleDongleImpl_map, dongleEvent]
    · rfl

theorem handleCycleDongleStepFour_map (K : Constants) (st st1 : DaemonServerImpl)
    (dongle sigSet : Nat) (ec : error_code)
    (h : handleCycleDongleStepFour K st dongle sigSet ec = some st1) :
    st1.mRobotProxies = st.mRobotProxies := by
  unfold handleCycleDongleStepFour at h
  split at h
  · simp only [setDongleIoTraps, receiveRobotEvents, Option.map_some',
      Option.some.injEq] at h
    subst h
    rfl
  · split at h
    · have hst := Option.some.inj h
      subst hst
      simp [cycleDongleImpl_map, dongleEvent]
    · have hst := Option.some.inj h
      subst hst
      rfl

theorem handleRobotEvent_map (K : Constants) (st st1 : DaemonServerImpl) (ec : error_code)
    (serialId : String) (event : RobotEvent)
    (h : handleRobotEvent K st ec serialId event = some st1) :
    st1.mRobotProxies = st.mRobotProxies := by
  unfold handleRobotEvent at h
  split at h
  · cases hd : st.mDongle with
    | none => simp [receiveRobotEvents, hd] at h
    | some d =>
      simp only [receiveRobotEvents, hd, Option.some.injEq] at h
      subst h
      rfl
  · split at h
    · have hst := Option.some.inj h
      subst hst
      exact cycleDongleImpl_map K st _
    · have hst := Option.some.inj h
      subst hst
      rfl

theorem close_map (K : Constants) (env : CloseEnv) (st : DaemonServerImpl)
    (ec : error_code) : (close K env st ec).2.mRobotProxies = st.mRobotProxies := by
  rw [close_state]

theorem run_map (K : Constants) (st st1 : DaemonServerImpl) (event : Event)
    (hrun : run K st event = some st1)
    (hresolve : ∀ env serialId, event ≠ .resolveSerialId env serialId)
    (hfinished : ∀ serialId proxy ec, event ≠ .handleProxyFinished serialId proxy ec) :
    st1.mRobotProxies = st.mRobotProxies := by
  cases event with
  | init =>
    have hst := Option.some.inj hrun
    subst hst
    exact cycleDongleImpl_map K st 0
  | cycleDongle seconds =>
    have hst := Option.some.inj hrun
    subst hst
    exact cycleDongleImpl_map K st _
  | resolveSerialId env serialId => exact absurd rfl (hresolve env serialId)
  | sendRobotPing destinations =>
    have hst := Option.some.inj hrun
    subst hst
    cases hd : st.mDongle <;> simp [sendRobotPing, hd]
  | sendRobotPingHandler ec =>
    have hst := Option.some.inj hrun
    subst hst
    unfold sendRobotPingHandler
    split
    · exact cycleDongleImpl_map K st _
    · rfl
  | handleProxyFinished serialId proxy ec => exact absurd rfl (hfinished serialId proxy ec)
  | handleCycleDongleStepOne env ec =>
    have hst := Option.some.inj hrun
    subst hst
    rw [handleCycleDongleStepOne_map, completeWait_map]
  | handleCycleDongleStepTwo env dongle ec =>
    have hst := Option.some.inj hrun
    subst hst
    rw [handleCycleDongleStepTwo_map, completeWait_map]
  | handleCycleDongleStepThree dongle sigSet ec =>
    have hst := Option.some.inj hrun
    subst hst
    exact handleCycleDongleStepThree_map K st dongle sigSet ec
  | handleCycleDongleStepFour dongle sigSet ec =>
    exact handleCycleDongleStepFour_map K st st1 dongle sigSet ec hrun
  | handleRobotEvent ec serialId event =>
    exact handleRobotEvent_map K st st1 ec serialId event hrun
  | resetDongle ec =>
    have hst := Option.some.inj hrun
    subst hst
    unfold resetDongle
    split
    · exact cycleDongleImpl_map K st _
    · rfl
  | close env ec =>
    have hst := Option.some.inj hrun
    subst hst
    exact close_map K env st ec

/-- C18 as stated fails: a live daemon (dongle 0) resolves `ABCD`, which
creates proxy 2; the dongle is cycled and a second acquisition makes dongle 3
live.  At that moment the map still holds proxy 2 under `ABCD`, and neither
side of proxy 2 was ever closed. -/
theorem proxy_lifetime_counterexample :
    (runAll sampleConstants .initial sampleResolved).map
        (fun st => (st.mDongle, st.mRobotProxies.map (fun kv => (kv.1, kv.2.id))))
      = some (some { id := 0 }, [("ABCD", 2)])
    ∧ (runAll sampleConstants .initial sampleReacquired).map
        (fun st =>
          (st.mDongle, st.mRobotProxies.map (fun kv => (kv.1, kv.2.id)),
           decide (Effect.proxyServerClose 2 ∈ st.effects),
           decide (Effect.proxyClientClose 2 ∈ st.effects),
           decide (Effect.dongleClose 0 ∈ st.effects)))
      = some (some { id := 3 }, [("ABCD", 2)], false, false, true) := by
  refine ⟨?_, ?_⟩ <;> decide

/-- C18, amended: tearing down the live dongle (`cycleDongleImpl`, which a
`cycleDongle` request and the trap errors call) closes and uninstalls the
dongle only: it leaves the proxy map exactly as it was and closes neither
side of any proxy.  No run of the executor other than the completion callback
`handleProxyFinished` and `resolveSerialId` changes the map, in particular not
the step that makes the next dongle live; so the map need not be empty when
the next dongle becomes live. -/
theorem teardown_keeps_proxies (K : Constants) (st : DaemonServerImpl) :
    (∀ timeout,
      (cycleDongleImpl K st timeout).mDongle = none
      ∧ (cycleDongleImpl K st timeout).mRobotProxies = st.mRobotProxies
      ∧ ∀ proxy,
          Effect.proxyServerClose proxy ∉ newEffects st (cycleDongleImpl K st timeout)
          ∧ Effect.proxyClientClose proxy ∉ newEffects st (cycleDongleImpl K st timeout))
    ∧ (∀ (st1 : DaemonServerImpl) (event : Event), run K st event = some st1 →
        (∀ env serialId, event ≠ .resolveSerialId env serialId) →
        (∀ serialId proxy ec, event ≠ .handleProxyFinished serialId proxy ec) →
        st1.mRobotProxies = st.mRobotProxies) := by
  refine ⟨?_, fun st1 event hrun h1 h2 => run_map K st st1 event hrun h1 h2⟩
  intro timeout
  refine ⟨(cycleDongleImpl_fields K st timeout).1, cycleDongleImpl_map K st timeout, ?_⟩
  intro proxy
  rw [newEffects_of_append st _ _ (cycleDongleImpl_effects K st timeout)]
  cases hd : st.mDongle <;> simp

/-- Instance of the amended C18: the dongle of a daemon that holds a proxy for
`ABCD` is cycled. -/
theorem teardown_keeps_proxies_witness :
    run sampleConstants sampleUndead (.cycleDongle 0)
        = some (cycleDongle sampleConstants sampleUndead 0).2
    ∧ (cycleDongle sampleConstants sampleUndead 0).2.mRobotProxies
        = sampleUndead.mRobotProxies :=
  ⟨rfl,
   (teardown_keeps_proxies sampleConstants sampleUndead).2 _ (.cycleDongle 0) rfl
     (fun _ _ h => Event.noConfusion h) (fun _ _ _ h => Event.noConfusion h)⟩

theorem erase_keys_sublist (m : List (String × ProxyData)) (serialId : String) :
    ((erase m serialId).map (fun kv => kv.1)).Sublist (m.map (fun kv => kv.1)) :=
  (List.filter_sublist m).map _

theorem find_eq_none_iff (m : List (String × ProxyData)) (serialId : String) :
    find m serialId = none ↔ serialId ∉ m.map (fun kv => kv.1) := by
  simp only [find, Option.map_eq_none', List.find?_eq_none, beq_iff_eq, List.mem_map,
    not_exists, not_and]

theorem insert_keys (m : List (String × ProxyData)) (serialId : String) (proxy : ProxyData) :
    (insert m serialId proxy).1.map (fun kv => kv.1) = m.map (fun kv => kv.1)
    ∨ (serialId ∉ m.map (fun kv => kv.1)
      ∧ (insert m serialId proxy).1.map (fun kv => kv.1)
        = m.map (fun kv => kv.1) ++ [serialId]) := by
  cases hf : find m serialId with
  | some found => exact Or.inl (by simp [insert, hf])
  | none =>
    exact Or.inr ⟨(find_eq_none_iff m serialId).mp hf, by simp [insert, hf]⟩

theorem findProxy_map (st : DaemonServerImpl) (serialId : String) :
    (findProxy st serialId).1.mRobotProxies = st.mRobotProxies
    ∨ (findProxy st serialId).1.mRobotProxies = erase st.mRobotProxies serialId := by
  cases hf : find st.mRobotProxies serialId with
  | none => exact Or.inl (by simp [findProxy, hf])
  | some proxy =>
    cases hl : proxy.listener with
    | ok endpoint => exact Or.inl (by simp [findProxy, hf, hl])
    | error e => exact Or.inr (by simp [findProxy, hf, hl])

theorem startProxy_map (env : ResolveEnv) (st : DaemonServerImpl) (dongle : Dongle)
    (serialId : String) :
    (startProxy env st dongle serialId).1.mRobotProxies = st.mRobotProxies
    ∨ ∃ proxy, (startProxy env st dongle serialId).1.mRobotProxies
        = (insert st.mRobotProxies serialId proxy).1 := by
  cases hr : env.resolve with
  | error e => exact Or.inl (by simp [startProxy, hr])
  | ok endpoint0 =>
    cases hc : env.construct endpoint0 with
    | error e => exact Or.inl (by simp [startProxy, hr, hc])
    | ok listener =>
      cases listener with
      | error e =>
        exact Or.inr ⟨{ id := st.allocated, listener := .error e },
          by simp [startProxy, hr, hc]⟩
      | ok endpoint =>
        exact Or.inr ⟨{ id := st.allocated, listener := .ok endpoint },
          by simp [startProxy, hr, hc]⟩

theorem resolveSerialId_map (K : Constants) (env : ResolveEnv) (st : DaemonServerImpl)
    (serialId : String) :
    ∃ m0, (m0 = st.mRobotProxies ∨ m0 = erase st.mRobotProxies serialId)
      ∧ ((resolveSerialId K env st serialId).2.mRobotProxies = m0
        ∨ ∃ proxy, (resolveSerialId K env st serialId).2.mRobotProxies
            = (insert m0 serialId proxy).1) := by
  rw [resolveSerialId_state]
  cases hd : st.mDongle with
  | none => exact ⟨st.mRobotProxies, Or.inl rfl, Or.inl rfl⟩
  | some dongle =>
    refine ⟨(findProxy st serialId).1.mRobotProxies, findProxy_map st serialId, ?_⟩
    cases hf : (findProxy st serialId).2 with
    | some endpoint => exact Or.inl (by simp [proxyEndpoint, hf])
    | none =>
      rcases startProxy_map env (findProxy st serialId).1 dongle serialId with h | ⟨proxy, h⟩
      · exact Or.inl (by simp [proxyEndpoint, hf, h])
      · exact Or.inr ⟨proxy, by simp [proxyEndpoint, hf, h]⟩

theorem resolveSerialId_serialIds (K : Constants) (env : ResolveEnv)
    (st : DaemonServerImpl) (serialId : String) :
    (∀ x ∈ serialIds (resolveSerialId K env st serialId).2, x ∈ serialIds st ∨ x = serialId)
    ∧ ((serialIds st).Nodup → (serialIds (resolveSerialId K env st serialId).2).Nodup) := by
  obtain ⟨m0, hm0, hres⟩ := resolveSerialId_map K env st serialId
  have hsub : (m0.map (fun kv => kv.1)).Sublist (st.mRobotProxies.map (fun kv => kv.1)) := by
    rcases hm0 with h | h
    · rw [h]
    · rw [h]
      exact erase_keys_sublist _ _
  unfold serialIds
  rcases hres with h | ⟨proxy, h⟩
  · rw [h]
    exact ⟨fun x hx => Or.inl (hsub.subset hx), fun hn => hn.sublist hsub⟩
  · rw [h]
    rcases insert_keys m0 serialId proxy with hk | ⟨habsent, hk⟩
    · rw [hk]
      exact ⟨fun x hx => Or.inl (hsub.subset hx), fun hn => hn.sublist hsub⟩
    · rw [hk]
      refine ⟨fun x hx => ?_, fun hn => ?_⟩
      · rcases List.mem_append.mp hx with hx | hx
        · exact Or.inl (hsub.subset hx)
        · exact Or.inr (by simpa using hx)
      · have hn0 := hn.sublist hsub
        rw [List.nodup_append]
        refine ⟨hn0, List.nodup_singleton _, ?_⟩
        intro a ha hb
        have : a = serialId := by simpa using hb
        exact habsent (this ▸ ha)

theorem run_nodup (K : Constants) (st st1 : DaemonServerImpl) (event : Event)
    (hrun : run K st event = some st1) (hn : (serialIds st).Nodup) :
    (serialIds st1).Nodup := by
  by_cases hresolve : ∃ env serialId, event = .resolveSerialId env serialId
  · obtain ⟨env, serialId, rfl⟩ := hresolve
    have hst := Option.some.inj hrun
    subst hst
    exact (resolveSerialId_serialIds K env st serialId).2 hn
  · by_cases hfinished : ∃ serialId proxy ec, event = .handleProxyFinished serialId proxy ec
    · obtain ⟨serialId, proxy, ec, rfl⟩ := hfinished
      have hst := Option.some.inj hrun
      subst hst
      exact hn.sublist (erase_keys_sublist _ _)
    · have hmap := run_map K st st1 event hrun
        (fun env serialId h => hresolve ⟨env, serialId, h⟩)
        (fun serialId proxy ec h => hfinished ⟨serialId, proxy, ec, h⟩)
      unfold serialIds
      rw [hmap]
      exact hn

theorem runAll_nodup (K : Constants) (events : List Event) (st st1 : DaemonServerImpl)
    (hrun : runAll K st events = some st1) (hn : (serialIds st).Nodup) :
    (serialIds st1).Nodup := by
  induction events generalizing st with
  | nil =>
    have hst := Option.some.inj hrun
    subst hst
    exact hn
  | cons event events ih =>
    unfold runAll at hrun
    cases h : run K st event with
    | none => simp [h] at hrun
    | some st2 =>
      simp only [h] at hrun
      exact ih st2 hrun (run_nodup K st st2 event h hn)

/-- C19: only `resolveSerialId` inserts into the proxy map.  Every run of the
executor other than `resolveSerialId` (among them `cycleDongle`,
`sendRobotPing`, the robot-event handler, `close` and the proxy completion
callback) leaves in the map only serial IDs that were in it, and so does
`dongleEvent`; `resolveSerialId` adds at most the serial it was called with;
and after any sequence of runs from the start of the daemon no serial ID
occurs twice in the map. -/
theorem proxy_map_insertions (K : Constants) :
    (∀ (st st1 : DaemonServerImpl) (event : Event), run K st event = some st1 →
      (∀ env serialId, event ≠ .resolveSerialId env serialId) →
      ∀ x ∈ serialIds st1, x ∈ serialIds st)
    ∧ (∀ (st : DaemonServerImpl) (ec : error_code),
        (dongleEvent K st ec).mRobotProxies = st.mRobotProxies)
    ∧ (∀ (st : DaemonServerImpl) (env : ResolveEnv) (serialId : String),
        ∀ x ∈ serialIds (resolveSerialId K env st serialId).2,
          x ∈ serialIds st ∨ x = serialId)
    ∧ (∀ (events : List Event) (st1 : DaemonServerImpl),
        runAll K .initial events = some st1 → (serialIds st1).Nodup) := by
  refine ⟨?_, fun st ec => rfl,
    fun st env serialId => (resolveSerialId_serialIds K env st serialId).1,
    fun events st1 hrun => runAll_nodup K events .initial st1 hrun (by simp [serialIds,
      DaemonServerImpl.initial])⟩
  intro st st1 event hrun hresolve x hx
  by_cases hfinished : ∃ serialId proxy ec, event = .handleProxyFinished serialId proxy ec
  · obtain ⟨serialId, proxy, ec, rfl⟩ := hfinished
    have hst := Option.some.inj hrun
    subst hst
    exact (erase_keys_sublist _ _).subset hx
  · have hmap := run_map K st st1 event hrun hresolve
      (fun serialId proxy ec h => hfinished ⟨serialId, proxy, ec, h⟩)
    unfold serialIds at hx ⊢
    rw [hmap] at hx
    exact hx

/-- Instance of C19: after the two acquisitions and the resolution of `ABCD`
the map holds the one serial `ABCD`, once. -/
theorem proxy_map_insertions_witness :
    (runAll sampleConstants .initial sampleReacquired).map serialIds = some ["ABCD"]
    ∧ ∀ st1, runAll sampleConstants .initial sampleReacquired = some st1 →
        (serialIds st1).Nodup :=
  ⟨by decide, (proxy_map_insertions sampleConstants).2.2.2 sampleReacquired⟩

/-- C20 as stated fails: on a live daemon with dongle 0 and proxy 2, `close`
closes the dongle first, then the control server, and then proxy 2, its
client side before its server side. -/
theorem close_order_counterexample :
    (runAll sampleConstants .initial sampleResolved).map
        (fun st =>
          newEffects st (close sampleConstants sampleCloseEnv st error_code.success).2)
      = some [.resolverCancel, .dongleClose 0, .serverClose, .timerCancel,
          .proxyClientClose 2, .proxyServerClose 2] := by
  decide

theorem keyLess_total (a b : List Char) : keyLess b a = false ∨ keyLess a b = false := by
  induction a generalizing b with
  | nil => exact Or.inl (by cases b <;> simp [keyLess])
  | cons x xs ih =>
    cases b with
    | nil => exact Or.inr (by simp [keyLess])
    | cons y ys =>
      simp only [keyLess, Bool.or_eq_false_iff, Bool.and_eq_false_iff, decide_eq_false_iff_not,
        beq_eq_false_iff_ne, ne_eq]
      rcases ih ys with h | h
      · by_cases hxy : x.toNat < y.toNat
        · exact Or.inl ⟨by omega, Or.inl (by omega)⟩
        · by_cases he : x.toNat = y.toNat
          · exact Or.inl ⟨by omega, Or.inr h⟩
          · exact Or.inr ⟨hxy, Or.inl he⟩
      · by_cases hxy : y.toNat < x.toNat
        · exact Or.inr ⟨by omega, Or.inl (by omega)⟩
        · by_cases he : x.toNat = y.toNat
          · exact Or.inr ⟨by omega, Or.inr h⟩
          · exact Or.inl ⟨hxy, Or.inl (fun h => he h.symm)⟩

theorem keyLess_trans (a b c : List Char) (hab : keyLess b a = false)
    (hbc : keyLess c b = false) : keyLess c a = false := by
  induction a generalizing b c with
  | nil => cases c <;> simp [keyLess]
  | cons x xs ih =>
    cases c with
    | nil =>
      cases b with
      | nil => simp [keyLess] at hab
      | cons y ys => simp [keyLess] at hbc
    | cons z zs =>
      cases b with
      | nil => simp [keyLess] at hab
      | cons y ys =>
        simp only [keyLess, Bool.or_eq_false_iff, Bool.and_eq_false_iff, decide_eq_false_iff_not,
          beq_eq_false_iff_ne, ne_eq] at hab hbc ⊢
        obtain ⟨h1, h2⟩ := hab
        obtain ⟨h3, h4⟩ := hbc
        refine ⟨by omega, ?_⟩
        by_cases he : z.toNat = x.toNat
        · right
          have hyx : y.toNat = x.toNat := by omega
          have hzy : z.toNat = y.toNat := by omega
          rcases h2 with h2 | h2
          · exact absurd hyx h2
          · rcases h4 with h4 | h4
            · exact absurd hzy h4
            · exact ih ys zs h2 h4
        · exact Or.inl he

theorem iteration_sorted (m : List (String × ProxyData)) :
    (iteration m).Pairwise (fun a b => keyLess b.1.toList a.1.toList = false)
    ∧ (iteration m).Perm m := by
  haveI : IsTotal (String × ProxyData) (fun a b => keyLess b.1.toList a.1.toList = false) :=
    ⟨fun a b => keyLess_total a.1.toList b.1.toList⟩
  haveI : IsTrans (String × ProxyData) (fun a b => keyLess b.1.toList a.1.toList = false) :=
    ⟨fun a b c hab hbc => keyLess_trans a.1.toList b.1.toList c.1.toList hab hbc⟩
  exact ⟨List.sorted_insertionSort _ m, List.perm_insertionSort _ m⟩

/-- C20, amended: `close` makes its calls in this order, and no others: it
cancels the resolver, closes the dongle when one is installed, closes the
control server, cancels the acquisition timer, and then closes each proxy of
the map, the client side of a proxy before its server side.  The proxies are
taken in the order in which the map is iterated: every pair of the map once,
no pair before one with a smaller key.  It leaves the dongle installed and
the map as it was.  The handler of the termination signals runs `close` when
its wait completed without error. -/
theorem close_order (K : Constants) (env : CloseEnv) (st : DaemonServerImpl)
    (ec : error_code) :
    newEffects st (close K env st ec).2
      = [Effect.resolverCancel]
        ++ (match st.mDongle with
            | some dongle => [Effect.dongleClose dongle.id]
            | none => [])
        ++ [Effect.serverClose, Effect.timerCancel]
        ++ ((iteration st.mRobotProxies).map (fun kv =>
              [Effect.proxyClientClose kv.2.id, Effect.proxyServerClose kv.2.id])).flatten
    ∧ (iteration st.mRobotProxies).Perm st.mRobotProxies
    ∧ (iteration st.mRobotProxies).Pairwise
        (fun a b => keyLess b.1.toList a.1.toList = false)
    ∧ (close K env st ec).2.mDongle = st.mDongle
    ∧ (close K env st ec).2.mRobotProxies = st.mRobotProxies
    ∧ (ec.value = 0 → runSignalHandler K env st ec = (close K env st ec).2) := by
  refine ⟨?_, (iteration_sorted _).2, (iteration_sorted _).1, ?_, ?_, ?_⟩
  · exact newEffects_of_append st _ _ (by rw [close_state])
  · rw [close_state]
  · rw [close_state]
  · intro hz
    have hb : ec.toBool = false := (toBool_eq_false_iff ec).mpr hz
    simp [runSignalHandler, hb]

/-- Instance of the amended C20: the termination signal arrives at a live
daemon in which `ZZZZ` was resolved before `ABCD`; proxy 2, of `ABCD`, is
closed before proxy 1, of `ZZZZ`. -/
theorem close_order_witness :
    error_code.success.value = 0
    ∧ sampleTwoProxies.mRobotProxies.map (fun kv => (kv.1, kv.2.id))
        = [("ZZZZ", 1), ("ABCD", 2)]
    ∧ runSignalHandler sampleConstants sampleCloseEnv sampleTwoProxies error_code.success
        = (close sampleConstants sampleCloseEnv sampleTwoProxies error_code.success).2
    ∧ newEffects sampleTwoProxies
        (close sampleConstants sampleCloseEnv sampleTwoProxies error_code.success).2
      = [.resolverCancel, .dongleClose 0, .serverClose, .timerCancel,
         .proxyClientClose 2, .proxyServerClose 2,
         .proxyClientClose 1, .proxyServerClose 1] :=
  ⟨rfl, by decide,
   (close_order sampleConstants sampleCloseEnv sampleTwoProxies
      error_code.success).2.2.2.2.2 rfl,
   (close_order sampleConstants sampleCloseEnv sampleTwoProxies error_code.success).1⟩

theorem asyncResolveSerialId_no_endpoint (K : Constants) (ec : error_code)
    (result : ResolveSerialIdResult) (hz : ec.value = 0) (hn : result.has_endpoint = false) :
    asyncResolveSerialId K ec result = (make_error_code K .NO_ROBOT_ENDPOINT, ("", "")) := by
  have hb : ec.toBool = false := (toBool_eq_false_iff ec).2 hz
  simp [asyncResolveSerialId, hb, hn]

theorem resolveSerialId_caught (K : Constants) (env : ResolveEnv) (st : DaemonServerImpl)
    (serialId : String) (e : error_code)
    (h : (resolveSerialIdTry K env st serialId).2 = .error e) :
    (resolveSerialId K env st serialId).1
      = { ResolveSerialIdResult.zero with
          has_endpoint := false, status := catchStatus K e } := by
  unfold resolveSerialId
  simp only [h]

theorem proxyEndpoint_error (env : ResolveEnv) (st : DaemonServerImpl) (dongle : Dongle)
    (serialId : String) (e : error_code)
    (h : (proxyEndpoint env st dongle serialId).2 = .error e) :
    env.resolve = .error e ∨ (∃ ep, env.construct ep = .error e)
      ∨ ∃ ep, env.construct ep = .ok (.error e) := by
  unfold proxyEndpoint at h
  cases hf : (findProxy st serialId).2 with
  | some ep => simp [hf] at h
  | none =>
    simp only [hf] at h
    unfold startProxy at h
    cases hr : env.resolve with
    | error e1 =>
      simp only [hr] at h
      exact Or.inl (by rw [Except.error.inj h])
    | ok ep0 =>
      simp only [hr] at h
      cases hc : env.construct ep0 with
      | error e1 =>
        simp only [hc] at h
        exact Or.inr (Or.inl ⟨ep0, by rw [hc, Except.error.inj h]⟩)
      | ok listener =>
        simp only [hc] at h
        cases listener with
        | error e1 =>
          simp only at h
          exact Or.inr (Or.inr ⟨ep0, by rw [hc, Except.error.inj h]⟩)
        | ok ep1 => simp at h

/-- C27: the client operation `asyncResolveSerialId` does not look at the
status field of the reply (replacing it changes nothing); for an error-free
transport code and a reply with `has_endpoint = false` it completes with
`NO_ROBOT_ENDPOINT` and the pair of empty strings, so every reply that the
daemon's `resolveSerialId` makes from a caught error, whose status is the
error's value or `OTHER_ERROR`, reaches the caller as `NO_ROBOT_ENDPOINT`;
and for a transport error code it completes with that code and the pair of
empty strings, whatever the reply holds. -/
theorem asyncResolveSerialId_ignores_status (K : Constants) (ec : error_code)
    (result : ResolveSerialIdResult) :
    (∀ status, asyncResolveSerialId K ec { result with status := status }
        = asyncResolveSerialId K ec result)
    ∧ (ec.value = 0 → result.has_endpoint = false →
        asyncResolveSerialId K ec result = (make_error_code K .NO_ROBOT_ENDPOINT, ("", "")))
    ∧ (∀ (env : ResolveEnv) (st : DaemonServerImpl) (serialId : String) (e : error_code),
        ec.value = 0 → (resolveSerialIdTry K env st serialId).2 = .error e →
        (resolveSerialId K env st serialId).1.status = catchStatus K e
        ∧ asyncResolveSerialId K ec (resolveSerialId K env st serialId).1
            = (make_error_code K .NO_ROBOT_ENDPOINT, ("", "")))
    ∧ (ec.value ≠ 0 → asyncResolveSerialId K ec result = (ec, ("", ""))) := by
  refine ⟨fun _ => rfl, asyncResolveSerialId_no_endpoint K ec result, ?_, ?_⟩
  · intro env st serialId e hz h
    rw [resolveSerialId_caught K env st serialId e h]
    exact ⟨rfl, asyncResolveSerialId_no_endpoint K ec _ hz rfl⟩
  · intro hz
    have hb : ec.toBool = true := (toBool_eq_true_iff ec).2 hz
    simp [asyncResolveSerialId, hb]

/-- C27 at sample values: without dongle the daemon replies with status
`DONGLE_NOT_FOUND` (2), which the client turns into `NO_ROBOT_ENDPOINT`; and
with the transport error 104 the client completes with that error although
the reply holds an endpoint. -/
theorem asyncResolveSerialId_ignores_status_witness :
    (resolveSerialId sampleConstants sampleEnv sampleCooldown "ABCD").1.status = 2
    ∧ asyncResolveSerialId sampleConstants error_code.success
        (resolveSerialId sampleConstants sampleEnv sampleCooldown "ABCD").1
      = (make_error_code sampleConstants .NO_ROBOT_ENDPOINT, ("", ""))
    ∧ (resolveSerialId sampleConstants sampleEnv sampleLive "ABCD").1.has_endpoint = true
    ∧ asyncResolveSerialId sampleConstants ⟨104, .system⟩
        (resolveSerialId sampleConstants sampleEnv sampleLive "ABCD").1
      = (⟨104, .system⟩, ("", "")) :=
  ⟨((asyncResolveSerialId_ignores_status sampleConstants error_code.success
        ResolveSerialIdResult.zero).2.2.1 sampleEnv sampleCooldown "ABCD"
        (make_error_code sampleConstants .DONGLE_NOT_FOUND) (by decide) rfl).1,
   ((asyncResolveSerialId_ignores_status sampleConstants error_code.success
        ResolveSerialIdResult.zero).2.2.1 sampleEnv sampleCooldown "ABCD"
        (make_error_code sampleConstants .DONGLE_NOT_FOUND) (by decide) rfl).2,
   by decide,
   (asyncResolveSerialId_ignores_status sampleConstants ⟨104, .system⟩
        (resolveSerialId sampleConstants sampleEnv sampleLive "ABCD").1).2.2.2 (by decide)⟩

theorem findProxy_quiet (st : DaemonServerImpl) (serialId : String) :
    (findProxy st serialId).1.mDongle = st.mDongle
    ∧ (findProxy st serialId).1.mDongleTimer = st.mDongleTimer
    ∧ ∃ extra, (findProxy st serialId).1.effects = st.effects ++ extra
        ∧ ∀ eff ∈ extra, Effect.onDongleOrTimer eff = false := by
  cases hf : find st.mRobotProxies serialId with
  | none =>
    exact ⟨by simp [findProxy, hf], by simp [findProxy, hf], [], by simp [findProxy, hf],
      by simp⟩
  | some proxy =>
    cases hl : proxy.listener with
    | ok endpoint =>
      exact ⟨by simp [findProxy, hf, hl], by simp [findProxy, hf, hl], [],
        by simp [findProxy, hf, hl], by simp⟩
    | error e =>
      exact ⟨by simp [findProxy, hf, hl], by simp [findProxy, hf, hl],
        [.proxyServerClose proxy.id, .proxyClientClose proxy.id],
        by simp [findProxy, hf, hl], by simp [Effect.onDongleOrTimer]⟩

theorem startProxy_quiet (env : ResolveEnv) (st : DaemonServerImpl) (dongle : Dongle)
    (serialId : String) :
    (startProxy env st dongle serialId).1.mDongle = st.mDongle
    ∧ (startProxy env st dongle serialId).1.mDongleTimer = st.mDongleTimer
    ∧ ∃ extra, (startProxy env st dongle serialId).1.effects = st.effects ++ extra
        ∧ ∀ eff ∈ extra, Effect.onDongleOrTimer eff = false := by
  cases hr : env.resolve with
  | error e =>
    exact ⟨by simp [startProxy, hr], by simp [startProxy, hr], [], by simp [startProxy, hr],
      by simp⟩
  | ok endpoint0 =>
    cases hc : env.construct endpoint0 with
    | error e =>
      exact ⟨by simp [startProxy, hr, hc], by simp [startProxy, hr, hc], [],
        by simp [startProxy, hr, hc], by simp⟩
    | ok listener =>
      cases listener with
      | error e =>
      exact ⟨by simp [startProxy, hr, hc], by simp [startProxy, hr, hc], [],
        by simp [startProxy, hr, hc], by simp⟩
      | ok endpoint =>
        exact ⟨by simp [startProxy, hr, hc], by simp [startProxy, hr, hc],
          [.setRoute st.allocated dongle.id serialId,
           .asyncRunProxy st.allocated (.handleProxyFinished serialId st.allocated)],
          by simp [startProxy, hr, hc], by simp [Effect.onDongleOrTimer]⟩

theorem resolveSerialId_quiet (K : Constants) (env : ResolveEnv) (st : DaemonServerImpl)
    (serialId : String) :
    (resolveSerialId K env st serialId).2.mDongle = st.mDongle
    ∧ (resolveSerialId K env st serialId).2.mDongleTimer = st.mDongleTimer
    ∧ ∀ eff ∈ newEffects st (resolveSerialId K env st serialId).2,
        Effect.onDongleOrTimer eff = false := by
  rw [resolveSerialId_state]
  cases hd : st.mDongle with
  | none => exact ⟨hd, rfl, by simp [newEffects]⟩
  | some dongle =>
    obtain ⟨d1, t1, x1, h1, q1⟩ := findProxy_quiet st serialId
    cases hf : (findProxy st serialId).2 with
    | some endpoint =>
      simp only [proxyEndpoint, hf]
      exact ⟨by rw [d1, hd], t1, by rw [newEffects_of_append st _ x1 h1]; exact q1⟩
    | none =>
      obtain ⟨d2, t2, x2, h2, q2⟩ :=
        startProxy_quiet env (findProxy st serialId).1 dongle serialId
      simp only [proxyEndpoint, hf]
      refine ⟨by rw [d2, d1, hd], by rw [t2, t1], ?_⟩
      rw [newEffects_of_append st _ (x1 ++ x2) (by rw [h2, h1, List.append_assoc])]
      intro eff hmem
      rcases List.mem_append.1 hmem with hm | hm
      · exact q1 eff hm
      · exact q2 eff hm

/-- C21: in `resolveSerialId`, an error `e` caught by the `catch` block gives
the reply without endpoint whose status is the value of `e` when `e` is of
the daemon's own category and `OTHER_ERROR` when it is of any other; the reply
is returned, the installed dongle and the acquisition timer are as before and
no call is made on either.  The `catch` block of `sendRobotPing` writes the
same status and returns the reply with the state as it was; it is what
`sendRobotPing` does when there is no dongle, with `DONGLE_NOT_FOUND`. -/
theorem caught_error_reply (K : Constants) (env : ResolveEnv) (st : DaemonServerImpl)
    (serialId : String) (destinations : List String) (e : error_code)
    (h : (resolveSerialIdTry K env st serialId).2 = .error e) :
    ((resolveSerialId K env st serialId).1
        = { ResolveSerialIdResult.zero with
            has_endpoint := false
            status := if e.category = Category.baromesh then e.value
                      else K.status .OTHER_ERROR }
      ∧ (resolveSerialId K env st serialId).2.mDongle = st.mDongle
      ∧ (resolveSerialId K env st serialId).2.mDongleTimer = st.mDongleTimer
      ∧ ∀ eff ∈ newEffects st (resolveSerialId K env st serialId).2,
          Effect.onDongleOrTimer eff = false)
    ∧ sendRobotPingCatch K st e
        = ({ status := if e.category = Category.baromesh then e.value
                       else K.status .OTHER_ERROR }, st)
    ∧ (st.mDongle = none →
        sendRobotPing K st destinations
          = sendRobotPingCatch K st (make_error_code K .DONGLE_NOT_FOUND)) := by
  refine ⟨⟨?_, resolveSerialId_quiet K env st serialId⟩, rfl, ?_⟩
  · rw [resolveSerialId_caught K env st serialId e h]
    rfl
  · intro hd
    simp [sendRobotPing, sendRobotPingCatch, hd]

/-- C21 at sample values: the system error 24 thrown while the proxy is
created is reported as `OTHER_ERROR` (11) and leaves the dongle installed;
without dongle `sendRobotPing` reports `DONGLE_NOT_FOUND` (2). -/
theorem caught_error_reply_witness :
    (resolveSerialId sampleConstants sampleFailingEnv sampleLive "ABCD").1.status = 11
    ∧ (resolveSerialId sampleConstants sampleFailingEnv sampleLive "ABCD").2.mDongle
        = sampleLive.mDongle
    ∧ (sendRobotPing sampleConstants sampleCooldown ["ABCD"]).1.status = 2 := by
  have h := caught_error_reply sampleConstants sampleFailingEnv sampleLive "ABCD" ["ABCD"]
    ⟨24, .system⟩ rfl
  have h2 := caught_error_reply sampleConstants sampleFailingEnv sampleCooldown "ABCD" ["ABCD"]
    (make_error_code sampleConstants .DONGLE_NOT_FOUND) rfl
  exact ⟨by rw [h.1.1]; decide, h.1.2.1, by rw [h2.2.2 rfl]; decide⟩

theorem fillResult_cases (K : Constants) (endpoint : Endpoint) :
    fillResult K endpoint = .error (make_error_code K .BUFFER_OVERFLOW)
    ∨ ∃ address, fillResult K endpoint
        = .ok { status := K.status .OK, has_endpoint := true,
                endpoint := { address := address, port := endpoint.port.val } } := by
  unfold fillResult
  split
  · exact Or.inr ⟨_, rfl⟩
  · exact Or.inl rfl

theorem resolveSerialIdTry_cases (K : Constants) (env : ResolveEnv) (st : DaemonServerImpl)
    (serialId : String) :
    (∃ e, (resolveSerialIdTry K env st serialId).2 = .error e
        ∧ (e = make_error_code K .DONGLE_NOT_FOUND ∨ e = make_error_code K .BUFFER_OVERFLOW
            ∨ env.resolve = .error e ∨ (∃ ep, env.construct ep = .error e)
            ∨ ∃ ep, env.construct ep = .ok (.error e)))
    ∨ ∃ address port, port < 65536 ∧ (resolveSerialIdTry K env st serialId).2
        = .ok { status := K.status .OK, has_endpoint := true,
                endpoint := { address := address, port := port } } := by
  unfold resolveSerialIdTry
  cases hd : st.mDongle with
  | none => exact Or.inl ⟨_, rfl, Or.inl rfl⟩
  | some dongle =>
    cases hp : (proxyEndpoint env st dongle serialId).2 with
    | error e =>
      exact Or.inl ⟨e, by simp only [hp],
        Or.inr (Or.inr (proxyEndpoint_error env st dongle serialId e hp))⟩
    | ok endpoint =>
      rcases fillResult_cases K endpoint with h | ⟨address, h⟩
      · exact Or.inl ⟨_, by simp only [hp]; exact h, Or.inr (Or.inl rfl)⟩
      · exact Or.inr ⟨address, endpoint.port.val, endpoint.port.isLt,
          by simp only [hp]; exact h⟩

/-- C28: the enumerators `DONGLE_NOT_FOUND`, `BUFFER_OVERFLOW` and
`OTHER_ERROR` differing from `OK`, and `NO_ROBOT_ENDPOINT` from
`PORT_OUT_OF_RANGE`, and the errors thrown by the resolver and the listener
being of other categories than the daemon's, in the reply of the daemon's
`resolveSerialId` `has_endpoint` is true if and only if the status is `OK`;
the port field is below 65536, as it is filled from a 16-bit port; and the
client's `asyncResolveSerialId` never completes with `PORT_OUT_OF_RANGE` for
such a reply, unless that is the code the transport itself handed in. -/
theorem resolveSerialId_has_endpoint_iff (K : Constants) (env : ResolveEnv)
    (st : DaemonServerImpl) (serialId : String)
    (hD : K.status .DONGLE_NOT_FOUND ≠ K.status .OK)
    (hB : K.status .BUFFER_OVERFLOW ≠ K.status .OK)
    (hO : K.status .OTHER_ERROR ≠ K.status .OK)
    (hP : K.status .NO_ROBOT_ENDPOINT ≠ K.status .PORT_OUT_OF_RANGE)
    (hres : ∀ e, env.resolve = .error e → e.category ≠ Category.baromesh)
    (hcon : ∀ ep e, env.construct ep = .error e → e.category ≠ Category.baromesh)
    (hlis : ∀ ep e, env.construct ep = .ok (.error e) → e.category ≠ Category.baromesh) :
    ((resolveSerialId K env st serialId).1.has_endpoint = true
        ↔ (resolveSerialId K env st serialId).1.status = K.status .OK)
    ∧ (resolveSerialId K env st serialId).1.endpoint.port < 65536
    ∧ ∀ ec, ec ≠ make_error_code K .PORT_OUT_OF_RANGE →
        (asyncResolveSerialId K ec (resolveSerialId K env st serialId).1).1
          ≠ make_error_code K .PORT_OUT_OF_RANGE := by
  have key : ((resolveSerialId K env st serialId).1.has_endpoint = true
        ↔ (resolveSerialId K env st serialId).1.status = K.status .OK)
      ∧ (resolveSerialId K env st serialId).1.endpoint.port < 65536 := by
    rcases resolveSerialIdTry_cases K env st serialId with ⟨e, h, he⟩ | ⟨address, port, hp, h⟩
    · rw [resolveSerialId_caught K env st serialId e h]
      have hne : catchStatus K e ≠ K.status .OK := by
        have hother : ∀ e : error_code, e.category ≠ Category.baromesh →
            catchStatus K e ≠ K.status .OK := by
          intro e hc
          simpa [catchStatus, hc] using hO
        rcases he with he | he | he | ⟨ep, he⟩ | ⟨ep, he⟩
        · subst he; simpa [catchStatus, make_error_code] using hD
        · subst he; simpa [catchStatus, make_error_code] using hB
        · exact hother e (hres e he)
        · exact hother e (hcon ep e he)
        · exact hother e (hlis ep e he)
      refine ⟨⟨fun hf => by simp at hf, fun hs => absurd hs hne⟩, ?_⟩
      simp [ResolveSerialIdResult.zero]
    · have hr : (resolveSerialId K env st serialId).1
          = { status := K.status .OK, has_endpoint := true,
              endpoint := { address := address, port := port } } := by
        unfold resolveSerialId
        simp only [h]
      rw [hr]
      exact ⟨⟨fun _ => rfl, fun _ => rfl⟩, hp⟩
  refine ⟨key.1, key.2, ?_⟩
  intro ec hec
  unfold asyncResolveSerialId
  split
  · exact hec
  · split
    · intro hc
      exact hP (congrArg error_code.value hc)
    · have hm : (resolveSerialId K env st serialId).1.endpoint.port % 65536
          = (resolveSerialId K env st serialId).1.endpoint.port := Nat.mod_eq_of_lt key.2
      simp only [hm, ne_eq, not_true_eq_false, if_false]
      intro hc
      have := congrArg error_code.category hc
      simp [error_code.success, make_error_code] at this

/-- C28 at sample values: the reply for `ABCD` with a dongle installed. -/
theorem resolveSerialId_has_endpoint_iff_witness :
    ((resolveSerialId sampleConstants sampleEnv sampleLive "ABCD").1.has_endpoint = true
        ↔ (resolveSerialId sampleConstants sampleEnv sampleLive "ABCD").1.status
            = sampleConstants.status .OK)
    ∧ (resolveSerialId sampleConstants sampleEnv sampleLive "ABCD").1.endpoint.port < 65536
    ∧ (asyncResolveSerialId sampleConstants error_code.success
          (resolveSerialId sampleConstants sampleEnv sampleLive "ABCD").1).1
        ≠ make_error_code sampleConstants .PORT_OUT_OF_RANGE :=
  ⟨(resolveSerialId_has_endpoint_iff sampleConstants sampleEnv sampleLive "ABCD" (by decide)
      (by decide) (by decide) (by decide) (fun _ h => by simp [sampleEnv] at h)
      (fun _ _ h => by simp [sampleEnv] at h) (fun _ _ h => by simp [sampleEnv] at h)).1,
   (resolveSerialId_has_endpoint_iff sampleConstants sampleEnv sampleLive "ABCD" (by decide)
      (by decide) (by decide) (by decide) (fun _ h => by simp [sampleEnv] at h)
      (fun _ _ h => by simp [sampleEnv] at h) (fun _ _ h => by simp [sampleEnv] at h)).2.1,
   (resolveSerialId_has_endpoint_iff sampleConstants sampleEnv sampleLive "ABCD" (by decide)
      (by decide) (by decide) (by decide) (fun _ h => by simp [sampleEnv] at h)
      (fun _ _ h => by simp [sampleEnv] at h) (fun _ _ h => by simp [sampleEnv] at h)).2.2
      error_code.success (by decide)⟩

set_option maxRecDepth 100000 in
theorem octet_text (a : Fin 256) :
    (toString a.val).length ≤ 3 ∧ NUL ∉ (toString a.val).toList := by
  revert a
  decide

theorem toList_append (s t : String) : (s ++ t).toList = s.toList ++ t.toList := by
  cases s; cases t; rfl

theorem ipv4_text (a b c d : Fin 256) :
    (Address.v4 a b c d).to_string.length ≤ 15
    ∧ NUL ∉ (Address.v4 a b c d).to_string.toList := by
  obtain ⟨la, na⟩ := octet_text a
  obtain ⟨lb, nb⟩ := octet_text b
  obtain ⟨lc, nc⟩ := octet_text c
  obtain ⟨ld, nd⟩ := octet_text d
  have hdot : NUL ∉ ".".toList := by decide
  constructor
  · simp only [Address.to_string, String.length_append]
    have : ".".length = 1 := rfl
    omega
  · simp only [Address.to_string, toList_append, List.mem_append, not_or]
    exact ⟨⟨⟨⟨⟨⟨na, hdot⟩, nb⟩, hdot⟩, nc⟩, hdot⟩, nd⟩

theorem fillResult_v4 (K : Constants) (a b c d : Fin 256) (port : Fin 65536) :
    fillResult K { address := .v4 a b c d, port := port }
      = .ok { status := K.status .OK
              has_endpoint := true
              endpoint :=
                { address := (Address.v4 a b c d).to_string.toList
                    ++ List.replicate (16 - (Address.v4 a b c d).to_string.length) NUL
                  port := port.val } } := by
  obtain ⟨hl, hn⟩ := ipv4_text a b c d
  have hlt : (Address.v4 a b c d).to_string.length < addressCapacity := by
    simp only [addressCapacity]; omega
  have hs := strncpy_fits (Address.v4 a b c d).to_string.toList 15 hn
    (by simpa using hl)
  have hs2 : strncpy (Address.v4 a b c d).to_string.toList (addressCapacity - 1) ++ [NUL]
      = (Address.v4 a b c d).to_string.toList
        ++ List.replicate (16 - (Address.v4 a b c d).to_string.length) NUL := by
    rw [show addressCapacity - 1 = 15 from rfl, hs]
    simp
  simp only [fillResult, hlt, if_true, hs2]

theorem cstr_append_nul (text : List Char) (n : Nat) (hnul : NUL ∉ text) :
    cstr (text ++ List.replicate (n + 1) NUL) = text := by
  unfold cstr
  rw [List.takeWhile_append]
  have h1 : text.takeWhile (fun c => c != NUL) = text := by
    rw [List.takeWhile_eq_self_iff]
    intro c hc
    have : c ≠ NUL := fun h => hnul (h ▸ hc)
    simpa using this
  simp [h1, List.replicate_succ]

/-- C30: the dotted-decimal text of every IPv4 address has at most 15
characters, below the capacity 16 of the address field of the reply; so for
an IPv4 endpoint the end of `resolveSerialId` does not throw
`BUFFER_OVERFLOW`: it fills the `OK` reply, whose address field is the whole
text followed by NULs and reads back as the text; this is the reply of
`resolveSerialId` whenever the proxy's listener is on an IPv4 endpoint. -/
theorem ipv4_address_fits (K : Constants) (a b c d : Fin 256) (port : Fin 65536) :
    (Address.v4 a b c d).to_string.length ≤ 15
    ∧ 15 < addressCapacity
    ∧ fillResult K { address := .v4 a b c d, port := port }
        = .ok { status := K.status .OK
                has_endpoint := true
                endpoint :=
                  { address := (Address.v4 a b c d).to_string.toList
                      ++ List.replicate (16 - (Address.v4 a b c d).to_string.length) NUL
                    port := port.val } }
    ∧ String.mk (cstr ((Address.v4 a b c d).to_string.toList
          ++ List.replicate (16 - (Address.v4 a b c d).to_string.length) NUL))
        = (Address.v4 a b c d).to_string
    ∧ ∀ (env : ResolveEnv) (st : DaemonServerImpl) (dongle : Dongle) (serialId : String),
        st.mDongle = some dongle →
        (proxyEndpoint env st dongle serialId).2 = .ok { address := .v4 a b c d, port := port } →
        (resolveSerialId K env st serialId).1
          = { status := K.status .OK
              has_endpoint := true
              endpoint :=
                { address := (Address.v4 a b c d).to_string.toList
                    ++ List.replicate (16 - (Address.v4 a b c d).to_string.length) NUL
                  port := port.val } } := by
  obtain ⟨hl, hn⟩ := ipv4_text a b c d
  refine ⟨hl, by decide, fillResult_v4 K a b c d port, ?_, ?_⟩
  · have hk : 16 - (Address.v4 a b c d).to_string.length
        = (15 - (Address.v4 a b c d).to_string.length) + 1 := by omega
    rw [hk, cstr_append_nul _ _ hn]
    rfl
  · intro env st dongle serialId hd hp
    rw [resolveSerialId_of_endpoint K env st dongle serialId _ hd hp, fillResult_v4]

/-- C30 at sample values: the proxy endpoint `127.0.0.1:40001` gives the reply
whose address field is `127.0.0.1` followed by seven NULs. -/
theorem ipv4_address_fits_witness :
    (resolveSerialId sampleConstants sampleEnv sampleLive "ABCD").1
      = { status := 0
          has_endpoint := true
          endpoint :=
            { address := "127.0.0.1".toList ++ List.replicate 7 NUL
              port := 40001 } } :=
  (ipv4_address_fits sampleConstants 127 0 0 1 40001).2.2.2.2 sampleEnv sampleLive
    { id := 0 } "ABCD" rfl rfl

/-- C22: for every unicast packet handed to the dongle proxy's `onBroadcast`,
when the source port is 0 the signal `robotMessageReceived` is emitted once,
with the serial ID read from the packet's source and the payload bytes and
size as they came; when the port is not 0 the proxy is left exactly as it
was, nothing is emitted and no state is created; so one more emission is
there if and only if the port is 0. -/
theorem onBroadcast_unicast (proxy : dongle.Proxy) (arg : dongle.ReceiveUnicast) :
    (arg.port = 0 →
      (proxy.onBroadcast arg).robotMessageReceived
        = proxy.robotMessageReceived
          ++ [{ serialId := String.mk (cstr arg.serialId), bytes := arg.bytes,
                size := arg.size }])
    ∧ (arg.port ≠ 0 → proxy.onBroadcast arg = proxy)
    ∧ ((proxy.onBroadcast arg).robotMessageReceived.length
          = proxy.robotMessageReceived.length + 1 ↔ arg.port = 0)
    ∧ (proxy.onBroadcast arg).mLinked = proxy.mLinked := by
  by_cases h : arg.port = 0
  · simp [dongle.Proxy.onBroadcast, h]
  · simp [dongle.Proxy.onBroadcast, h]

/-- C22 at sample values: a packet from `ABCD` with port 0 is emitted, the
same packet with port 3 leaves the proxy as it was. -/
theorem onBroadcast_unicast_witness :
    (sampleDongleProxy.onBroadcast sampleUnicast).robotMessageReceived
      = [{ serialId := "ABCD", bytes := [7, 8, 9, 0, 0], size := 3 }]
    ∧ sampleDongleProxy.onBroadcast { sampleUnicast with port := 3 } = sampleDongleProxy :=
  ⟨(onBroadcast_unicast sampleDongleProxy sampleUnicast).1 (by decide),
   (onBroadcast_unicast sampleDongleProxy { sampleUnicast with port := 3 }).2.1 (by decide)⟩

/-- C23: `asyncReceive` does not receive.  On every message queue, with
whatever is queued and whatever buffer, the call throws `std::bad_weak_ptr`
from `shared_from_this ()` before it posts anything: no handler is posted,
nothing is taken off the receive queue, and the state is as before. -/
theorem asyncReceive_bad_weak_ptr (q : websocket.MessageQueueImpl) (buffer : List Nat)
    (handler : Nat) :
    websocket.asyncReceive q buffer handler = (.error .bad_weak_ptr, q)
    ∧ (websocket.asyncReceive q buffer handler).2.posted = q.posted
    ∧ (websocket.asyncReceive q buffer handler).2.mReceiveQueue = q.mReceiveQueue :=
  ⟨rfl, rfl, rfl⟩

/-- The function that `asyncReceive` would post, run on the executor with a
message of `n` bytes at the front of the receive queue and `message_size`
non-zero: when the connection reports no transport error it takes the message
off the queue, copies its first `min n c` bytes into the buffer of capacity
`c` and posts the handler with that count, without error exactly when `n ≤ c`
and with `message_size` exactly when `c < n`; when the connection reports a
transport error it posts the handler with that error and the count 0 and
leaves the queue as it was. -/
theorem asyncReceivePosted_front_message (messageSize : Int)
    (q : websocket.MessageQueueImpl)
    (ec : error_code) (payload : List Nat)
    (rest : List (error_code × Option (List Nat))) (buffer : List Nat) (handler : Nat)
    (hms : messageSize ≠ 0) (hptr : q.mPtr = some ec)
    (hq : q.mReceiveQueue = .data ((error_code.success, some payload) :: rest)) :
    (ec.value = 0 →
      ∃ completion,
        websocket.asyncReceivePosted messageSize q buffer handler
          = some { q with mReceiveQueue := .data rest, posted := q.posted ++ [completion] }
        ∧ completion.handler = handler
        ∧ completion.nCopied = min payload.length buffer.length
        ∧ completion.buffer
            = payload.take (min payload.length buffer.length)
              ++ buffer.drop (min payload.length buffer.length)
        ∧ (completion.ec = error_code.success ↔ payload.length ≤ buffer.length)
        ∧ (completion.ec = websocket.message_size messageSize
            ↔ buffer.length < payload.length))
    ∧ (ec.value ≠ 0 →
        websocket.asyncReceivePosted messageSize q buffer handler
          = some { q with
                    posted := q.posted ++
                      [{ handler := handler, ec := ec, nCopied := 0, buffer := buffer }] }) := by
  constructor
  · intro hz
    have hb : ec.toBool = false := (toBool_eq_false_iff ec).2 hz
    have hne : websocket.message_size messageSize ≠ error_code.success := by
      intro h
      exact hms (congrArg error_code.value h)
    refine ⟨{ handler := handler
              ec := if min buffer.length payload.length = payload.length
                    then error_code.success else websocket.message_size messageSize
              nCopied := min buffer.length payload.length
              buffer := payload.take (min buffer.length payload.length)
                ++ buffer.drop (min buffer.length payload.length) }, ?_, rfl, ?_, ?_, ?_, ?_⟩
    · have hs : error_code.success.toBool = false := rfl
      simp [websocket.asyncReceivePosted, hptr, hb, websocket.consume, hq, websocket.invoke, hs]
    · exact Nat.min_comm _ _
    · simp only [Nat.min_comm]
    · by_cases hle : payload.length ≤ buffer.length
      · simp [hle]
      · simp [hle, hne]
    · by_cases hle : payload.length ≤ buffer.length
      · simp [hle, hne.symm]
      · simp [hle]
        omega
  · intro hz
    have hb : ec.toBool = true := (toBool_eq_true_iff ec).2 hz
    simp [websocket.asyncReceivePosted, hptr, hb]

theorem setConnectionPtr_bad_weak_ptr (q : websocket.MessageQueueImpl) (ptr : error_code) :
    websocket.setConnectionPtr q ptr = (.error .bad_weak_ptr, { q with mPtr := some ptr }) :=
  rfl

/-- C25: each of `setButtonEventCallback`, `setEncoderEventCallback`,
`setJointEventCallback` and `setAccelerometerEventCallback` fires its enable
request with `enable` false for a null callback and true for any other.  When
the request succeeds, a null callback clears the stored callback, so that the
next event of that kind calls nothing, and a non-null callback is stored with
the user data, so that the next event calls it with the event's arguments and
that user data; the setter returns.  When the request throws, the setter
throws an `Error` whose message is the serial ID, `": "` and the message of
the exception, and the stored callback is as before. -/
theorem callback_setters (m : barobo.Impl) (reply : Except String Unit) (cb : Option Nat)
    (userData : Nat) :
    ((barobo.setButtonEventCallback reply m cb userData).2.fired
        = m.fired ++ [.enableButtonEvent cb.isSome]
      ∧ (barobo.setEncoderEventCallback reply m cb userData).2.fired
        = m.fired ++ [.enableEncoderEvent (List.replicate 3
            (true, cb.isSome, .degToRad (.value (if cb.isSome then 20000 else 0))))]
      ∧ (barobo.setJointEventCallback reply m cb userData).2.fired
        = m.fired ++ [.enableJointEvent cb.isSome]
      ∧ (barobo.setAccelerometerEventCallback reply m cb userData).2.fired
        = m.fired ++ [.enableAccelerometerEvent cb.isSome
            (.value (if cb.isSome then 50 else 0))])
    ∧ (reply = .ok () → cb = none →
        ((barobo.setButtonEventCallback reply m cb userData).2.buttonEventCallback = none
          ∧ ∀ button event timestamp,
              ((barobo.setButtonEventCallback reply m cb userData).2.newButtonValues
                button event timestamp).invoked = m.invoked)
        ∧ ((barobo.setEncoderEventCallback reply m cb userData).2.encoderEventCallback = none
          ∧ ∀ jointNo anglePosition timestamp,
              ((barobo.setEncoderEventCallback reply m cb userData).2.newEncoderValues
                jointNo anglePosition timestamp).invoked = m.invoked)
        ∧ ((barobo.setJointEventCallback reply m cb userData).2.jointEventCallback = none
          ∧ ∀ jointNo state timestamp,
              ((barobo.setJointEventCallback reply m cb userData).2.newJointState
                jointNo state timestamp).invoked = m.invoked)
        ∧ ((barobo.setAccelerometerEventCallback reply m cb userData).2.accelerometerEventCallback
              = none
          ∧ ∀ x y z timestamp,
              ((barobo.setAccelerometerEventCallback reply m cb userData).2.newAccelerometerValues
                x y z timestamp).invoked = m.invoked))
    ∧ (∀ f, reply = .ok () → cb = some f →
        ((barobo.setButtonEventCallback reply m cb userData).2.buttonEventCallback
            = some (f, userData)
          ∧ ∀ button event timestamp,
              ((barobo.setButtonEventCallback reply m cb userData).2.newButtonValues
                button event timestamp).invoked
              = m.invoked ++ [.button f button event timestamp userData])
        ∧ ((barobo.setEncoderEventCallback reply m cb userData).2.encoderEventCallback
            = some (f, userData)
          ∧ ∀ jointNo anglePosition timestamp,
              ((barobo.setEncoderEventCallback reply m cb userData).2.newEncoderValues
                jointNo anglePosition timestamp).invoked
              = m.invoked ++ [.encoder f jointNo (.radToDeg anglePosition) timestamp userData])
        ∧ ((barobo.setJointEventCallback reply m cb userData).2.jointEventCallback
            = some (f, userData)
          ∧ ∀ jointNo state timestamp,
              ((barobo.setJointEventCallback reply m cb userData).2.newJointState
                jointNo state timestamp).invoked
              = m.invoked ++ [.joint f jointNo state timestamp userData])
        ∧ ((barobo.setAccelerometerEventCallback reply m cb userData).2.accelerometerEventCallback
            = some (f, userData)
          ∧ ∀ x y z timestamp,
              ((barobo.setAccelerometerEventCallback reply m cb userData).2.newAccelerometerValues
                x y z timestamp).invoked
              = m.invoked ++ [.accelerometer f x y z timestamp userData]))
    ∧ (reply = .ok () →
        (barobo.setButtonEventCallback reply m cb userData).1 = .ok ()
        ∧ (barobo.setEncoderEventCallback reply m cb userData).1 = .ok ()
        ∧ (barobo.setJointEventCallback reply m cb userData).1 = .ok ()
        ∧ (barobo.setAccelerometerEventCallback reply m cb userData).1 = .ok ())
    ∧ (∀ what, reply = .error what →
        ((barobo.setButtonEventCallback reply m cb userData).1
            = .error (m.serialId ++ ": " ++ what)
          ∧ (barobo.setButtonEventCallback reply m cb userData).2.buttonEventCallback
            = m.buttonEventCallback)
        ∧ ((barobo.setEncoderEventCallback reply m cb userData).1
            = .error (m.serialId ++ ": " ++ what)
          ∧ (barobo.setEncoderEventCallback reply m cb userData).2.encoderEventCallback
            = m.encoderEventCallback)
        ∧ ((barobo.setJointEventCallback reply m cb userData).1
            = .error (m.serialId ++ ": " ++ what)
          ∧ (barobo.setJointEventCallback reply m cb userData).2.jointEventCallback
            = m.jointEventCallback)
        ∧ ((barobo.setAccelerometerEventCallback reply m cb userData).1
            = .error (m.serialId ++ ": " ++ what)
          ∧ (barobo.setAccelerometerEventCallback reply m cb userData).2.accelerometerEventCallback
            = m.accelerometerEventCallback)) := by
  refine ⟨?_, ?_, ?_, ?_, ?_⟩
  · cases reply <;> cases cb <;>
      simp [barobo.setButtonEventCallback, barobo.setEncoderEventCallback,
        barobo.setJointEventCallback, barobo.setAccelerometerEventCallback, List.replicate]
  · intro hr hc
    subst hr hc
    simp [barobo.setButtonEventCallback, barobo.setEncoderEventCallback,
      barobo.setJointEventCallback, barobo.setAccelerometerEventCallback,
      barobo.Impl.newButtonValues, barobo.Impl.newEncoderValues, barobo.Impl.newJointState,
      barobo.Impl.newAccelerometerValues]
  · intro f hr hc
    subst hr hc
    simp [barobo.setButtonEventCallback, barobo.setEncoderEventCallback,
      barobo.setJointEventCallback, barobo.setAccelerometerEventCallback,
      barobo.Impl.newButtonValues, barobo.Impl.newEncoderValues, barobo.Impl.newJointState,
      barobo.Impl.newAccelerometerValues]
  · intro hr
    subst hr
    cases cb <;>
      simp [barobo.setButtonEventCallback, barobo.setEncoderEventCallback,
        barobo.setJointEventCallback, barobo.setAccelerometerEventCallback]
  · intro what hr
    subst hr
    simp [barobo.setButtonEventCallback, barobo.setEncoderEventCallback,
      barobo.setJointEventCallback, barobo.setAccelerometerEventCallback]

/-- C25 at sample values: a failing request keeps the stored button callback,
a null callback clears it, and a stored encoder callback is called with its
user data. -/
theorem callback_setters_witness :
    (barobo.setButtonEventCallback (.error "timed out") sampleImpl none 0).1
        = .error ("ABCD" ++ ": " ++ "timed out")
    ∧ (barobo.setButtonEventCallback (.error "timed out") sampleImpl none 0).2.buttonEventCallback
        = some (5, 50)
    ∧ (barobo.setButtonEventCallback (.ok ()) sampleImpl none 0).2.buttonEventCallback = none
    ∧ (((barobo.setEncoderEventCallback (.ok ()) sampleImpl (some 6) 60).2.newEncoderValues
          1 (.value 1571) 12).invoked
        = [.encoder 6 1 (.radToDeg (.value 1571)) 12 60]) :=
  ⟨((callback_setters sampleImpl (.error "timed out") none 0).2.2.2.2 "timed out" rfl).1.1,
   ((callback_setters sampleImpl (.error "timed out") none 0).2.2.2.2 "timed out" rfl).1.2,
   ((callback_setters sampleImpl (.ok ()) none 0).2.1 rfl rfl).1.1,
   ((callback_setters sampleImpl (.ok ()) (some 6) 60).2.2.1 6 rfl rfl).2.1.2 1 (.value 1571) 12⟩

/-- C26: `Error` being a `std::exception`, `Linkbot::connect` on a service
info throws the `Error` of the RPC version mismatch whenever the remote RPC
version differs from the local one, whatever the other fields are; with equal
RPC versions it throws the `Error` of the interface version mismatch when
that version differs from the local 0.2.1; with both equal it throws the
`Error` `connection refused` when `connected` is false and returns when it is
true; and the message of every `Error` it throws, also when the proxy's
`connect` itself throws, is the serial ID and `": "` followed by a text. -/
theorem connect_checks (L : barobo.Library) (m : barobo.Impl) (serviceInfo : barobo.ServiceInfo)
    (reply : Except String barobo.ServiceInfo) (hE : L.errorIsStdException = true) :
    (serviceInfo.rpcVersion ≠ L.rpcVersion →
      barobo.connect L m (.ok serviceInfo)
        = .error (m.serialId ++ ": " ++ ("RPC version " ++ L.to_string serviceInfo.rpcVersion
            ++ " != local RPC version " ++ L.to_string L.rpcVersion)))
    ∧ (serviceInfo.rpcVersion = L.rpcVersion →
        serviceInfo.interfaceVersion ≠ barobo.robotInterfaceVersion →
        barobo.connect L m (.ok serviceInfo)
          = .error (m.serialId ++ ": " ++ ("Robot interface version "
              ++ L.to_string serviceInfo.interfaceVersion
              ++ " != local Robot interface version "
              ++ L.to_string barobo.robotInterfaceVersion)))
    ∧ (serviceInfo.rpcVersion = L.rpcVersion →
        serviceInfo.interfaceVersion = barobo.robotInterfaceVersion →
        (serviceInfo.connected = false →
          barobo.connect L m (.ok serviceInfo)
            = .error (m.serialId ++ ": " ++ "connection refused"))
        ∧ (serviceInfo.connected = true → barobo.connect L m (.ok serviceInfo) = .ok ()))
    ∧ (∀ message, barobo.connect L m reply = .error message →
        ∃ what, message = m.serialId ++ ": " ++ what) := by
  refine ⟨?_, ?_, ?_, ?_⟩
  · intro h
    simp [barobo.connect, barobo.connectTry, h, hE]
  · intro h1 h2
    simp [barobo.connect, barobo.connectTry, h1, h2, hE]
  · intro h1 h2
    constructor
    · intro hc
      simp [barobo.connect, barobo.connectTry, h1, h2, hc, hE]
    · intro hc
      simp [barobo.connect, barobo.connectTry, h1, h2, hc]
  · intro message h
    unfold barobo.connect at h
    cases ht : barobo.connectTry L reply with
    | ok u => simp [ht] at h
    | error thrown =>
      cases thrown with
      | error what =>
        simp only [ht, hE, if_true] at h
        exact ⟨what, (Except.error.inj h).symm⟩
      | stdException what =>
        simp only [ht] at h
        exact ⟨what, (Except.error.inj h).symm⟩

/-- C26 at sample values: a robot with RPC version 0.2.0 that refuses the
connection is reported for its version; one with matching versions for the
refusal. -/
theorem connect_checks_witness :
    barobo.connect sampleLibrary sampleImpl
        (.ok { rpcVersion := ⟨0, 2, 0⟩, interfaceVersion := ⟨0, 2, 1⟩, connected := false })
      = .error "ABCD: RPC version 0.2.0 != local RPC version 0.3.0"
    ∧ barobo.connect sampleLibrary sampleImpl
        (.ok { rpcVersion := ⟨0, 3, 0⟩, interfaceVersion := ⟨0, 2, 1⟩, connected := false })
      = .error "ABCD: connection refused" :=
  ⟨(connect_checks sampleLibrary sampleImpl
      { rpcVersion := ⟨0, 2, 0⟩, interfaceVersion := ⟨0, 2, 1⟩, connected := false }
      (.error "") rfl).1 (by decide),
   ((connect_checks sampleLibrary sampleImpl
      { rpcVersion := ⟨0, 3, 0⟩, interfaceVersion := ⟨0, 2, 1⟩, connected := false }
      (.error "") rfl).2.2.1 rfl rfl).1 rfl⟩

end baromesh
